import Mathlib

/-!
# spaint: argument post-processing, engine selection and raycasting

A shallow embedding of the parts of `spaintgui/main.cpp`, `ScoreRelocaliserFactory.cpp`,
`SpaintRaycaster.cpp` and `WindowedRenderer.cpp` that decide how the application is
configured, together with theorems about them.

Conventions:
* C++ exceptions are values of `Except Exception _`;
* the file system, the Boost libraries and InfiniTAM are not part of the repository: what
  the code asks of them is a field of `Environment` (main.cpp) or of `Engine` (raycasting);
* a `bf::path` is the string it prints as.
-/

namespace Spaint

/-! ## Exceptions -/

/-- The ways a call can fail to return: `std::runtime_error` (thrown by the repository's own
code), any other `std::exception` raised inside an external library, and, not an exception
at all, an execution that C++ leaves undefined (`operator[]` past the end of a vector). -/
inductive Exception where
  | runtime_error (what : String)
  | external (what : String)
  | undefined_behaviour (what : String)
  deriving DecidableEq, Repr

/-! ## Settings -/

/-- The values `ITMLibSettings::behaviourOnFailure` can take. -/
inductive FailureMode where
  | FAILUREMODE_RELOCALISE
  | FAILUREMODE_IGNORE
  | FAILUREMODE_STOP_INTEGRATION
  deriving DecidableEq, Repr

/-- The device types of `ITMLibSettings` / `ORUtils` (the enumeration is declared outside
the files at hand; only equality with `DEVICE_CUDA` is ever tested). -/
inductive DeviceType where
  | DEVICE_CPU
  | DEVICE_CUDA
  | DEVICE_METAL
  deriving DecidableEq, Repr

/-- The tracker types of `ITMLibSettings`. -/
inductive TrackerType where
  | TRACKER_COLOR
  | TRACKER_ICP
  | TRACKER_REN
  | TRACKER_IMU
  | TRACKER_WICP
  deriving DecidableEq, Repr

/-- The application settings: the InfiniTAM fields that `main` touches, plus the named
values of the settings container, in the order in which they were added. -/
structure Settings where
  deviceType : DeviceType
  trackerType : TrackerType
  behaviourOnFailure : FailureMode
  values : List (String × String)
  deriving DecidableEq, Repr

/-- The call `settings->add_value(name, value)`. -/
def Settings.add_value (s : Settings) (name value : String) : Settings :=
  { s with values := s.values ++ [(name, value)] }

/-- The call `settings->has_values(name)`. -/
def Settings.has_values (s : Settings) (name : String) : Bool :=
  s.values.any (fun kv => kv.1 == name)

/-- The first value stored under `name`, if any (the lookup done by `get_first_value`). -/
def Settings.first_value (s : Settings) (name : String) : Option String :=
  (s.values.find? (fun kv => kv.1 == name)).map Prod.snd

/-! ## Command-line arguments -/

/-- The struct `CommandLineArguments` of main.cpp. -/
structure CommandLineArguments where
  batch : Bool
  calibrationFilename : String
  cameraAfterDisk : Bool
  collaborationMode : String
  depthImageMasks : List String
  detectFiducials : Bool
  experimentTag : String
  fiducialDetectorType : String
  globalPosesSpecifier : String
  headless : Bool
  host : String
  initialFrameNumber : Int
  leapFiducialID : String
  mapSurfels : Bool
  modelSpecifier : String
  noRelocaliser : Bool
  openNIDeviceURI : String
  pipelineType : String
  port : String
  poseFileMasks : List String
  prefetchBufferCapacity : Nat
  profileMemory : Bool
  relocaliserType : String
  renderFiducials : Bool
  rgbImageMasks : List String
  runServer : Bool
  saveMeshOnExit : Bool
  saveModelsOnExit : Bool
  sequenceSpecifiers : List String
  sequenceTypes : List String
  subwindowConfigurationIndex : String
  trackerSpecifiers : List String
  trackObject : Bool
  trackSurfels : Bool
  useVicon : Bool
  verbose : Bool
  viconHost : String
  -- derived arguments
  modelDir : Option String
  sequenceDirs : List String
  deriving DecidableEq, Repr

/-- The arguments as `parse_command_line` leaves them when the command line is empty: every
option at the default registered for it, the derived arguments not yet set. -/
def CommandLineArguments.defaults : CommandLineArguments :=
  { batch := false, calibrationFilename := "", cameraAfterDisk := false,
    collaborationMode := "batch", depthImageMasks := [], detectFiducials := false,
    experimentTag := "NOT_SET", fiducialDetectorType := "aruco", globalPosesSpecifier := "",
    headless := false, host := "", initialFrameNumber := 0, leapFiducialID := "",
    mapSurfels := false, modelSpecifier := "", noRelocaliser := false,
    openNIDeviceURI := "Default", pipelineType := "semantic", port := "7851",
    poseFileMasks := [], prefetchBufferCapacity := 60, profileMemory := false,
    relocaliserType := "forest", renderFiducials := false, rgbImageMasks := [],
    runServer := false, saveMeshOnExit := false, saveModelsOnExit := false,
    sequenceSpecifiers := [], sequenceTypes := [], subwindowConfigurationIndex := "1",
    trackerSpecifiers := [], trackObject := false, trackSurfels := false, useVicon := false,
    verbose := false, viconHost := "192.168.0.101", modelDir := none, sequenceDirs := [] }

/-- The function `boost::lexical_cast<std::string>` of a `bool`. -/
def lexical_cast_bool (b : Bool) : String := if b then "1" else "0"

/-- The macro call `ADD_SETTINGS(arg)`: one `add_value` per element, in order. -/
def add_settings_list (name : String) (vals : List String) (s : Settings) : Settings :=
  vals.foldl (fun acc v => acc.add_value name v) s

/-- The function `CommandLineArguments::add_to_settings`. -/
def CommandLineArguments.add_to_settings (a : CommandLineArguments) (s0 : Settings) : Settings :=
  let s := s0.add_value "batch" (lexical_cast_bool a.batch)
  let s := s.add_value "calibrationFilename" a.calibrationFilename
  let s := s.add_value "collaborationMode" a.collaborationMode
  let s := add_settings_list "depthImageMasks" a.depthImageMasks s
  let s := s.add_value "detectFiducials" (lexical_cast_bool a.detectFiducials)
  let s := s.add_value "experimentTag" a.experimentTag
  let s := s.add_value "fiducialDetectorType" a.fiducialDetectorType
  let s := s.add_value "globalPosesSpecifier" a.globalPosesSpecifier
  let s := s.add_value "headless" (lexical_cast_bool a.headless)
  let s := s.add_value "host" a.host
  let s := s.add_value "initialFrameNumber" (toString a.initialFrameNumber)
  let s := s.add_value "leapFiducialID" a.leapFiducialID
  let s := s.add_value "mapSurfels" (lexical_cast_bool a.mapSurfels)
  let s := s.add_value "modelSpecifier" a.modelSpecifier
  let s := s.add_value "noRelocaliser" (lexical_cast_bool a.noRelocaliser)
  let s := s.add_value "openNIDeviceURI" a.openNIDeviceURI
  let s := s.add_value "pipelineType" a.pipelineType
  let s := s.add_value "port" a.port
  let s := add_settings_list "poseFileMasks" a.poseFileMasks s
  let s := s.add_value "prefetchBufferCapacity" (toString a.prefetchBufferCapacity)
  let s := s.add_value "profileMemory" (lexical_cast_bool a.profileMemory)
  let s := s.add_value "relocaliserType" a.relocaliserType
  let s := s.add_value "renderFiducials" (lexical_cast_bool a.renderFiducials)
  let s := add_settings_list "rgbImageMasks" a.rgbImageMasks s
  let s := s.add_value "runServer" (lexical_cast_bool a.runServer)
  let s := s.add_value "saveMeshOnExit" (lexical_cast_bool a.saveMeshOnExit)
  let s := s.add_value "saveModelsOnExit" (lexical_cast_bool a.saveModelsOnExit)
  let s := add_settings_list "sequenceSpecifiers" a.sequenceSpecifiers s
  let s := add_settings_list "sequenceTypes" a.sequenceTypes s
  let s := s.add_value "subwindowConfigurationIndex" a.subwindowConfigurationIndex
  let s := add_settings_list "trackerSpecifiers" a.trackerSpecifiers s
  let s := s.add_value "trackObject" (lexical_cast_bool a.trackObject)
  let s := s.add_value "trackSurfels" (lexical_cast_bool a.trackSurfels)
  let s := s.add_value "useVicon" (lexical_cast_bool a.useVicon)
  let s := s.add_value "verbose" (lexical_cast_bool a.verbose)
  s.add_value "viconHost" a.viconHost

/-! ## The environment of main.cpp -/

/-- The values of `pooled_queue::PoolEmptyStrategy`. -/
inductive PoolEmptyStrategy where
  | PES_DISCARD
  | PES_GROW
  | PES_REPLACE_RANDOM
  | PES_WAIT
  deriving DecidableEq, Repr

/-- What main.cpp asks of the file system and of the libraries it is linked against. -/
structure Environment where
  /-- The function `bf::is_directory`. -/
  is_directory : String → Bool
  /-- The function `bf::is_regular_file` (and its old spelling `bf::is_regular`). -/
  is_regular_file : String → Bool
  /-- The function `bf::exists`. -/
  path_exists : String → Bool
  /-- The function `tvgutil::find_subdir_from_executable`. -/
  find_subdir_from_executable : String → String
  /-- The `operator/` on `bf::path`. -/
  path_join : String → String → String
  /-- The function `bf::path::stem`. -/
  path_stem : String → String
  /-- The call `Model::get_world_scene_id()`. -/
  world_scene_id : String
  /-- The effect of `parse_configuration_file` followed by `po::notify` for the model's
  `settings.ini`: registered options the file sets are stored into the arguments they are
  bound to, unregistered ones are added to the settings. -/
  parse_model_configuration : String → CommandLineArguments → Settings →
    CommandLineArguments × Settings
  /-- The pose file read by `load_global_poses`: `none` when the stream cannot be opened,
  otherwise the (id, pose) pairs read, in file order, each pose as `lexical_cast` prints it. -/
  read_global_poses : String → Option (List (String × String))
  /-- Whether `SDL_Init(...) >= 0`. -/
  sdl_init_ok : Bool
  /-- The call `SDL_NumJoysticks()`. -/
  availableJoysticks : Int
  /-- Whether `SDL_JoystickOpen(i)` returns a joystick. -/
  joystick_opens : Nat → Bool
  /-- The depth image widths reported by the cameras that `make_camera_subengine` probes,
  one per camera backend compiled in, in probing order (OpenNI, PicoFlexx, RealSense, Zed). -/
  cameras : List Int
  /-- The call `Application::resources_dir()`. -/
  resources_dir : String
  /-- The `PoolEmptyStrategy` that `get_first_value` reads from a setting's text. -/
  read_pool_empty_strategy : String → PoolEmptyStrategy
  /-- The value returned by `Application::run()`. -/
  app_run_succeeds : Bool

/-! ## postprocess_arguments -/

/-- What a call of `postprocess_arguments` leaves behind: its return value, the arguments
and the settings (both passed by reference), and the lines written to `std::cout`. -/
structure PostprocessResult where
  result : Bool
  args : CommandLineArguments
  settings : Settings
  output : List String
  deriving DecidableEq, Repr

/-- How one pass through the sequence loop ends. -/
inductive SequenceNaming where
  | both
  | sevenScenes
  | spaintNaming
  | neither
  deriving DecidableEq, Repr

/-- The directory of sequence `i`: the specifier itself if it is a directory, otherwise
the specifier below the `<sequenceType>s` directory next to the executable. -/
def sequence_dir (env : Environment) (a : CommandLineArguments) (i : Nat) : String :=
  let sequenceType := if i < a.sequenceTypes.length then a.sequenceTypes.getD i "" else "sequence"
  let sequenceSpecifier := a.sequenceSpecifiers.getD i ""
  if env.is_directory sequenceSpecifier then sequenceSpecifier
  else env.path_join (env.find_subdir_from_executable (sequenceType ++ "s")) sequenceSpecifier

/-- The naming convention found in a directory (only the first depth image is looked at). -/
def sequence_naming (env : Environment) (dir : String) : SequenceNaming :=
  let sevenScenesNaming := env.is_regular_file (env.path_join dir "frame-000000.depth.png")
  let spaintNaming := env.is_regular_file (env.path_join dir "depthm000000.pgm")
  if sevenScenesNaming && spaintNaming then .both
  else if sevenScenesNaming then .sevenScenes
  else if spaintNaming then .spaintNaming
  else .neither

/-- The loop over the sequence specifiers, from index `i` with `todo` iterations left.
Returns the arguments as the loop leaves them and, when the loop executes `return false`,
the error message it printed first. -/
def sequence_loop (env : Environment) :
    (todo : Nat) → (i : Nat) → CommandLineArguments → CommandLineArguments × Option String
  | 0, _, a => (a, none)
  | todo + 1, i, a =>
    let dir := sequence_dir env a i
    let a := { a with sequenceDirs := a.sequenceDirs ++ [dir] }
    match sequence_naming env dir with
    | .both =>
      (a, some ("Error: The directory '" ++ dir ++
        "' contains images that follow both the 7-Scenes and spaint naming conventions.\n"))
    | .sevenScenes =>
      let a := { a with depthImageMasks := a.depthImageMasks ++ [env.path_join dir "frame-%06i.depth.png"] }
      let a := { a with poseFileMasks := a.poseFileMasks ++ [env.path_join dir "frame-%06i.pose.txt"] }
      let a := { a with rgbImageMasks := a.rgbImageMasks ++ [env.path_join dir "frame-%06i.color.png"] }
      sequence_loop env todo (i + 1) a
    | .spaintNaming =>
      let a := { a with depthImageMasks := a.depthImageMasks ++ [env.path_join dir "depthm%06i.pgm"] }
      let a := { a with poseFileMasks := a.poseFileMasks ++ [env.path_join dir "posem%06i.txt"] }
      let a := { a with rgbImageMasks := a.rgbImageMasks ++ [env.path_join dir "rgbm%06i.ppm"] }
      sequence_loop env todo (i + 1) a
    | .neither =>
      (a, some ("Error: The directory '" ++ dir ++
        "' does not contain depth images that follow a known naming convention. " ++
        "Manually specify the masks using the -d, -p and -r options.\n"))

/-- The function `std::vector<std::string>::resize(n)`: truncate, or pad with empty strings. -/
def resize (v : List String) (n : Nat) : List String :=
  v.take n ++ List.replicate (n - v.length) ""

/-- The loop `for i < size: trackerSpecifiers[i] = "Disk"`, from index `i` with `todo`
iterations left. -/
def set_disk_loop : (todo : Nat) → (i : Nat) → List String → List String
  | 0, _, v => v
  | todo + 1, i, v => set_disk_loop todo (i + 1) (v.set i "Disk")

/-- The function `boost::to_lower_copy`. -/
def to_lower_copy (s : String) : String := String.mk (s.toList.map Char.toLower)

/-- The test `haystack.find(needle) != std::string::npos`. -/
def contains_substring (haystack needle : String) : Bool :=
  haystack.toList.tails.any (fun t => needle.toList.isPrefixOf t)

/-- The model-loading step: when a model specifier is given, determine the model directory
and, if the model has a `settings.ini`, parse it. -/
def load_model_configuration (env : Environment) (a : CommandLineArguments) (s : Settings) :
    CommandLineArguments × Settings :=
  if a.modelSpecifier != "" then
    let modelDir :=
      if env.is_directory a.modelSpecifier then a.modelSpecifier
      else env.path_join (env.path_join (env.find_subdir_from_executable "models") a.modelSpecifier)
        env.world_scene_id
    let a := { a with modelDir := some modelDir }
    let configPath := env.path_join modelDir "settings.ini"
    if env.is_regular_file configPath then env.parse_model_configuration configPath a s
    else (a, s)
  else (a, s)

/-- If no calibration file was given, use `calib.txt` of the first sequence directory when
it exists. -/
def default_calibration (env : Environment) (a : CommandLineArguments) : CommandLineArguments :=
  if a.calibrationFilename == "" && !a.sequenceDirs.isEmpty then
    let defaultCalibrationFilename := env.path_join (a.sequenceDirs.getD 0 "") "calib.txt"
    if env.path_exists defaultCalibrationFilename then
      { a with calibrationFilename := defaultCalibrationFilename }
    else a
  else a

/-- With a global poses specifier, every disk sequence gets the tracker specifier `Disk`. -/
def disk_trackers_for_global_poses (a : CommandLineArguments) : CommandLineArguments :=
  if a.globalPosesSpecifier != "" then
    { a with trackerSpecifiers :=
        set_disk_loop a.sequenceSpecifiers.length 0 (resize a.trackerSpecifiers a.sequenceSpecifiers.length) }
  else a

/-- Surfel tracking enables surfel mapping. -/
def surfel_tracking_enables_mapping (a : CommandLineArguments) : CommandLineArguments :=
  if a.trackSurfels then { a with mapSurfels := true } else a

/-- Fiducial rendering, or a Leap fiducial, enables fiducial detection. -/
def fiducials_enable_detection (a : CommandLineArguments) : CommandLineArguments :=
  if a.renderFiducials || a.leapFiducialID != "" then { a with detectFiducials := true } else a

/-- Headless mode enables batch mode. -/
def headless_enables_batch (a : CommandLineArguments) : CommandLineArguments :=
  if a.headless then { a with batch := true } else a

/-- A Vicon fiducial detector enables the Vicon system. -/
def vicon_detector_enables_vicon (a : CommandLineArguments) : CommandLineArguments :=
  if a.fiducialDetectorType == "vicon" then { a with useVicon := true } else a

/-- A tracker specifier that mentions Vicon (in any case) enables the Vicon system. -/
def vicon_tracker_enables_vicon (a : CommandLineArguments) : CommandLineArguments :=
  if a.trackerSpecifiers.any (fun t => contains_substring (to_lower_copy t) "vicon") then
    { a with useVicon := true }
  else a

/-- A collaborative pipeline without disk sequences starts a mapping server. -/
def collaborative_enables_server (a : CommandLineArguments) : CommandLineArguments :=
  if a.pipelineType == "collaborative" && a.sequenceSpecifiers.isEmpty then
    { a with runServer := true }
  else a

/-- The adjustments of the arguments between the sequence loop and the final check, in
the order of the source. -/
def derive_flags (env : Environment) (a : CommandLineArguments) : CommandLineArguments :=
  collaborative_enables_server (vicon_tracker_enables_vicon (vicon_detector_enables_vicon
    (headless_enables_batch (fiducials_enable_detection (surfel_tracking_enables_mapping
      (disk_trackers_for_global_poses (default_calibration env a)))))))

/-- The function `postprocess_arguments` of main.cpp. -/
def postprocess_arguments (env : Environment) (args : CommandLineArguments) (settings : Settings) :
    PostprocessResult :=
  if !args.sequenceSpecifiers.isEmpty &&
      (!args.depthImageMasks.isEmpty || !args.poseFileMasks.isEmpty || !args.rgbImageMasks.isEmpty) then
    { result := false, args := args, settings := settings,
      output := ["Error: Either sequence flags or explicit depth/RGB/pose masks may be specified, but not both.\n"] }
  else
    let (args, settings) := load_model_configuration env args settings
    match sequence_loop env args.sequenceSpecifiers.length 0 args with
    | (args, some message) =>
      { result := false, args := args, settings := settings, output := [message] }
    | (args, none) =>
      let args := derive_flags env args
      if args.batch && args.runServer then
        { result := false, args := args, settings := settings,
          output := ["Error: Cannot enable both batch mode and server mode at the same time.\n"] }
      else
        { result := true, args := args, settings := args.add_to_settings settings, output := [] }

/-- A sequence directory that follows exactly one known naming convention. -/
def single_naming (env : Environment) (a : CommandLineArguments) (i : Nat) : Bool :=
  sequence_naming env (sequence_dir env a i) == .sevenScenes ||
  sequence_naming env (sequence_dir env a i) == .spaintNaming

/-- An environment with an empty file system, no joystick and no camera. -/
def Environment.bare : Environment :=
  { is_directory := fun _ => false, is_regular_file := fun _ => false,
    path_exists := fun _ => false, find_subdir_from_executable := fun d => "/opt/spaint/" ++ d,
    path_join := fun p q => p ++ "/" ++ q, path_stem := fun p => p, world_scene_id := "World",
    parse_model_configuration := fun _ a s => (a, s), read_global_poses := fun _ => none,
    sdl_init_ok := true, availableJoysticks := 0, joystick_opens := fun _ => true,
    cameras := [], resources_dir := "/opt/spaint/resources",
    read_pool_empty_strategy := fun _ => .PES_DISCARD, app_run_succeeds := true }

/-- Freshly constructed settings. -/
def Settings.fresh : Settings :=
  { deviceType := .DEVICE_CPU, trackerType := .TRACKER_ICP, behaviourOnFailure := .FAILUREMODE_IGNORE,
    values := [] }

/-! ## ScoreRelocaliserFactory -/

/-- The two implementations of `ScoreRelocaliser`. -/
inductive ScoreRelocaliserImpl where
  | ScoreRelocaliser_CPU
  | ScoreRelocaliser_CUDA
  deriving DecidableEq, Repr

/-- A constructed score relocaliser: which class it is an instance of and the arguments
its constructor received. -/
structure ScoreRelocaliser where
  impl : ScoreRelocaliserImpl
  forestFilename : String
  settings : Settings
  settingsNamespace : String
  deriving DecidableEq, Repr

/-- A `ScoreRelocaliser_Ptr`: a shared pointer, `none` when null. -/
abbrev ScoreRelocaliser_Ptr := Option ScoreRelocaliser

/-- The expression `new Impl(forestFilename, settings, settingsNamespace)`. The constructors
live outside the files at hand; `ctor_throws` says with what they throw, if they do. -/
def new_score_relocaliser
    (ctor_throws : ScoreRelocaliserImpl → String → Settings → String → Option Exception)
    (impl : ScoreRelocaliserImpl) (forestFilename : String) (settings : Settings)
    (settingsNamespace : String) : Except Exception ScoreRelocaliser :=
  match ctor_throws impl forestFilename settings settingsNamespace with
  | some e => .error e
  | none => .ok { impl := impl, forestFilename := forestFilename, settings := settings,
                  settingsNamespace := settingsNamespace }

/-- The four-argument `ScoreRelocaliserFactory::make_score_relocaliser`; `with_cuda` tells
whether the build defines `WITH_CUDA`. -/
def make_score_relocaliser (with_cuda : Bool)
    (ctor_throws : ScoreRelocaliserImpl → String → Settings → String → Option Exception)
    (forestFilename : String) (settings : Settings) (settingsNamespace : String)
    (deviceType : DeviceType) : Except Exception ScoreRelocaliser_Ptr :=
  if deviceType = .DEVICE_CUDA then
    if with_cuda then
      match new_score_relocaliser ctor_throws .ScoreRelocaliser_CUDA forestFilename settings settingsNamespace with
      | .error e => .error e
      | .ok r => .ok (some r)
    else
      .error (.runtime_error
        "Error: CUDA support not currently available. Reconfigure in CMake with the WITH_CUDA option set to on.")
  else
    match new_score_relocaliser ctor_throws .ScoreRelocaliser_CPU forestFilename settings settingsNamespace with
    | .error e => .error e
    | .ok r => .ok (some r)

/-- The three-argument overload, which supplies the namespace `ScoreRelocaliser.`. -/
def make_score_relocaliser_default_namespace (with_cuda : Bool)
    (ctor_throws : ScoreRelocaliserImpl → String → Settings → String → Option Exception)
    (forestFilename : String) (settings : Settings) (deviceType : DeviceType) :
    Except Exception ScoreRelocaliser_Ptr :=
  make_score_relocaliser with_cuda ctor_throws forestFilename settings "ScoreRelocaliser." deviceType

/-! ## Images and render states (InfiniTAM) -/

/-- A pair of `int`s. -/
structure Vector2i where
  x : Int
  y : Int
  deriving DecidableEq, Repr

/-- An RGBA pixel. -/
structure Vector4u where
  x : Nat
  y : Nat
  z : Nat
  w : Nat
  deriving DecidableEq, Repr

/-- The direction argument of `MemoryBlock::SetFrom`. -/
inductive MemoryCopyDirection where
  | CPU_TO_CPU
  | CUDA_TO_CPU
  deriving DecidableEq, Repr

/-- An `ITMUChar4Image`: its dimensions and its pixels. The pixels stand for the buffer on
whichever device holds the image's content; the copy direction passed to `SetFrom` names
that device and does not change what is copied. -/
structure ITMUChar4Image where
  noDims : Vector2i
  data : List Vector4u
  deriving DecidableEq, Repr

/-- The number of pixels of an image of the given dimensions. -/
def Vector2i.area (d : Vector2i) : Nat := (d.x * d.y).toNat

/-- The call `new ITMUChar4Image(noDims, ...)`: a buffer of `x * y` pixels (their initial content
is unspecified in C++; blank pixels here). -/
def ITMUChar4Image.allocate (noDims : Vector2i) : ITMUChar4Image :=
  { noDims := noDims, data := List.replicate noDims.area ⟨0, 0, 0, 0⟩ }

/-- The call `Clear()`: every pixel is set to zero. -/
def ITMUChar4Image.Clear (img : ITMUChar4Image) : ITMUChar4Image :=
  { img with data := List.replicate img.data.length ⟨0, 0, 0, 0⟩ }

/-- The call `ChangeDims(newDims)`: nothing if the dimensions already agree, otherwise the
dimensions are replaced and the buffer is reallocated. -/
def ITMUChar4Image.ChangeDims (img : ITMUChar4Image) (newDims : Vector2i) : ITMUChar4Image :=
  if newDims ≠ img.noDims then ITMUChar4Image.allocate newDims else img

/-- Writing `source` over the start of `buffer`, as `memcpy` into it does; the buffer keeps
its size. -/
def overwrite (buffer source : List Vector4u) : List Vector4u :=
  (source ++ buffer.drop source.length).take buffer.length

/-- The call `SetFrom(source, direction)`: the pixels of `source` are copied over this image's
buffer; the dimensions are not touched. -/
def ITMUChar4Image.SetFrom (img source : ITMUChar4Image) (_direction : MemoryCopyDirection) :
    ITMUChar4Image :=
  { img with data := overwrite img.data source.data }

/-- An image whose buffer has as many pixels as its dimensions say. -/
def ITMUChar4Image.well_formed (img : ITMUChar4Image) : Prop :=
  img.data.length = img.noDims.area

instance (img : ITMUChar4Image) : Decidable img.well_formed :=
  inferInstanceAs (Decidable (img.data.length = img.noDims.area))

/-- A camera pose. -/
structure ITMPose where
  params : List Int
  deriving DecidableEq, Repr

/-- Camera intrinsics. -/
structure ITMIntrinsics where
  params : List Int
  deriving DecidableEq, Repr

/-- A scene, as far as the code at hand is concerned: something handed to the engine. -/
structure Scene where
  content : List Int
  deriving DecidableEq, Repr

/-- A view: the depth camera's intrinsics and the current input images. -/
structure View where
  intrinsics_d : ITMIntrinsics
  rgb : ITMUChar4Image
  depth : ITMUChar4Image
  deriving DecidableEq, Repr

/-- An `ITMRenderState`: the raycast image, and everything else the engine keeps in it
(visible block list, expected depth ranges, raycast result). -/
structure ITMRenderState where
  raycastImage : ITMUChar4Image
  internal : List Int
  deriving DecidableEq, Repr

/-- A `RenderState_Ptr`: a shared pointer, `none` when null. -/
abbrev RenderState_Ptr := Option ITMRenderState

/-- The two implementations of the visualisation engine. -/
inductive VisualisationEngine where
  | ITMVisualisationEngine_CPU
  | ITMVisualisationEngine_CUDA
  deriving DecidableEq, Repr

/-- What the raycasting code asks of InfiniTAM. Each engine operation is given by what it
leaves in the render state's internal data; `RenderImage` also by the pixels it writes to
the output image. -/
structure Engine where
  /-- The call `ITMTrackerFactory::GetTrackedImageSize(settings, rgbSize, depthSize)`. -/
  GetTrackedImageSize : Settings → Vector2i → Vector2i → Vector2i
  /-- The internal data of a render state just created for a scene and an image size. -/
  initialInternal : VisualisationEngine → Scene → Vector2i → List Int
  FindVisibleBlocks : VisualisationEngine → Scene → ITMPose → ITMIntrinsics → ITMRenderState → List Int
  CreateExpectedDepths : VisualisationEngine → Scene → ITMPose → ITMIntrinsics → ITMRenderState → List Int
  RenderImage : VisualisationEngine → Scene → ITMPose → ITMIntrinsics → ITMRenderState →
    List Int × List Vector4u

/-- The calls made on InfiniTAM, as recorded in the order in which they are made. -/
inductive EngineCall where
  | construct (engine : VisualisationEngine)
  | CreateRenderState (engine : VisualisationEngine) (scene : Scene) (imgSize : Vector2i)
  | FindVisibleBlocks (engine : VisualisationEngine) (pose : ITMPose)
  | CreateExpectedDepths (engine : VisualisationEngine) (pose : ITMPose)
  | RenderImage (engine : VisualisationEngine) (pose : ITMPose)
  deriving DecidableEq, Repr

/-- The call `engine->CreateRenderState(scene, imgSize)`: a new render state whose raycast image has
the size asked for. -/
def CreateRenderState (eng : Engine) (ve : VisualisationEngine) (scene : Scene) (imgSize : Vector2i) :
    ITMRenderState :=
  { raycastImage := ITMUChar4Image.allocate imgSize, internal := eng.initialInternal ve scene imgSize }

/-! ## SpaintRaycaster -/

/-- The `SpaintModel`, as far as the raycaster and the renderer read it. -/
structure SpaintModel where
  settings : Settings
  scene : Scene
  view : View
  pose : ITMPose
  rgb_image_size : Vector2i
  depth_image_size : Vector2i
  intrinsics : ITMIntrinsics
  deriving DecidableEq, Repr

/-- A constructed `SpaintRaycaster`. Both pointer members are set by the constructor on
every path that does not throw, and nothing resets them, so they are held by value. -/
structure SpaintRaycaster where
  m_model : SpaintModel
  m_visualisationEngine : VisualisationEngine
  m_liveRenderState : ITMRenderState
  deriving DecidableEq, Repr

/-- A run of the constructor: the engine calls it made, and the raycaster or the
exception it ended with. -/
structure ConstructionRun where
  calls : List EngineCall
  outcome : Except Exception SpaintRaycaster

/-- The constructor `SpaintRaycaster::SpaintRaycaster(model)`; `with_cuda` tells whether
the build defines `WITH_CUDA`. -/
def SpaintRaycaster.construct (with_cuda : Bool) (eng : Engine) (model : SpaintModel) :
    ConstructionRun :=
  -- Set up the InfiniTAM visualisation engine.
  let selected : Except Exception VisualisationEngine :=
    if model.settings.deviceType = .DEVICE_CUDA then
      if with_cuda then .ok .ITMVisualisationEngine_CUDA
      else .error (.runtime_error
        "Error: CUDA support not currently available. Reconfigure in CMake with the WITH_CUDA option set to on.")
    else .ok .ITMVisualisationEngine_CPU
  match selected with
  | .error e => { calls := [], outcome := .error e }
  | .ok ve =>
    -- Set up the live render state.
    let trackedImageSize :=
      eng.GetTrackedImageSize model.settings model.rgb_image_size model.depth_image_size
    { calls := [.construct ve, .CreateRenderState ve model.scene trackedImageSize],
      outcome := .ok { m_model := model, m_visualisationEngine := ve,
                       m_liveRenderState := CreateRenderState eng ve model.scene trackedImageSize } }

/-- The member function `prepare_to_copy_visualisation(inputSize, output)`. -/
def prepare_to_copy_visualisation (inputSize : Vector2i) (output : ITMUChar4Image) : ITMUChar4Image :=
  (output.Clear).ChangeDims inputSize

/-- The copy direction both raycast functions choose from the device type. -/
def copy_direction (settings : Settings) : MemoryCopyDirection :=
  if settings.deviceType = .DEVICE_CUDA then .CUDA_TO_CPU else .CPU_TO_CPU

/-- The state after a call of one of the raycast functions: the output image, the caller's
render-state handle, the raycaster (with its model and live render state), and the engine
calls made, in order. -/
structure RaycastRun where
  output : ITMUChar4Image
  renderState : RenderState_Ptr
  raycaster : SpaintRaycaster
  calls : List EngineCall
  deriving DecidableEq, Repr

/-- The three engine calls of `generate_free_raycast` on a render state: find the visible
blocks, create the expected depths, render into the render state's own raycast image. -/
def raycast_pass (eng : Engine) (r : SpaintRaycaster) (pose : ITMPose) (rs : ITMRenderState) :
    ITMRenderState :=
  let scene := r.m_model.scene
  let view := r.m_model.view
  let ve := r.m_visualisationEngine
  let rs := { rs with internal := eng.FindVisibleBlocks ve scene pose view.intrinsics_d rs }
  let rs := { rs with internal := eng.CreateExpectedDepths ve scene pose view.intrinsics_d rs }
  let rendered := eng.RenderImage ve scene pose view.intrinsics_d rs
  { raycastImage := { rs.raycastImage with data := overwrite rs.raycastImage.data rendered.2 },
    internal := rendered.1 }

/-- The member function `SpaintRaycaster::generate_free_raycast(output, renderState, pose)`. -/
def SpaintRaycaster.generate_free_raycast (eng : Engine) (r : SpaintRaycaster)
    (output : ITMUChar4Image) (renderState : RenderState_Ptr) (pose : ITMPose) : RaycastRun :=
  let scene := r.m_model.scene
  let settings := r.m_model.settings
  let ve := r.m_visualisationEngine
  -- if(!renderState) renderState.reset(CreateRenderState(scene, depth image size))
  let (rs, created) : ITMRenderState × List EngineCall :=
    match renderState with
    | none => (CreateRenderState eng ve scene r.m_model.depth_image_size,
               [.CreateRenderState ve scene r.m_model.depth_image_size])
    | some rs => (rs, [])
  let rs := raycast_pass eng r pose rs
  let output := prepare_to_copy_visualisation rs.raycastImage.noDims output
  let output := output.SetFrom rs.raycastImage (copy_direction settings)
  { output := output, renderState := some rs, raycaster := r,
    calls := created ++ [.FindVisibleBlocks ve pose, .CreateExpectedDepths ve pose, .RenderImage ve pose] }

/-- The state after a call of `get_default_raycast`: the output image, the raycaster (with
its model and live render state), and the engine calls made. -/
structure DefaultRaycastRun where
  output : ITMUChar4Image
  raycaster : SpaintRaycaster
  calls : List EngineCall
  deriving DecidableEq, Repr

/-- The member function `SpaintRaycaster::get_default_raycast(output)`. -/
def SpaintRaycaster.get_default_raycast (r : SpaintRaycaster) (output : ITMUChar4Image) :
    DefaultRaycastRun :=
  let settings := r.m_model.settings
  let output := prepare_to_copy_visualisation r.m_liveRenderState.raycastImage.noDims output
  let output := output.SetFrom r.m_liveRenderState.raycastImage (copy_direction settings)
  { output := output, raycaster := r, calls := [] }

/-- Whether an engine call creates a render state. -/
def EngineCall.creates_render_state : EngineCall → Bool
  | .CreateRenderState _ _ _ => true
  | _ => false

/-- A sequence of free-mode calls, one per pose, that all pass the same output image and
the same render-state handle (as the renderer does with its members): the image and the
handle after the last call, and the engine calls of each call in turn. -/
def free_raycasts (eng : Engine) (r : SpaintRaycaster) :
    List ITMPose → ITMUChar4Image → RenderState_Ptr →
      ITMUChar4Image × RenderState_Ptr × List (List EngineCall)
  | [], output, renderState => (output, renderState, [])
  | pose :: poses, output, renderState =>
    let run := r.generate_free_raycast eng output renderState pose
    let rest := free_raycasts eng r poses run.output run.renderState
    (rest.1, rest.2.1, run.calls :: rest.2.2)

/-- InfiniTAM's `GetTrackedImageSize`: the RGB image size for the colour tracker, the
depth image size for every other tracker. -/
def GetTrackedImageSize_InfiniTAM (settings : Settings) (imgSize_rgb imgSize_d : Vector2i) : Vector2i :=
  if settings.trackerType = .TRACKER_COLOR then imgSize_rgb else imgSize_d

/-- A stand-in for InfiniTAM with its `GetTrackedImageSize`, whose `RenderImage` paints
every pixel opaque white and whose other operations keep no internal data. -/
def Engine.whitewash : Engine :=
  { GetTrackedImageSize := GetTrackedImageSize_InfiniTAM,
    initialInternal := fun _ _ _ => [],
    FindVisibleBlocks := fun _ _ _ _ rs => rs.internal,
    CreateExpectedDepths := fun _ _ _ _ rs => rs.internal,
    RenderImage := fun _ _ _ _ rs => (rs.internal, rs.raycastImage.data.map (fun _ => ⟨255, 255, 255, 255⟩)) }

/-- A model with a 2x1 colour camera and a 1x1 depth camera, tracked with the colour
tracker on the CPU. -/
def SpaintModel.two_cameras : SpaintModel :=
  { settings := { deviceType := .DEVICE_CPU, trackerType := .TRACKER_COLOR,
                  behaviourOnFailure := .FAILUREMODE_IGNORE, values := [] },
    scene := ⟨[]⟩,
    view := { intrinsics_d := ⟨[]⟩, rgb := ITMUChar4Image.allocate ⟨2, 1⟩,
              depth := ITMUChar4Image.allocate ⟨1, 1⟩ },
    pose := ⟨[]⟩, rgb_image_size := ⟨2, 1⟩, depth_image_size := ⟨1, 1⟩, intrinsics := ⟨[]⟩ }

/-- The raycaster the constructor builds for `SpaintModel.two_cameras` on the CPU. -/
def SpaintRaycaster.two_cameras : SpaintRaycaster :=
  { m_model := SpaintModel.two_cameras, m_visualisationEngine := .ITMVisualisationEngine_CPU,
    m_liveRenderState := CreateRenderState Engine.whitewash .ITMVisualisationEngine_CPU
      SpaintModel.two_cameras.scene ⟨2, 1⟩ }

/-! ## WindowedRenderer -/

/-- The camera modes of the renderer; the enumeration has the two named values, and a
variable of its type can hold other values too. -/
inductive CameraMode where
  | CM_FOLLOW
  | CM_FREE
  | unknown (value : Int)
  deriving DecidableEq, Repr

/-- The renderer's free camera. -/
structure SimpleCamera where
  position : List Int
  look : List Int
  up : List Int
  deriving DecidableEq, Repr

/-- A `WindowedRenderer`, as far as `render` reads or writes it. -/
structure WindowedRenderer where
  m_model : SpaintModel
  m_raycaster : SpaintRaycaster
  m_cameraMode : CameraMode
  m_camera : SimpleCamera
  m_image : ITMUChar4Image
  m_renderState : RenderState_Ptr
  m_width : Int
  m_height : Int
  deriving DecidableEq, Repr

/-- What `render` does, in order: the member functions and raycaster functions it calls
and the blocks of OpenGL/SDL calls around them. -/
inductive RenderCall where
  | glClear
  | render_reconstructed_scene (pose : ITMPose)
  | get_default_raycast
  | generate_free_raycast (pose : ITMPose)
  | draw_textured_quad
  | render_synthetic_scene (pose : ITMPose)
  | SDL_GL_SwapWindow
  deriving DecidableEq, Repr

/-- A run of `render` or of `render_reconstructed_scene`: the renderer afterwards, the calls
made, the engine calls made underneath, and the exception thrown, if any. -/
structure RenderRun where
  renderer : WindowedRenderer
  calls : List RenderCall
  engineCalls : List EngineCall
  thrown : Option Exception
  deriving DecidableEq, Repr

/-- The member function `WindowedRenderer::render_reconstructed_scene(pose)`. -/
def WindowedRenderer.render_reconstructed_scene (eng : Engine) (w : WindowedRenderer) (pose : ITMPose) :
    RenderRun :=
  match w.m_cameraMode with
  | .CM_FOLLOW =>
    let run := w.m_raycaster.get_default_raycast w.m_image
    { renderer := { w with m_image := run.output, m_raycaster := run.raycaster },
      calls := [.get_default_raycast, .draw_textured_quad], engineCalls := run.calls, thrown := none }
  | .CM_FREE =>
    let run := w.m_raycaster.generate_free_raycast eng w.m_image w.m_renderState pose
    { renderer := { w with m_image := run.output, m_renderState := run.renderState,
                           m_raycaster := run.raycaster },
      calls := [.generate_free_raycast pose, .draw_textured_quad], engineCalls := run.calls,
      thrown := none }
  | .unknown _ =>
    { renderer := w, calls := [], engineCalls := [],
      thrown := some (.runtime_error "Error: Unknown camera mode") }

/-- The member function `WindowedRenderer::render()`; `camera_to_pose` is `CameraPoseConverter::camera_to_pose`. -/
def WindowedRenderer.render (eng : Engine) (camera_to_pose : SimpleCamera → ITMPose)
    (w : WindowedRenderer) : RenderRun :=
  -- Determine the camera pose.
  let determined : Except Exception ITMPose :=
    match w.m_cameraMode with
    | .CM_FOLLOW => .ok w.m_model.pose
    | .CM_FREE => .ok (camera_to_pose w.m_camera)
    | .unknown _ => .error (.runtime_error "Error: Unknown camera mode")
  match determined with
  | .error e => { renderer := w, calls := [.glClear], engineCalls := [], thrown := some e }
  | .ok pose =>
    -- Render the reconstructed scene, then render a synthetic scene over the top of it.
    let run := w.render_reconstructed_scene eng pose
    match run.thrown with
    | some e =>
      { run with calls := .glClear :: .render_reconstructed_scene pose :: run.calls, thrown := some e }
    | none =>
      { run with calls := .glClear :: .render_reconstructed_scene pose :: run.calls ++
          [.render_synthetic_scene pose, .SDL_GL_SwapWindow] }

/-! ## make_tracker_config -/

/-- The tokens of a character sequence for `boost::char_separator<char>` with one dropped
separator and empty tokens dropped: `current` holds, in reverse, the characters of the
token being read. -/
def tokens_from (separator : Char) : (current : List Char) → (rest : List Char) → List String
  | current, [] => if current.isEmpty then [] else [String.mk current.reverse]
  | current, c :: rest =>
    if c = separator then
      if current.isEmpty then tokens_from separator [] rest
      else String.mk current.reverse :: tokens_from separator [] rest
    else tokens_from separator (c :: current) rest

/-- The class `boost::tokenizer` with `char_separator<char>("+")`: the pieces between `+` signs,
empty pieces dropped. -/
def tokenize_plus (s : String) : List String :=
  tokens_from '+' [] s.toList

/-- The function `load_global_poses`. The `std::map` it returns is kept as the list of
(id, pose) pairs in file order: `insert` leaves an id that is already present alone, so the
pose of an id is the first one listed for it. -/
def load_global_poses (env : Environment) (globalPosesSpecifier : String) :
    Except Exception (List (String × String)) :=
  let p :=
    if env.is_regular_file globalPosesSpecifier then globalPosesSpecifier
    else env.path_join (env.find_subdir_from_executable "global_poses") (globalPosesSpecifier ++ ".txt")
  match env.read_global_poses p with
  | none => .error (.runtime_error "Error: Could not open global poses file")
  | some poses => .ok poses

/-- The opening of the global tracker for tracker `i`, when global poses are in use. -/
def global_tracker_opening (env : Environment) (args : CommandLineArguments)
    (globalPoses : List (String × String)) (i : Nat) : Except Exception String :=
  match args.sequenceDirs[i]? with
  | none => .error (.undefined_behaviour "args.sequenceDirs[i]")
  | some dir =>
    -- Try to find the global pose for this scene based on the sequence specifier.
    let sequenceID := env.path_stem dir
    let it := globalPoses.lookup sequenceID
    -- If that doesn't work, try to find the global pose based on the scene ID.
    let it :=
      match it with
      | some pose => some pose
      | none =>
        let sceneID := if i = 0 then env.world_scene_id else "Local" ++ toString i
        globalPoses.lookup sceneID
    match it with
    | some pose => .ok ("<tracker type='global'><params>" ++ pose ++ "</params>")
    | none => .error (.runtime_error ("Error: Global pose for sequence '" ++ sequenceID ++ "' not found"))

/-- What a `Disk` chunk of tracker `i` adds to the configuration. -/
def disk_chunk_config (env : Environment) (args : CommandLineArguments)
    (globalPoses : List (String × String)) (i : Nat) : Except Exception String :=
  if args.poseFileMasks.length < i then
    .error (.runtime_error "Error: Not enough pose file masks have been specified with the -p flag.")
  else
    let opening : Except Exception String :=
      if !globalPoses.isEmpty then global_tracker_opening env args globalPoses i else .ok ""
    match opening with
    | .error e => .error e
    | .ok opening =>
      match args.poseFileMasks[i]? with
      | none => .error (.undefined_behaviour "args.poseFileMasks[i]")
      | some mask =>
        .ok (opening ++ "<tracker type='infinitam'><params>type=file,mask=" ++ mask ++
          ",initialFrameNo=" ++ toString args.initialFrameNumber ++ "</params></tracker>" ++
          (if !globalPoses.isEmpty then "</tracker>" else ""))

/-- What one chunk of the specifier of tracker `i` adds to the configuration. -/
def chunk_config (env : Environment) (args : CommandLineArguments)
    (globalPoses : List (String × String)) (i : Nat) (chunk : String) : Except Exception String :=
  if chunk == "InfiniTAM" then .ok "<tracker type='infinitam'/>"
  else if chunk == "Disk" then disk_chunk_config env args globalPoses i
  else .ok ("<tracker type='import'><params>builtin:" ++ chunk ++ "</params></tracker>")

/-- The loop over the chunks of one tracker specifier. -/
def chunks_config (env : Environment) (args : CommandLineArguments)
    (globalPoses : List (String × String)) (i : Nat) : List String → Except Exception String
  | [] => .ok ""
  | chunk :: chunks =>
    match chunk_config env args globalPoses i chunk with
    | .error e => .error e
    | .ok first =>
      match chunks_config env args globalPoses i chunks with
      | .error e => .error e
      | .ok rest => .ok (first ++ rest)

/-- What tracker `i` adds to the configuration. -/
def tracker_config (env : Environment) (args : CommandLineArguments)
    (globalPoses : List (String × String)) (i : Nat) : Except Exception String :=
  let trackerSpecifier :=
    if i < args.trackerSpecifiers.length then args.trackerSpecifiers.getD i "" else "InfiniTAM"
  let chunks := tokenize_plus trackerSpecifier
  let chunkCount := chunks.length
  match chunks_config env args globalPoses i chunks with
  | .error e => .error e
  | .ok inner =>
    .ok ((if chunkCount > 1 then "<tracker type='composite'>" else "") ++ inner ++
      (if chunkCount > 1 then "</tracker>" else ""))

/-- The loop over the trackers, from index `i` with `todo` iterations left. -/
def trackers_config (env : Environment) (args : CommandLineArguments)
    (globalPoses : List (String × String)) : (todo : Nat) → (i : Nat) → Except Exception String
  | 0, _ => .ok ""
  | todo + 1, i =>
    match tracker_config env args globalPoses i with
    | .error e => .error e
    | .ok first =>
      match trackers_config env args globalPoses todo (i + 1) with
      | .error e => .error e
      | .ok rest => .ok (first ++ rest)

/-- The number of trackers `make_tracker_config` sets up. -/
def tracker_count (args : CommandLineArguments) : Nat :=
  let trackerCount := args.sequenceSpecifiers.length
  if trackerCount = 0 || args.cameraAfterDisk then trackerCount + 1 else trackerCount

/-- The function `make_tracker_config` of main.cpp. -/
def make_tracker_config (env : Environment) (args : CommandLineArguments) : Except Exception String :=
  -- If the user wants to use global poses for the scenes, load them from disk.
  let loaded : Except Exception (List (String × String)) :=
    if args.globalPosesSpecifier != "" then load_global_poses env args.globalPosesSpecifier else .ok []
  match loaded with
  | .error e => .error e
  | .ok globalPoses =>
    let trackerCount := tracker_count args
    match trackers_config env args globalPoses trackerCount 0 with
    | .error e => .error e
    | .ok inner =>
      .ok ((if trackerCount > 1 then "<tracker type='composite' policy='sequential'>" else "") ++ inner ++
        (if trackerCount > 1 then "</tracker>" else ""))

/-! ## main -/

/-- Modelled from the spec: the mapping modes of a scene. The enumeration
`SLAMComponent::MappingMode` is declared outside the files at hand; the spec lists the
modes voxels-only, surfels-only and both, and main.cpp names `MAP_VOXELS_ONLY` and
`MAP_BOTH`. -/
inductive MappingMode where
  | MAP_VOXELS_ONLY
  | MAP_SURFELS_ONLY
  | MAP_BOTH
  deriving DecidableEq, Repr

/-- The tracking modes of a scene (`SLAMComponent::TrackingMode`). -/
inductive TrackingMode where
  | TRACK_VOXELS
  | TRACK_SURFELS
  deriving DecidableEq, Repr

/-- The modes of a mapping server (`MappingServer::Mode`). -/
inductive ServerMode where
  | SM_SINGLE_CLIENT
  | SM_MULTI_CLIENT
  deriving DecidableEq, Repr

/-- The collaboration modes (`CollaborationMode`). -/
inductive CollaborationMode where
  | CM_BATCH
  | CM_LIVE
  deriving DecidableEq, Repr

/-- A `MappingServer`: the mode it was constructed with, and whether `start()` was called. -/
structure MappingServer where
  mode : ServerMode
  started : Bool
  deriving DecidableEq, Repr

/-- A `MappingClient`, by the arguments of its constructor. -/
structure MappingClient where
  host : String
  port : String
  poolEmptyStrategy : PoolEmptyStrategy
  deriving DecidableEq, Repr

/-- The image source subengines `main` creates, by the arguments of their constructors. -/
inductive ImageSourceEngine where
  | IdleImageSourceEngine (calibrationFilename : String)
  | AsyncImageSourceEngine (calibrationFilename rgbImageMask depthImageMask : String)
      (initialFrameNumber : Int) (prefetchBufferCapacity : Nat)
  | camera (depthImageWidth : Int)
  deriving DecidableEq, Repr

/-- A `CompositeImageSourceEngine`: its subengines, in the order added. -/
abbrev CompositeImageSourceEngine := List ImageSourceEngine

/-- The pipelines `main` constructs, by the arguments of their constructors (the settings
pointer, the same for all, is left out). -/
inductive Pipeline where
  | SLAMPipeline (resourcesDir : String) (imageSourceEngine : CompositeImageSourceEngine)
      (trackerConfig : String) (mappingMode : MappingMode) (trackingMode : TrackingMode)
      (modelDir : Option String) (detectFiducials : Bool)
  | SemanticPipeline (resourcesDir : String) (maxLabelCount : Nat)
      (imageSourceEngine : CompositeImageSourceEngine) (seed : Nat) (trackerConfig : String)
      (mappingMode : MappingMode) (trackingMode : TrackingMode) (modelDir : Option String)
      (detectFiducials : Bool)
  | ObjectivePipeline (resourcesDir : String) (maxLabelCount : Nat)
      (imageSourceEngine : CompositeImageSourceEngine) (trackerConfig : String)
      (mappingMode : MappingMode) (trackingMode : TrackingMode) (detectFiducials : Bool)
      (notTrackObject : Bool)
  | CollaborativePipeline (resourcesDir : String) (imageSourceEngines : List CompositeImageSourceEngine)
      (trackerConfigs : List String) (mappingModes : List MappingMode)
      (trackingModes : List TrackingMode) (detectFiducials : Bool)
      (mappingServer : Option MappingServer) (collaborationMode : CollaborationMode)
  deriving DecidableEq, Repr

/-- The mapping modes of the scenes of a pipeline. -/
def Pipeline.mappingModes : Pipeline → List MappingMode
  | .SLAMPipeline _ _ _ m _ _ _ => [m]
  | .SemanticPipeline _ _ _ _ _ m _ _ _ => [m]
  | .ObjectivePipeline _ _ _ _ m _ _ _ => [m]
  | .CollaborativePipeline _ _ _ ms _ _ _ _ => ms

/-- The tracking modes of the scenes of a pipeline. -/
def Pipeline.trackingModes : Pipeline → List TrackingMode
  | .SLAMPipeline _ _ _ _ t _ _ => [t]
  | .SemanticPipeline _ _ _ _ _ _ t _ _ => [t]
  | .ObjectivePipeline _ _ _ _ _ t _ _ => [t]
  | .CollaborativePipeline _ _ _ _ ts _ _ _ => ts

/-- The `Application` object, by what `main` passes to it and sets on it. -/
structure Application where
  pipeline : Pipeline
  renderFiducials : Bool
  batchModeEnabled : Bool
  serverModeEnabled : Bool
  saveMemoryUsage : Bool
  saveMeshOnExit : Bool
  saveModelsOnExit : Bool
  deriving DecidableEq, Repr

/-- What the user typed, as `boost::program_options` hands it to `postprocess_arguments`:
the arguments stored by `po::notify` (command line, then the file given with `-f`), and
whether `--help` was given. -/
structure CommandLine where
  args : CommandLineArguments
  help : Bool
  deriving DecidableEq, Repr

/-- The function `parse_command_line` from the call of `postprocess_arguments` on: the
value it returns, and the arguments and settings it leaves. -/
def parse_command_line (env : Environment) (commandLine : CommandLine) (settings : Settings) :
    Bool × CommandLineArguments × Settings :=
  let post := postprocess_arguments env commandLine.args settings
  if !post.result then (false, post.args, post.settings)
  else if commandLine.help then (false, post.args, post.settings)
  else (true, post.args, post.settings)

/-- The function `make_camera_subengine`: the first camera probed that can provide depth
images, if any. -/
def make_camera_subengine (env : Environment) : Option ImageSourceEngine :=
  (env.cameras.find? (fun depthImageWidth => depthImageWidth != 0)).map .camera

/-- Everything a run of `main` sets up, and how it ends. -/
structure MainRun where
  /-- The value `main` returns, or the code passed to `exit`. -/
  exitCode : Int
  args : CommandLineArguments
  settings : Settings
  /-- The device type passed to the memory block factory. -/
  memoryBlockDeviceType : Option DeviceType
  /-- The variable `mappingServer`: `none` while null. -/
  mappingServer : Option MappingServer
  /-- Whether the collaborative branch set the default voxel size. -/
  defaultVoxelSizeSet : Bool
  /-- The variable `pipeline`: `none` while null. -/
  pipeline : Option Pipeline
  /-- The client passed to `set_mapping_client`, with the scene ID it is set for. -/
  mappingClient : Option (String × MappingClient)
  application : Option Application
  /-- The exception caught by the handler of `main`, if one was thrown. -/
  caught : Option Exception
  deriving DecidableEq, Repr

/-- The function `main` ending in its exception handler. -/
def MainRun.fail (run : MainRun) (e : Exception) : MainRun :=
  { run with exitCode := 1, caught := some e }

/-- The last part of `main`: configure and run the application. -/
def main_run_application (env : Environment) (run : MainRun) (pipeline : Pipeline) : MainRun :=
  let args := run.args
  let app : Application :=
    { pipeline := pipeline, renderFiducials := args.renderFiducials,
      batchModeEnabled := args.batch, serverModeEnabled := args.runServer,
      saveMemoryUsage := args.profileMemory, saveMeshOnExit := args.saveMeshOnExit,
      saveModelsOnExit := args.saveModelsOnExit }
  { run with application := some app, exitCode := if env.app_run_succeeds then 0 else 1 }

/-- The function `main`, from the mapping client on. -/
def main_set_mapping_client (env : Environment) (run : MainRun) (pipeline : Pipeline) : MainRun :=
  let args := run.args
  let run :=
    if args.host != "" then
      let poolEmptyStrategy :=
        match run.settings.first_value "MappingClient.poolEmptyStrategy" with
        | some text => env.read_pool_empty_strategy text
        | none => .PES_DISCARD
      { run with mappingClient := some (env.world_scene_id,
          { host := args.host, port := args.port, poolEmptyStrategy := poolEmptyStrategy }) }
    else run
  main_run_application env run pipeline

/-- The loop adding one subengine per disk sequence (single-scene pipelines), from index
`i` with `todo` iterations left. -/
def disk_subengines (args : CommandLineArguments) :
    (todo : Nat) → (i : Nat) → Except Exception (List ImageSourceEngine)
  | 0, _ => .ok []
  | todo + 1, i =>
    match args.rgbImageMasks[i]? with
    | none => .error (.undefined_behaviour "args.rgbImageMasks[i]")
    | some rgbImageMask =>
      match disk_subengines args todo (i + 1) with
      | .error e => .error e
      | .ok rest =>
        .ok (.AsyncImageSourceEngine args.calibrationFilename rgbImageMask
          (args.depthImageMasks.getD i "") args.initialFrameNumber args.prefetchBufferCapacity :: rest)

/-- The image source engine of a single-scene pipeline. -/
def single_image_source_engine (env : Environment) (args : CommandLineArguments) :
    Except Exception CompositeImageSourceEngine :=
  let idle : List ImageSourceEngine :=
    match args.modelDir with
    | some modelDir =>
      if args.depthImageMasks.isEmpty && !args.cameraAfterDisk then
        [.IdleImageSourceEngine (env.path_join modelDir "calib.txt")]
      else []
    | none => []
  match disk_subengines args args.depthImageMasks.length 0 with
  | .error e => .error e
  | .ok disk =>
    let camera : List ImageSourceEngine :=
      if (args.modelDir.isNone && args.depthImageMasks.isEmpty) || args.cameraAfterDisk then
        match make_camera_subengine env with
        | some cameraSubengine => [cameraSubengine]
        | none => []
      else []
    .ok (idle ++ disk ++ camera)

/-- The single-scene branch of `main` (`pipelineType != "collaborative"`). -/
def make_single_pipeline (env : Environment) (args : CommandLineArguments) : Except Exception Pipeline :=
  match single_image_source_engine env args with
  | .error e => .error e
  | .ok imageSourceEngine =>
    let maxLabelCount := 10
    let mappingMode : MappingMode := if args.mapSurfels then .MAP_BOTH else .MAP_VOXELS_ONLY
    let trackingMode : TrackingMode := if args.trackSurfels then .TRACK_SURFELS else .TRACK_VOXELS
    if args.pipelineType == "slam" then
      match make_tracker_config env args with
      | .error e => .error e
      | .ok trackerConfig =>
        .ok (.SLAMPipeline env.resources_dir imageSourceEngine trackerConfig mappingMode trackingMode
          args.modelDir args.detectFiducials)
    else if args.pipelineType == "semantic" then
      let seed := 12345
      match make_tracker_config env args with
      | .error e => .error e
      | .ok trackerConfig =>
        .ok (.SemanticPipeline env.resources_dir maxLabelCount imageSourceEngine seed trackerConfig
          mappingMode trackingMode args.modelDir args.detectFiducials)
    else if args.pipelineType == "objective" then
      match make_tracker_config env args with
      | .error e => .error e
      | .ok trackerConfig =>
        .ok (.ObjectivePipeline env.resources_dir maxLabelCount imageSourceEngine trackerConfig
          mappingMode trackingMode args.detectFiducials (!args.trackObject))
    else .error (.runtime_error ("Unknown pipeline type: " ++ args.pipelineType))

/-- The loop adding one image source engine per disk sequence (collaborative pipeline),
from index `i` with `todo` iterations left. -/
def collaborative_engines (env : Environment) (args : CommandLineArguments) :
    (todo : Nat) → (i : Nat) → Except Exception (List CompositeImageSourceEngine)
  | 0, _ => .ok []
  | todo + 1, i =>
    match args.rgbImageMasks[i]?, args.sequenceDirs[i]? with
    | none, _ => .error (.undefined_behaviour "args.rgbImageMasks[i]")
    | some _, none => .error (.undefined_behaviour "args.sequenceDirs[i]")
    | some rgbImageMask, some sequenceDir =>
      let calibrationPath := env.path_join sequenceDir "calib.txt"
      let calibrationFilename :=
        if env.path_exists calibrationPath then calibrationPath else args.calibrationFilename
      match collaborative_engines env args todo (i + 1) with
      | .error e => .error e
      | .ok rest =>
        .ok ([.AsyncImageSourceEngine calibrationFilename rgbImageMask
          (args.depthImageMasks.getD i "") args.initialFrameNumber args.prefetchBufferCapacity] :: rest)

/-- The loop setting up the mapping modes, tracking modes and tracker configurations of
the collaborative pipeline, from index `i` with `todo` iterations left. -/
def collaborative_modes (args : CommandLineArguments) :
    (todo : Nat) → (i : Nat) → Except Exception (List MappingMode × List TrackingMode × List String)
  | 0, _ => .ok ([], [], [])
  | todo + 1, i =>
    match args.poseFileMasks[i]? with
    | none => .error (.undefined_behaviour "args.poseFileMasks[i]")
    | some poseFileMask =>
      match collaborative_modes args todo (i + 1) with
      | .error e => .error e
      | .ok (mappingModes, trackingModes, trackerConfigs) =>
        .ok ((if args.mapSurfels then .MAP_BOTH else .MAP_VOXELS_ONLY) :: mappingModes,
             (if args.trackSurfels then .TRACK_SURFELS else .TRACK_VOXELS) :: trackingModes,
             ("<tracker type='infinitam'><params>type=file,mask=" ++ poseFileMask ++
               "</params></tracker>") :: trackerConfigs)

/-- The collaborative branch of `main`. -/
def make_collaborative_pipeline (env : Environment) (args : CommandLineArguments)
    (mappingServer : Option MappingServer) : Except Exception Pipeline :=
  match collaborative_engines env args args.depthImageMasks.length 0 with
  | .error e => .error e
  | .ok imageSourceEngines =>
    match collaborative_modes args imageSourceEngines.length 0 with
    | .error e => .error e
    | .ok (mappingModes, trackingModes, trackerConfigs) =>
      let collaborationMode : CollaborationMode :=
        if args.collaborationMode == "batch" then .CM_BATCH else .CM_LIVE
      .ok (.CollaborativePipeline env.resources_dir imageSourceEngines trackerConfigs mappingModes
        trackingModes args.detectFiducials mappingServer collaborationMode)

/-- The function `main`, from the construction of the pipeline on. -/
def main_construct_pipeline (env : Environment) (run : MainRun) : MainRun :=
  let args := run.args
  if args.pipelineType != "collaborative" then
    match make_single_pipeline env args with
    | .error e => run.fail e
    | .ok pipeline => main_set_mapping_client env { run with pipeline := some pipeline } pipeline
  else
    let run :=
      if !run.settings.has_values "SceneParams.voxelSize" then { run with defaultVoxelSizeSet := true }
      else run
    match make_collaborative_pipeline env args run.mappingServer with
    | .error e => run.fail e
    | .ok pipeline => main_set_mapping_client env { run with pipeline := some pipeline } pipeline

/-- The function `main`, from the failure behaviour of the relocaliser on. -/
def main_configure (env : Environment) (run : MainRun) : MainRun :=
  let args := run.args
  -- Set the failure behaviour of the relocaliser.
  let run :=
    if args.cameraAfterDisk || !args.noRelocaliser then
      { run with settings := { run.settings with behaviourOnFailure := .FAILUREMODE_RELOCALISE } }
    else run
  -- Pass the device type to the memory block factory.
  let run := { run with memoryBlockDeviceType := some run.settings.deviceType }
  -- Run a remote mapping server if requested.
  let run :=
    if args.runServer then
      let mode : ServerMode :=
        if args.pipelineType == "collaborative" then .SM_MULTI_CLIENT else .SM_SINGLE_CLIENT
      { run with mappingServer := some { mode := mode, started := true } }
    else run
  main_construct_pipeline env run

/-- The index of the first joystick that cannot be opened, among `todo` joysticks from
index `i` on. -/
def first_failing_joystick (env : Environment) : (todo : Nat) → (i : Nat) → Option Nat
  | 0, _ => none
  | todo + 1, i =>
    if !env.joystick_opens i then some i else first_failing_joystick env todo (i + 1)

/-- The function `main`, for what `boost::program_options` made of the command line and
the settings object as constructed (with the unregistered options of the `-f` file). -/
def main (env : Environment) (commandLine : CommandLine) (settings : Settings) : MainRun :=
  let parsed := parse_command_line env commandLine settings
  let run : MainRun :=
    { exitCode := 0, args := parsed.2.1, settings := parsed.2.2, memoryBlockDeviceType := none,
      mappingServer := none, defaultVoxelSizeSet := false, pipeline := none, mappingClient := none,
      application := none, caught := none }
  if !parsed.1 then run
  else if !run.args.headless && !env.sdl_init_ok then
    -- quit("Error: Failed to initialise SDL.")
    { run with exitCode := 1 }
  else
    match first_failing_joystick env env.availableJoysticks.toNat 0 with
    | some i => run.fail (.runtime_error ("Couldn't open joystick " ++ toString i))
    | none => main_configure env run

/-- The run of `main` up to the end of its start-up: only the arguments and the settings
have been set. -/
def main_initial_run (env : Environment) (commandLine : CommandLine) (settings : Settings) : MainRun :=
  { exitCode := 0, args := (parse_command_line env commandLine settings).2.1,
    settings := (parse_command_line env commandLine settings).2.2, memoryBlockDeviceType := none,
    mappingServer := none, defaultVoxelSizeSet := false, pipeline := none, mappingClient := none,
    application := none, caught := none }

/-- Whether `main` gets past its start-up: `parse_command_line` returns true (arguments
accepted, no `--help`), SDL initialises unless the run is headless, and every joystick
opens. -/
def main_starts_up (env : Environment) (commandLine : CommandLine) (settings : Settings) : Bool :=
  (parse_command_line env commandLine settings).1 &&
  ((parse_command_line env commandLine settings).2.1.headless || env.sdl_init_ok) &&
  (first_failing_joystick env env.availableJoysticks.toNat 0).isNone

/-- The collaboration mode a pipeline was constructed with, for a collaborative pipeline. -/
def Pipeline.collaborationMode : Pipeline → Option CollaborationMode
  | .CollaborativePipeline _ _ _ _ _ _ _ c => some c
  | _ => none

/-- The run of `main` as `main_configure` hands it to the construction of the pipeline:
failure behaviour set, device type passed on, mapping server started if requested. -/
def main_configured_run (run : MainRun) : MainRun :=
  let args := run.args
  let run :=
    if args.cameraAfterDisk || !args.noRelocaliser then
      { run with settings := { run.settings with behaviourOnFailure := .FAILUREMODE_RELOCALISE } }
    else run
  let run := { run with memoryBlockDeviceType := some run.settings.deviceType }
  if args.runServer then
    let mode : ServerMode :=
      if args.pipelineType == "collaborative" then .SM_MULTI_CLIENT else .SM_SINGLE_CLIENT
    { run with mappingServer := some { mode := mode, started := true } }
  else run

/-- Whether the string `s` begins with the string `opening`. -/
def begins_with (s opening : String) : Bool :=
  opening.data.isPrefixOf s.data

/-- Whether the string `s` ends with the string `closing`. -/
def ends_with (s closing : String) : Bool :=
  closing.data.isSuffixOf s.data

/-- The global poses `make_tracker_config` works with: those loaded from disk when a
global poses specifier is given, none otherwise. -/
def global_poses_in_use (env : Environment) (args : CommandLineArguments) :
    Except Exception (List (String × String)) :=
  if args.globalPosesSpecifier != "" then load_global_poses env args.globalPosesSpecifier else .ok []

/-- The tracker specifier `make_tracker_config` uses for tracker `i`: the one given on the
command line if there is one, `InfiniTAM` otherwise. -/
def tracker_specifier (args : CommandLineArguments) (i : Nat) : String :=
  if i < args.trackerSpecifiers.length then args.trackerSpecifiers.getD i "" else "InfiniTAM"

/-- The strings of a list, one after the other. -/
def concat_all : List String → String
  | [] => ""
  | s :: rest => s ++ concat_all rest

/-- The file name patterns (depth, pose, RGB) the sequence loop uses for a directory of
the given naming: those of 7-Scenes, or those of spaint (for a directory it does not
recognise the loop appends no mask). -/
def mask_names : SequenceNaming → String × String × String
  | .sevenScenes => ("frame-%06i.depth.png", "frame-%06i.pose.txt", "frame-%06i.color.png")
  | _ => ("depthm%06i.pgm", "posem%06i.txt", "rgbm%06i.ppm")

/-- The depth image mask derived from sequence specifier `i`. -/
def sequence_depth_mask (env : Environment) (a : CommandLineArguments) (i : Nat) : String :=
  env.path_join (sequence_dir env a i) (mask_names (sequence_naming env (sequence_dir env a i))).1

/-- The pose file mask derived from sequence specifier `i`. -/
def sequence_pose_mask (env : Environment) (a : CommandLineArguments) (i : Nat) : String :=
  env.path_join (sequence_dir env a i) (mask_names (sequence_naming env (sequence_dir env a i))).2.1

/-- The RGB image mask derived from sequence specifier `i`. -/
def sequence_rgb_mask (env : Environment) (a : CommandLineArguments) (i : Nat) : String :=
  env.path_join (sequence_dir env a i) (mask_names (sequence_naming env (sequence_dir env a i))).2.2

/-- Whether a directory contains the 7-Scenes marker file `frame-000000.depth.png`. -/
def has_seven_scenes_marker (env : Environment) (dir : String) : Bool :=
  env.is_regular_file (env.path_join dir "frame-000000.depth.png")

/-- Whether a directory contains the spaint marker file `depthm000000.pgm`. -/
def has_spaint_marker (env : Environment) (dir : String) : Bool :=
  env.is_regular_file (env.path_join dir "depthm000000.pgm")

/-- An environment whose file system holds one 7-Scenes sequence, `chess`, in the
`sequences` directory next to the executable. -/
def Environment.with_chess : Environment :=
  { Environment.bare with
    is_regular_file := fun p => p == "/opt/spaint/sequences/chess/frame-000000.depth.png" }

/-- An environment like `Environment.bare` in which the text `PES_WAIT` reads as the
pool-empty strategy `PES_WAIT`. -/
def Environment.reading_wait : Environment :=
  { Environment.bare with
    read_pool_empty_strategy := fun text => if text == "PES_WAIT" then .PES_WAIT else .PES_DISCARD }

/-- An environment whose file system holds two sequences: the 7-Scenes sequence `chess` in
the `sequences` directory next to the executable, and a sequence that follows the spaint
naming convention in the directory `/data/office`. -/
def Environment.with_two_sequences : Environment :=
  { Environment.bare with
    is_directory := fun p => p == "/data/office",
    is_regular_file := fun p =>
      p == "/opt/spaint/sequences/chess/frame-000000.depth.png" ||
      p == "/data/office/depthm000000.pgm" }

/-! # Theorems -/

/-! ## Lemmas on postprocess_arguments -/

theorem add_settings_list_length (name : String) (vals : List String) (s : Settings) :
    (add_settings_list name vals s).values.length = s.values.length + vals.length := by
  induction vals generalizing s with
  | nil => simp [add_settings_list]
  | cons v vs ih =>
    have h := ih (s.add_value name v)
    simp only [add_settings_list, List.foldl_cons] at h ⊢
    rw [h]
    simp [Settings.add_value]
    omega

theorem add_value_length (s : Settings) (name value : String) :
    (s.add_value name value).values.length = s.values.length + 1 := by
  simp [Settings.add_value]

theorem add_to_settings_length (a : CommandLineArguments) (s : Settings) :
    s.values.length < (a.add_to_settings s).values.length := by
  simp only [CommandLineArguments.add_to_settings, add_value_length, add_settings_list_length]
  omega

theorem add_to_settings_ne (a : CommandLineArguments) (s : Settings) :
    a.add_to_settings s ≠ s := by
  intro h
  have := add_to_settings_length a s
  rw [h] at this
  exact Nat.lt_irrefl _ this

/-- The sequence loop writes the three mask lists and the sequence directories only. -/
theorem sequence_loop_frame (env : Environment) (todo i : Nat) (a : CommandLineArguments) :
    (sequence_loop env todo i a).1 =
      { a with depthImageMasks := (sequence_loop env todo i a).1.depthImageMasks,
               poseFileMasks := (sequence_loop env todo i a).1.poseFileMasks,
               rgbImageMasks := (sequence_loop env todo i a).1.rgbImageMasks,
               sequenceDirs := (sequence_loop env todo i a).1.sequenceDirs } := by
  induction todo generalizing i a with
  | zero => simp [sequence_loop]
  | succ n ih =>
    simp only [sequence_loop]
    split
    · rfl
    · rw [ih]
    · rw [ih]
    · rfl

theorem sequence_loop_completes (env : Environment) (todo i : Nat) (a : CommandLineArguments)
    (h : ∀ j, i ≤ j → j < i + todo → single_naming env a j = true) :
    (sequence_loop env todo i a).2 = none := by
  induction todo generalizing i a with
  | zero => simp [sequence_loop]
  | succ n ih =>
    have hi := h i (Nat.le_refl _) (by omega)
    simp only [single_naming, Bool.or_eq_true, beq_iff_eq] at hi
    simp only [sequence_loop]
    rcases hi with hi | hi
    · rw [hi]
      apply ih
      intro j h1 h2
      exact h j (by omega) (by omega)
    · rw [hi]
      apply ih
      intro j h1 h2
      exact h j (by omega) (by omega)

section frames
variable {α : Type}

theorem default_calibration_frame (env : Environment) (f : CommandLineArguments → α)
    (hf : ∀ a v, f { a with calibrationFilename := v } = f a) (a : CommandLineArguments) :
    f (default_calibration env a) = f a := by
  unfold default_calibration
  split
  · simp only []
    split
    · exact hf _ _
    · rfl
  · rfl

theorem disk_trackers_frame (f : CommandLineArguments → α)
    (hf : ∀ a v, f { a with trackerSpecifiers := v } = f a) (a : CommandLineArguments) :
    f (disk_trackers_for_global_poses a) = f a := by
  unfold disk_trackers_for_global_poses
  split
  · exact hf _ _
  · rfl

theorem surfel_tracking_frame (f : CommandLineArguments → α)
    (hf : ∀ a v, f { a with mapSurfels := v } = f a) (a : CommandLineArguments) :
    f (surfel_tracking_enables_mapping a) = f a := by
  unfold surfel_tracking_enables_mapping
  split
  · exact hf _ _
  · rfl

theorem fiducials_frame (f : CommandLineArguments → α)
    (hf : ∀ a v, f { a with detectFiducials := v } = f a) (a : CommandLineArguments) :
    f (fiducials_enable_detection a) = f a := by
  unfold fiducials_enable_detection
  split
  · exact hf _ _
  · rfl

theorem headless_frame (f : CommandLineArguments → α)
    (hf : ∀ a v, f { a with batch := v } = f a) (a : CommandLineArguments) :
    f (headless_enables_batch a) = f a := by
  unfold headless_enables_batch
  split
  · exact hf _ _
  · rfl

theorem vicon_detector_frame (f : CommandLineArguments → α)
    (hf : ∀ a v, f { a with useVicon := v } = f a) (a : CommandLineArguments) :
    f (vicon_detector_enables_vicon a) = f a := by
  unfold vicon_detector_enables_vicon
  split
  · exact hf _ _
  · rfl

theorem vicon_tracker_frame (f : CommandLineArguments → α)
    (hf : ∀ a v, f { a with useVicon := v } = f a) (a : CommandLineArguments) :
    f (vicon_tracker_enables_vicon a) = f a := by
  unfold vicon_tracker_enables_vicon
  split
  · exact hf _ _
  · rfl

theorem collaborative_frame (f : CommandLineArguments → α)
    (hf : ∀ a v, f { a with runServer := v } = f a) (a : CommandLineArguments) :
    f (collaborative_enables_server a) = f a := by
  unfold collaborative_enables_server
  split
  · exact hf _ _
  · rfl

/-- A quantity that does not depend on the seven arguments `derive_flags` may write is the
same before and after it. -/
theorem derive_flags_frame (env : Environment) (f : CommandLineArguments → α)
    (h1 : ∀ a v, f { a with calibrationFilename := v } = f a)
    (h2 : ∀ a v, f { a with trackerSpecifiers := v } = f a)
    (h3 : ∀ a v, f { a with mapSurfels := v } = f a)
    (h4 : ∀ a v, f { a with detectFiducials := v } = f a)
    (h5 : ∀ a v, f { a with batch := v } = f a)
    (h6 : ∀ a v, f { a with useVicon := v } = f a)
    (h7 : ∀ a v, f { a with runServer := v } = f a) (a : CommandLineArguments) :
    f (derive_flags env a) = f a := by
  unfold derive_flags
  rw [collaborative_frame f h7, vicon_tracker_frame f h6, vicon_detector_frame f h6,
    headless_frame f h5, fiducials_frame f h4, surfel_tracking_frame f h3,
    disk_trackers_frame f h2, default_calibration_frame env f h1]

end frames

theorem derive_flags_batch (env : Environment) (a : CommandLineArguments) :
    (derive_flags env a).batch = (a.batch || a.headless) := by
  unfold derive_flags
  rw [collaborative_frame (·.batch) (fun _ _ => rfl),
    vicon_tracker_frame (·.batch) (fun _ _ => rfl),
    vicon_detector_frame (·.batch) (fun _ _ => rfl)]
  have h : ∀ b : CommandLineArguments, (headless_enables_batch b).batch = (b.batch || b.headless) := by
    intro b
    unfold headless_enables_batch
    split <;> simp_all
  rw [h, fiducials_frame (fun b => b.batch || b.headless) (fun _ _ => rfl),
    surfel_tracking_frame (fun b => b.batch || b.headless) (fun _ _ => rfl),
    disk_trackers_frame (fun b => b.batch || b.headless) (fun _ _ => rfl),
    default_calibration_frame env (fun b => b.batch || b.headless) (fun _ _ => rfl)]

theorem derive_flags_runServer (env : Environment) (a : CommandLineArguments) :
    (derive_flags env a).runServer =
      (a.runServer || (a.pipelineType == "collaborative" && a.sequenceSpecifiers.isEmpty)) := by
  unfold derive_flags
  have h : ∀ b : CommandLineArguments, (collaborative_enables_server b).runServer =
      (b.runServer || (b.pipelineType == "collaborative" && b.sequenceSpecifiers.isEmpty)) := by
    intro b
    unfold collaborative_enables_server
    split <;> simp_all
  rw [h]
  let g : CommandLineArguments → Bool :=
    fun b => b.runServer || (b.pipelineType == "collaborative" && b.sequenceSpecifiers.isEmpty)
  show g _ = g a
  rw [vicon_tracker_frame g (fun _ _ => rfl), vicon_detector_frame g (fun _ _ => rfl),
    headless_frame g (fun _ _ => rfl), fiducials_frame g (fun _ _ => rfl),
    surfel_tracking_frame g (fun _ _ => rfl), disk_trackers_frame g (fun _ _ => rfl),
    default_calibration_frame env g (fun _ _ => rfl)]

/-! ## C1: batch mode and server mode exclude each other -/

/-- C1. For every argument set that reaches the final check of `postprocess_arguments` (no
sequence/mask conflict, every sequence directory follows exactly one known naming
convention), with `a` and `s` the arguments and settings once the model's configuration
has been read: if batch mode is in effect (`batch` or `headless`) and server mode is in
effect (`runServer`, or a collaborative pipeline without sequence specifiers) the function
returns false and the settings are those it found, not the result of any `add_to_settings`;
if not both are in effect it returns true. -/
theorem C1_batch_and_server_mode_rejected (env : Environment) (args : CommandLineArguments)
    (settings : Settings)
    (hconflict : (!args.sequenceSpecifiers.isEmpty &&
      (!args.depthImageMasks.isEmpty || !args.poseFileMasks.isEmpty || !args.rgbImageMasks.isEmpty)) = false)
    (hnaming : ∀ i, i < (load_model_configuration env args settings).1.sequenceSpecifiers.length →
      single_naming env (load_model_configuration env args settings).1 i = true) :
    (((load_model_configuration env args settings).1.batch ||
        (load_model_configuration env args settings).1.headless) = true ∧
      ((load_model_configuration env args settings).1.runServer ||
        ((load_model_configuration env args settings).1.pipelineType == "collaborative" &&
          (load_model_configuration env args settings).1.sequenceSpecifiers.isEmpty)) = true →
        (postprocess_arguments env args settings).result = false ∧
        (postprocess_arguments env args settings).settings =
          (load_model_configuration env args settings).2 ∧
        ∀ a : CommandLineArguments, (postprocess_arguments env args settings).settings ≠
          a.add_to_settings (load_model_configuration env args settings).2) ∧
    (¬ (((load_model_configuration env args settings).1.batch ||
        (load_model_configuration env args settings).1.headless) = true ∧
      ((load_model_configuration env args settings).1.runServer ||
        ((load_model_configuration env args settings).1.pipelineType == "collaborative" &&
          (load_model_configuration env args settings).1.sequenceSpecifiers.isEmpty)) = true) →
        (postprocess_arguments env args settings).result = true) := by
  rcases hl : load_model_configuration env args settings with ⟨a, s⟩
  simp only [hl] at hnaming ⊢
  have hloop : (sequence_loop env a.sequenceSpecifiers.length 0 a).2 = none :=
    sequence_loop_completes env _ 0 a (fun j _ hj => hnaming j (by omega))
  rcases hs : sequence_loop env a.sequenceSpecifiers.length 0 a with ⟨a2, m⟩
  rw [hs] at hloop
  simp only at hloop
  subst hloop
  have hfr := sequence_loop_frame env a.sequenceSpecifiers.length 0 a
  rw [hs] at hfr
  simp only at hfr
  have hb : (derive_flags env a2).batch = (a.batch || a.headless) := by
    rw [derive_flags_batch, hfr]
  have hr : (derive_flags env a2).runServer =
      (a.runServer || (a.pipelineType == "collaborative" && a.sequenceSpecifiers.isEmpty)) := by
    rw [derive_flags_runServer, hfr]
  have hpp : postprocess_arguments env args settings =
      if (derive_flags env a2).batch && (derive_flags env a2).runServer then
        { result := false, args := derive_flags env a2, settings := s,
          output := ["Error: Cannot enable both batch mode and server mode at the same time.\n"] }
      else
        { result := true, args := derive_flags env a2,
          settings := (derive_flags env a2).add_to_settings s, output := [] } := by
    unfold postprocess_arguments
    rw [if_neg (by simp [hconflict])]
    simp only [hl, hs]
  rw [hpp, hb, hr]
  constructor
  · rintro ⟨h1, h2⟩
    rw [h1, h2]
    refine ⟨rfl, rfl, ?_⟩
    intro a' h
    exact add_to_settings_ne a' s h.symm
  · intro h
    rw [if_neg]
    intro hc
    simp only [Bool.and_eq_true] at hc
    exact h hc

/-- C1, at `--batch --runServer` on an empty file system. -/
theorem C1_batch_and_server_mode_rejected_witness :
    (postprocess_arguments Environment.bare
      { CommandLineArguments.defaults with batch := true, runServer := true } Settings.fresh).result = false :=
  ((C1_batch_and_server_mode_rejected Environment.bare
    { CommandLineArguments.defaults with batch := true, runServer := true } Settings.fresh
    (by decide) (fun i hi => absurd hi (Nat.not_lt_zero i))).1 ⟨by decide, by decide⟩).1

/-! ## C2, C3: the score relocaliser factory -/

/-- C2. In a build without CUDA support, for every forest filename, settings container and
settings namespace (and whatever the constructors would do), `make_score_relocaliser`
called with `DEVICE_CUDA` throws the runtime error about missing CUDA support, and so
returns no relocaliser, in particular no `ScoreRelocaliser_CPU`. -/
theorem C2_cuda_request_without_cuda_fails
    (ctor_throws : ScoreRelocaliserImpl → String → Settings → String → Option Exception)
    (forestFilename : String) (settings : Settings) (settingsNamespace : String) :
    make_score_relocaliser false ctor_throws forestFilename settings settingsNamespace .DEVICE_CUDA =
      .error (.runtime_error
        "Error: CUDA support not currently available. Reconfigure in CMake with the WITH_CUDA option set to on.") ∧
    ∀ p : ScoreRelocaliser_Ptr,
      make_score_relocaliser false ctor_throws forestFilename settings settingsNamespace .DEVICE_CUDA ≠ .ok p := by
  constructor
  · simp [make_score_relocaliser]
  · intro p
    simp [make_score_relocaliser]

/-- C3. Whenever `make_score_relocaliser` returns normally, what it returns is non-null and
is the implementation fixed by the device type alone (`ScoreRelocaliser_CUDA` exactly for
`DEVICE_CUDA`, `ScoreRelocaliser_CPU` for every other device type), constructed from the
caller's forest filename, settings and namespace as they were passed; and it does return
normally whenever the selected constructor does not throw and the build supports the
device asked for. -/
theorem C3_factory_returns_selected_implementation (with_cuda : Bool)
    (ctor_throws : ScoreRelocaliserImpl → String → Settings → String → Option Exception)
    (forestFilename : String) (settings : Settings) (settingsNamespace : String)
    (deviceType : DeviceType) :
    (∀ p : ScoreRelocaliser_Ptr,
      make_score_relocaliser with_cuda ctor_throws forestFilename settings settingsNamespace deviceType = .ok p →
      p = some { impl := if deviceType = .DEVICE_CUDA then .ScoreRelocaliser_CUDA else .ScoreRelocaliser_CPU,
                 forestFilename := forestFilename, settings := settings,
                 settingsNamespace := settingsNamespace } ∧
      (deviceType = .DEVICE_CUDA → with_cuda = true)) ∧
    ((deviceType = .DEVICE_CUDA → with_cuda = true) →
      ctor_throws (if deviceType = .DEVICE_CUDA then .ScoreRelocaliser_CUDA else .ScoreRelocaliser_CPU)
        forestFilename settings settingsNamespace = none →
      make_score_relocaliser with_cuda ctor_throws forestFilename settings settingsNamespace deviceType =
        .ok (some { impl := if deviceType = .DEVICE_CUDA then .ScoreRelocaliser_CUDA else .ScoreRelocaliser_CPU,
                    forestFilename := forestFilename, settings := settings,
                    settingsNamespace := settingsNamespace })) := by
  constructor
  · intro p h
    unfold make_score_relocaliser new_score_relocaliser at h
    by_cases hd : deviceType = .DEVICE_CUDA
    · simp only [hd, if_true] at h ⊢
      cases with_cuda with
      | false => simp at h
      | true =>
        simp only [if_true] at h
        cases hc : ctor_throws .ScoreRelocaliser_CUDA forestFilename settings settingsNamespace with
        | some e => simp [hc] at h
        | none =>
          simp only [hc, Except.ok.injEq] at h
          exact ⟨h.symm, fun _ => rfl⟩
    · simp only [hd, if_false] at h ⊢
      cases hc : ctor_throws .ScoreRelocaliser_CPU forestFilename settings settingsNamespace with
      | some e => simp [hc] at h
      | none =>
        simp only [hc, Except.ok.injEq] at h
        exact ⟨h.symm, fun hf => absurd hf (by simp)⟩
  · intro hb hc
    unfold make_score_relocaliser new_score_relocaliser
    by_cases hd : deviceType = .DEVICE_CUDA
    · simp only [hd, if_true] at hc ⊢
      simp [hb hd, hc]
    · simp only [hd, if_false] at hc ⊢
      simp [hc]

/-- C3, for a CPU request in a build without CUDA whose constructors never throw. -/
theorem C3_factory_returns_selected_implementation_witness :
    make_score_relocaliser false (fun _ _ _ _ => none) "forest.rf" Settings.fresh "ScoreRelocaliser."
        .DEVICE_CPU =
      .ok (some { impl := .ScoreRelocaliser_CPU, forestFilename := "forest.rf",
                  settings := Settings.fresh, settingsNamespace := "ScoreRelocaliser." }) :=
  (C3_factory_returns_selected_implementation false (fun _ _ _ _ => none) "forest.rf" Settings.fresh
    "ScoreRelocaliser." .DEVICE_CPU).2 (fun h => absurd h (by decide)) rfl

/-! ## C4: construction of the raycaster -/

/-- C4. In a build without CUDA support, constructing a `SpaintRaycaster` for a model whose
settings ask for `DEVICE_CUDA` throws the runtime error with no engine call made before it
(no visualisation engine, no live render state); for every other device type (in any
build) the constructor makes the CPU visualisation engine and then creates the live render
state with that engine. -/
theorem C4_raycaster_construction (eng : Engine) (model : SpaintModel) :
    SpaintRaycaster.construct false eng model =
      (if model.settings.deviceType = .DEVICE_CUDA then
        { calls := [],
          outcome := .error (.runtime_error
            "Error: CUDA support not currently available. Reconfigure in CMake with the WITH_CUDA option set to on.") }
      else
        { calls := [.construct .ITMVisualisationEngine_CPU,
                    .CreateRenderState .ITMVisualisationEngine_CPU model.scene
                      (eng.GetTrackedImageSize model.settings model.rgb_image_size model.depth_image_size)],
          outcome := .ok
            { m_model := model, m_visualisationEngine := .ITMVisualisationEngine_CPU,
              m_liveRenderState := CreateRenderState eng .ITMVisualisationEngine_CPU model.scene
                (eng.GetTrackedImageSize model.settings model.rgb_image_size model.depth_image_size) } }) ∧
    ∀ with_cuda : Bool, model.settings.deviceType ≠ .DEVICE_CUDA →
      SpaintRaycaster.construct with_cuda eng model = SpaintRaycaster.construct false eng model := by
  constructor
  · unfold SpaintRaycaster.construct
    by_cases h : model.settings.deviceType = .DEVICE_CUDA
    · simp [h]
    · simp [h]
  · intro w h
    unfold SpaintRaycaster.construct
    simp [h]

/-- C4, for the two-camera model, which asks for the CPU. -/
theorem C4_raycaster_construction_witness :
    SpaintRaycaster.construct true Engine.whitewash SpaintModel.two_cameras =
      SpaintRaycaster.construct false Engine.whitewash SpaintModel.two_cameras :=
  (C4_raycaster_construction Engine.whitewash SpaintModel.two_cameras).2 true (by decide)

/-! ## Lemmas on images -/

theorem overwrite_length (buffer source : List Vector4u) :
    (overwrite buffer source).length = buffer.length := by
  unfold overwrite
  simp only [List.length_take, List.length_append, List.length_drop]
  omega

theorem overwrite_same_length (buffer source : List Vector4u) (h : source.length = buffer.length) :
    overwrite buffer source = source := by
  unfold overwrite
  rw [List.drop_of_length_le (by omega), List.append_nil, ← h, List.take_length]

theorem prepare_noDims (inputSize : Vector2i) (output : ITMUChar4Image) :
    (prepare_to_copy_visualisation inputSize output).noDims = inputSize := by
  unfold prepare_to_copy_visualisation ITMUChar4Image.ChangeDims
  split
  · rfl
  · rename_i h
    simp only [ITMUChar4Image.Clear, ne_eq, Decidable.not_not] at h
    simp only [ITMUChar4Image.Clear]
    exact h.symm

theorem prepare_well_formed (inputSize : Vector2i) (output : ITMUChar4Image)
    (h : output.well_formed) : (prepare_to_copy_visualisation inputSize output).well_formed := by
  unfold prepare_to_copy_visualisation ITMUChar4Image.ChangeDims
  split
  · simp [ITMUChar4Image.well_formed, ITMUChar4Image.allocate]
  · simpa [ITMUChar4Image.well_formed, ITMUChar4Image.Clear] using h

/-- Preparing a well-formed output image for a well-formed source and copying the source
into it yields the source. -/
theorem copy_visualisation (source output : ITMUChar4Image) (direction : MemoryCopyDirection)
    (hs : source.well_formed) (ho : output.well_formed) :
    (prepare_to_copy_visualisation source.noDims output).SetFrom source direction = source := by
  have hd := prepare_noDims source.noDims output
  have hw := prepare_well_formed source.noDims output ho
  unfold ITMUChar4Image.well_formed at hs hw
  rw [hd] at hw
  unfold ITMUChar4Image.SetFrom
  rw [overwrite_same_length _ _ (by omega)]
  cases source
  simp_all

theorem setFrom_noDims (img source : ITMUChar4Image) (direction : MemoryCopyDirection) :
    (img.SetFrom source direction).noDims = img.noDims := rfl

theorem raycast_pass_noDims (eng : Engine) (r : SpaintRaycaster) (pose : ITMPose)
    (rs : ITMRenderState) : (raycast_pass eng r pose rs).raycastImage.noDims = rs.raycastImage.noDims :=
  rfl

/-! ## C5: the free render state is created once -/

theorem free_raycasts_from_existing (eng : Engine) (r : SpaintRaycaster) (poses : List ITMPose)
    (output : ITMUChar4Image) (rs : ITMRenderState) :
    ∀ calls ∈ (free_raycasts eng r poses output (some rs)).2.2,
      calls.countP EngineCall.creates_render_state = 0 := by
  induction poses generalizing output rs with
  | nil => simp [free_raycasts]
  | cons p ps ih =>
    intro calls hc
    simp only [free_raycasts, List.mem_cons] at hc
    rcases hc with hc | hc
    · subst hc
      simp [SpaintRaycaster.generate_free_raycast, EngineCall.creates_render_state]
    · exact ih _ _ calls hc

/-- C5. A call of `generate_free_raycast` with an empty handle first creates a render state
from the scene with the model's depth image size, and leaves it (after the raycast) in the
handle; a call with a non-empty handle raycasts into the render state it was given and
creates none. So over any sequence of free-mode calls that pass the same handle, empty at
the start, the first call creates exactly one render state and no later call creates any. -/
theorem C5_free_render_state_created_once (eng : Engine) (r : SpaintRaycaster)
    (output : ITMUChar4Image) (pose : ITMPose) (poses : List ITMPose) (rs : ITMRenderState) :
    ((r.generate_free_raycast eng output none pose).calls =
        [.CreateRenderState r.m_visualisationEngine r.m_model.scene r.m_model.depth_image_size,
         .FindVisibleBlocks r.m_visualisationEngine pose,
         .CreateExpectedDepths r.m_visualisationEngine pose,
         .RenderImage r.m_visualisationEngine pose] ∧
      (r.generate_free_raycast eng output none pose).renderState =
        some (raycast_pass eng r pose
          (CreateRenderState eng r.m_visualisationEngine r.m_model.scene r.m_model.depth_image_size))) ∧
    ((r.generate_free_raycast eng output (some rs) pose).calls =
        [.FindVisibleBlocks r.m_visualisationEngine pose,
         .CreateExpectedDepths r.m_visualisationEngine pose,
         .RenderImage r.m_visualisationEngine pose] ∧
      (r.generate_free_raycast eng output (some rs) pose).renderState =
        some (raycast_pass eng r pose rs)) ∧
    (((free_raycasts eng r (pose :: poses) output none).2.2.map
        (fun calls => calls.countP EngineCall.creates_render_state)) =
      1 :: List.replicate poses.length 0) := by
  refine ⟨⟨rfl, rfl⟩, ⟨rfl, rfl⟩, ?_⟩
  simp only [free_raycasts, List.map_cons]
  have h1 : (r.generate_free_raycast eng output none pose).calls.countP
      EngineCall.creates_render_state = 1 := by
    simp [SpaintRaycaster.generate_free_raycast, EngineCall.creates_render_state]
  rw [h1]
  congr 1
  have hrs : (r.generate_free_raycast eng output none pose).renderState =
      some (raycast_pass eng r pose
        (CreateRenderState eng r.m_visualisationEngine r.m_model.scene r.m_model.depth_image_size)) := rfl
  rw [hrs]
  have hall := free_raycasts_from_existing eng r poses
    (r.generate_free_raycast eng output none pose).output
    (raycast_pass eng r pose
      (CreateRenderState eng r.m_visualisationEngine r.m_model.scene r.m_model.depth_image_size))
  have hlen : ∀ (ps : List ITMPose) (o : ITMUChar4Image) (h : RenderState_Ptr),
      (free_raycasts eng r ps o h).2.2.length = ps.length := by
    intro ps
    induction ps with
    | nil => intro o h; simp [free_raycasts]
    | cons q qs ih => intro o h; simp [free_raycasts, ih]
  apply List.ext_getElem
  · simp [hlen]
  · intro n h1 h2
    simp only [List.getElem_map, List.getElem_replicate]
    exact hall _ (List.getElem_mem _)

/-! ## C6: the default raycast copies the live raycast image -/

/-- C6. `get_default_raycast` makes no call on the visualisation engine (so no
`FindVisibleBlocks`, `CreateExpectedDepths` or `RenderImage`), leaves the raycaster with
its live render state and its model's scene as they were, and, for well-formed images,
leaves in the output image exactly the live render state's raycast image. -/
theorem C6_default_raycast_copies_live_image (r : SpaintRaycaster) (output : ITMUChar4Image)
    (hlive : r.m_liveRenderState.raycastImage.well_formed) (hout : output.well_formed) :
    (r.get_default_raycast output).calls = [] ∧
    (r.get_default_raycast output).raycaster = r ∧
    (r.get_default_raycast output).raycaster.m_liveRenderState = r.m_liveRenderState ∧
    (r.get_default_raycast output).raycaster.m_model.scene = r.m_model.scene ∧
    (r.get_default_raycast output).output = r.m_liveRenderState.raycastImage := by
  refine ⟨rfl, rfl, rfl, rfl, ?_⟩
  exact copy_visualisation _ _ (copy_direction r.m_model.settings) hlive hout

/-- C6, for the two-camera raycaster and a 3x3 output image. -/
theorem C6_default_raycast_copies_live_image_witness :
    (SpaintRaycaster.two_cameras.get_default_raycast (ITMUChar4Image.allocate ⟨3, 3⟩)).output =
      SpaintRaycaster.two_cameras.m_liveRenderState.raycastImage :=
  (C6_default_raycast_copies_live_image SpaintRaycaster.two_cameras (ITMUChar4Image.allocate ⟨3, 3⟩)
    (by decide) (by decide)).2.2.2.2

/-! ## C7: the size of the raycast output -/

/-- C7 as stated fails: for the two-camera model (2x1 colour camera, 1x1 depth camera,
colour tracker) the raycaster built by the constructor writes a 2x1 image in FOLLOW mode
and a 1x1 image in FREE mode. -/
theorem C7_follow_and_free_sizes_differ :
    (SpaintRaycaster.construct false Engine.whitewash SpaintModel.two_cameras).outcome =
      .ok SpaintRaycaster.two_cameras ∧
    (SpaintRaycaster.two_cameras.get_default_raycast (ITMUChar4Image.allocate ⟨3, 3⟩)).output.noDims =
      ⟨2, 1⟩ ∧
    (SpaintRaycaster.two_cameras.generate_free_raycast Engine.whitewash (ITMUChar4Image.allocate ⟨3, 3⟩)
      none ⟨[]⟩).output.noDims = ⟨1, 1⟩ ∧
    (SpaintRaycaster.two_cameras.get_default_raycast (ITMUChar4Image.allocate ⟨3, 3⟩)).output.noDims ≠
      (SpaintRaycaster.two_cameras.generate_free_raycast Engine.whitewash (ITMUChar4Image.allocate ⟨3, 3⟩)
        none ⟨[]⟩).output.noDims := by
  refine ⟨rfl, ?_, ?_, ?_⟩
  · decide
  · decide
  · decide

/-- C7, amended. For a raycaster as its constructor leaves it, whatever the dimensions of
the output image before the call: `get_default_raycast` (FOLLOW) writes an image of the
tracked image size (`GetTrackedImageSize` of the settings, the RGB and the depth image
size), `generate_free_raycast` from an empty handle (FREE) writes an image of the model's
depth image size, and the two agree whenever the tracked image size is the depth image
size. -/
theorem C7_raycast_output_sizes (with_cuda : Bool) (eng : Engine) (model : SpaintModel)
    (r : SpaintRaycaster) (outputFollow outputFree : ITMUChar4Image) (pose : ITMPose)
    (hr : (SpaintRaycaster.construct with_cuda eng model).outcome = .ok r) :
    (r.get_default_raycast outputFollow).output.noDims =
      eng.GetTrackedImageSize model.settings model.rgb_image_size model.depth_image_size ∧
    (r.generate_free_raycast eng outputFree none pose).output.noDims = model.depth_image_size ∧
    (eng.GetTrackedImageSize model.settings model.rgb_image_size model.depth_image_size =
        model.depth_image_size →
      (r.get_default_raycast outputFollow).output.noDims =
        (r.generate_free_raycast eng outputFree none pose).output.noDims) := by
  have hfollow : (r.get_default_raycast outputFollow).output.noDims =
      r.m_liveRenderState.raycastImage.noDims := by
    simp only [SpaintRaycaster.get_default_raycast, setFrom_noDims, prepare_noDims]
  have hfree : (r.generate_free_raycast eng outputFree none pose).output.noDims =
      r.m_model.depth_image_size := by
    simp only [SpaintRaycaster.generate_free_raycast, setFrom_noDims, prepare_noDims,
      raycast_pass_noDims]
    rfl
  have hlive : r.m_liveRenderState.raycastImage.noDims =
      eng.GetTrackedImageSize model.settings model.rgb_image_size model.depth_image_size ∧
      r.m_model = model := by
    unfold SpaintRaycaster.construct at hr
    by_cases hd : model.settings.deviceType = .DEVICE_CUDA
    · cases with_cuda with
      | false => simp [hd] at hr
      | true =>
        simp only [hd, if_true, Except.ok.injEq] at hr
        subst hr
        exact ⟨rfl, rfl⟩
    · simp only [hd, if_false, Except.ok.injEq] at hr
      subst hr
      exact ⟨rfl, rfl⟩
  rw [hfollow, hfree, hlive.1, hlive.2]
  exact ⟨rfl, rfl, fun h => h⟩

/-- C7 amended, for the two-camera model. -/
theorem C7_raycast_output_sizes_witness :
    (SpaintRaycaster.two_cameras.get_default_raycast (ITMUChar4Image.allocate ⟨3, 3⟩)).output.noDims =
      Engine.whitewash.GetTrackedImageSize SpaintModel.two_cameras.settings
        SpaintModel.two_cameras.rgb_image_size SpaintModel.two_cameras.depth_image_size ∧
    (SpaintRaycaster.two_cameras.generate_free_raycast Engine.whitewash (ITMUChar4Image.allocate ⟨5, 4⟩)
      none ⟨[]⟩).output.noDims = SpaintModel.two_cameras.depth_image_size :=
  ⟨(C7_raycast_output_sizes false Engine.whitewash SpaintModel.two_cameras SpaintRaycaster.two_cameras
      (ITMUChar4Image.allocate ⟨3, 3⟩) (ITMUChar4Image.allocate ⟨5, 4⟩) ⟨[]⟩ rfl).1,
   (C7_raycast_output_sizes false Engine.whitewash SpaintModel.two_cameras SpaintRaycaster.two_cameras
      (ITMUChar4Image.allocate ⟨3, 3⟩) (ITMUChar4Image.allocate ⟨5, 4⟩) ⟨[]⟩ rfl).2.1⟩

/-! ## C8: the camera mode selects the raycast -/

/-- C8. For every renderer state: in `CM_FOLLOW`, `render` takes the pose from the model,
calls `get_default_raycast` and never `generate_free_raycast`; in `CM_FREE` it takes the
pose converted from the renderer's camera and calls `generate_free_raycast` with exactly
that pose; for any other mode value it throws the runtime error `Error: Unknown camera
mode` before any raycast is requested. In both known modes the pose passed to the
synthetic-scene rendering is the one passed to the reconstructed-scene rendering. -/
theorem C8_render_by_camera_mode (eng : Engine) (camera_to_pose : SimpleCamera → ITMPose)
    (w : WindowedRenderer) :
    (w.render eng camera_to_pose).calls =
      (match w.m_cameraMode with
       | .CM_FOLLOW =>
         [.glClear, .render_reconstructed_scene w.m_model.pose, .get_default_raycast,
          .draw_textured_quad, .render_synthetic_scene w.m_model.pose, .SDL_GL_SwapWindow]
       | .CM_FREE =>
         [.glClear, .render_reconstructed_scene (camera_to_pose w.m_camera),
          .generate_free_raycast (camera_to_pose w.m_camera), .draw_textured_quad,
          .render_synthetic_scene (camera_to_pose w.m_camera), .SDL_GL_SwapWindow]
       | .unknown _ => [.glClear]) ∧
    (w.render eng camera_to_pose).thrown =
      (match w.m_cameraMode with
       | .CM_FOLLOW => none
       | .CM_FREE => none
       | .unknown _ => some (.runtime_error "Error: Unknown camera mode")) ∧
    (w.render eng camera_to_pose).engineCalls =
      (match w.m_cameraMode with
       | .CM_FOLLOW => []
       | .CM_FREE =>
         (w.m_raycaster.generate_free_raycast eng w.m_image w.m_renderState
           (camera_to_pose w.m_camera)).calls
       | .unknown _ => []) ∧
    (w.render eng camera_to_pose).renderer.m_image =
      (match w.m_cameraMode with
       | .CM_FOLLOW => (w.m_raycaster.get_default_raycast w.m_image).output
       | .CM_FREE =>
         (w.m_raycaster.generate_free_raycast eng w.m_image w.m_renderState
           (camera_to_pose w.m_camera)).output
       | .unknown _ => w.m_image) := by
  cases hm : w.m_cameraMode with
  | CM_FOLLOW =>
    simp [WindowedRenderer.render, WindowedRenderer.render_reconstructed_scene, hm,
      SpaintRaycaster.get_default_raycast]
  | CM_FREE =>
    simp [WindowedRenderer.render, WindowedRenderer.render_reconstructed_scene, hm]
  | unknown v =>
    simp [WindowedRenderer.render, hm]

/-! ## Lemmas on main -/

theorem main_run_application_frame (env : Environment) (run : MainRun) (pipeline : Pipeline) :
    (main_run_application env run pipeline).args = run.args ∧
    (main_run_application env run pipeline).settings = run.settings ∧
    (main_run_application env run pipeline).mappingServer = run.mappingServer ∧
    (main_run_application env run pipeline).pipeline = run.pipeline ∧
    (main_run_application env run pipeline).mappingClient = run.mappingClient :=
  ⟨rfl, rfl, rfl, rfl, rfl⟩

theorem main_set_mapping_client_frame (env : Environment) (run : MainRun) (pipeline : Pipeline) :
    (main_set_mapping_client env run pipeline).args = run.args ∧
    (main_set_mapping_client env run pipeline).settings = run.settings ∧
    (main_set_mapping_client env run pipeline).mappingServer = run.mappingServer ∧
    (main_set_mapping_client env run pipeline).pipeline = run.pipeline := by
  unfold main_set_mapping_client
  simp only []
  split <;> exact ⟨rfl, rfl, rfl, rfl⟩

theorem main_construct_pipeline_frame (env : Environment) (run : MainRun) :
    (main_construct_pipeline env run).args = run.args ∧
    (main_construct_pipeline env run).settings = run.settings ∧
    (main_construct_pipeline env run).mappingServer = run.mappingServer := by
  unfold main_construct_pipeline
  simp only []
  split
  · split
    · exact ⟨rfl, rfl, rfl⟩
    · simp [main_set_mapping_client_frame]
  · split
    · split <;> exact ⟨rfl, rfl, rfl⟩
    · split <;> simp [main_set_mapping_client_frame]

/-- The pipeline `main_construct_pipeline` leaves is the one it found, or the one built by
the branch for the pipeline type. -/
theorem main_construct_pipeline_pipeline (env : Environment) (run : MainRun) (p : Pipeline)
    (h : (main_construct_pipeline env run).pipeline = some p) :
    run.pipeline = some p ∨
    (run.args.pipelineType ≠ "collaborative" ∧ make_single_pipeline env run.args = .ok p) ∨
    (run.args.pipelineType = "collaborative" ∧
      make_collaborative_pipeline env run.args run.mappingServer = .ok p) := by
  unfold main_construct_pipeline at h
  simp only [] at h
  split at h
  · rename_i hc
    split at h
    · exact Or.inl h
    · rename_i q hq
      rw [(main_set_mapping_client_frame _ _ _).2.2.2] at h
      simp only [Option.some.injEq] at h
      subst h
      refine Or.inr (Or.inl ⟨?_, hq⟩)
      simpa using hc
  · rename_i hc
    split at h
    · left
      revert h
      split <;> exact fun h => h
    · rename_i q hq
      rw [(main_set_mapping_client_frame _ _ _).2.2.2] at h
      simp only [Option.some.injEq] at h
      subst h
      refine Or.inr (Or.inr ⟨by simpa using hc, ?_⟩)
      revert hq
      split <;> exact fun h => h

theorem main_configure_frame (env : Environment) (run : MainRun) :
    (main_configure env run).args = run.args ∧
    (main_configure env run).mappingServer =
      (if run.args.runServer then
        some { mode := if run.args.pipelineType == "collaborative" then .SM_MULTI_CLIENT
                       else .SM_SINGLE_CLIENT,
               started := true }
      else run.mappingServer) := by
  unfold main_configure
  simp only [main_construct_pipeline_frame]
  constructor
  · repeat' split
    all_goals rfl
  · repeat' split
    all_goals rfl

/-- Past its start-up, `main` is `main_configure` on the initial run. -/
theorem main_of_starts_up (env : Environment) (commandLine : CommandLine) (settings : Settings)
    (h : main_starts_up env commandLine settings = true) :
    main env commandLine settings =
      main_configure env (main_initial_run env commandLine settings) := by
  unfold main_starts_up at h
  simp only [Bool.and_eq_true, Bool.or_eq_true, Option.isNone_iff_eq_none] at h
  obtain ⟨⟨h1, h2⟩, h3⟩ := h
  unfold main
  simp only [h1, h3, Bool.not_true, Bool.false_eq_true, if_false]
  rw [if_neg]
  · rfl
  · intro hc
    simp only [Bool.and_eq_true, Bool.not_eq_true'] at hc
    rcases h2 with h2 | h2
    · rw [h2] at hc
      exact absurd hc.1 (by simp)
    · rw [h2] at hc
      exact absurd hc.2 (by simp)

/-- Before the end of its start-up, `main` sets nothing up. -/
theorem main_of_not_starts_up (env : Environment) (commandLine : CommandLine) (settings : Settings)
    (h : main_starts_up env commandLine settings = false) :
    (main env commandLine settings).mappingServer = none ∧
    (main env commandLine settings).pipeline = none ∧
    (main env commandLine settings).mappingClient = none := by
  unfold main_starts_up at h
  unfold main
  simp only []
  cases h1 : (parse_command_line env commandLine settings).1 with
  | false => simp
  | true =>
    simp only [h1, Bool.true_and] at h
    simp only [Bool.not_true, Bool.false_eq_true, if_false]
    cases h2 : ((parse_command_line env commandLine settings).2.1.headless || env.sdl_init_ok) with
    | false =>
      simp only [Bool.or_eq_false_iff] at h2
      simp [h2.1, h2.2]
    | true =>
      simp only [h2, Bool.true_and] at h
      simp only [Bool.or_eq_true] at h2
      have h3 : (!(parse_command_line env commandLine settings).2.1.headless && !env.sdl_init_ok) = false := by
        rcases h2 with h2 | h2 <;> simp [h2]
      simp only [h3, Bool.false_eq_true, if_false]
      cases h4 : first_failing_joystick env env.availableJoysticks.toNat 0 with
      | none => simp [h4] at h
      | some i => simp [MainRun.fail]

theorem main_args (env : Environment) (commandLine : CommandLine) (settings : Settings) :
    (main env commandLine settings).args = (postprocess_arguments env commandLine.args settings).args := by
  have hp : (parse_command_line env commandLine settings).2.1 =
      (postprocess_arguments env commandLine.args settings).args := by
    unfold parse_command_line
    simp only []
    repeat' split
    all_goals rfl
  unfold main
  simp only []
  split
  · exact hp
  · split
    · exact hp
    · split
      · exact hp
      · rw [(main_configure_frame _ _).1]
        exact hp


/-- The pipeline `main_configure` leaves is the one it found, or the one built by the
branch for the pipeline type, the collaborative one with the server just set up. -/
theorem main_configure_pipeline (env : Environment) (run : MainRun) (p : Pipeline)
    (h : (main_configure env run).pipeline = some p) :
    run.pipeline = some p ∨
    (run.args.pipelineType ≠ "collaborative" ∧ make_single_pipeline env run.args = .ok p) ∨
    (run.args.pipelineType = "collaborative" ∧
      make_collaborative_pipeline env run.args
        (if run.args.runServer then
          some { mode := if run.args.pipelineType == "collaborative" then .SM_MULTI_CLIENT
                         else .SM_SINGLE_CLIENT,
                 started := true }
        else run.mappingServer) = .ok p) := by
  unfold main_configure at h
  simp only [] at h
  have h' := main_construct_pipeline_pipeline env _ p h
  revert h'
  repeat' split
  all_goals exact fun h' => h'

theorem make_single_pipeline_modes (env : Environment) (args : CommandLineArguments) (p : Pipeline)
    (h : make_single_pipeline env args = .ok p) :
    p.mappingModes = [if args.mapSurfels then .MAP_BOTH else .MAP_VOXELS_ONLY] ∧
    p.trackingModes = [if args.trackSurfels then .TRACK_SURFELS else .TRACK_VOXELS] := by
  unfold make_single_pipeline at h
  simp only [] at h
  split at h
  · exact absurd h (by simp)
  · split at h
    · split at h
      · exact absurd h (by simp)
      · simp only [Except.ok.injEq] at h
        subst h
        exact ⟨rfl, rfl⟩
    · split at h
      · split at h
        · exact absurd h (by simp)
        · simp only [Except.ok.injEq] at h
          subst h
          exact ⟨rfl, rfl⟩
      · split at h
        · split at h
          · exact absurd h (by simp)
          · simp only [Except.ok.injEq] at h
            subst h
            exact ⟨rfl, rfl⟩
        · exact absurd h (by simp)

theorem collaborative_modes_spec (args : CommandLineArguments) (todo i : Nat)
    (ms : List MappingMode) (ts : List TrackingMode) (cs : List String)
    (h : collaborative_modes args todo i = .ok (ms, ts, cs)) :
    ms = List.replicate todo (if args.mapSurfels then .MAP_BOTH else .MAP_VOXELS_ONLY) ∧
    ts = List.replicate todo (if args.trackSurfels then .TRACK_SURFELS else .TRACK_VOXELS) := by
  induction todo generalizing i ms ts cs with
  | zero =>
    simp only [collaborative_modes, Except.ok.injEq, Prod.mk.injEq] at h
    obtain ⟨h1, h2, _⟩ := h
    subst h1 h2
    exact ⟨rfl, rfl⟩
  | succ n ih =>
    simp only [collaborative_modes] at h
    split at h
    · exact absurd h (by simp)
    · split at h
      · exact absurd h (by simp)
      · rename_i ms' ts' cs' hrest
        simp only [Except.ok.injEq, Prod.mk.injEq] at h
        obtain ⟨h1, h2, _⟩ := h
        obtain ⟨e1, e2⟩ := ih (i + 1) ms' ts' cs' hrest
        subst h1 h2
        rw [e1, e2]
        exact ⟨rfl, rfl⟩

theorem make_collaborative_pipeline_modes (env : Environment) (args : CommandLineArguments)
    (server : Option MappingServer) (p : Pipeline)
    (h : make_collaborative_pipeline env args server = .ok p) :
    (∀ m ∈ p.mappingModes, m = if args.mapSurfels then .MAP_BOTH else .MAP_VOXELS_ONLY) ∧
    (∀ t ∈ p.trackingModes, t = if args.trackSurfels then .TRACK_SURFELS else .TRACK_VOXELS) := by
  unfold make_collaborative_pipeline at h
  split at h
  · exact absurd h (by simp)
  · split at h
    · exact absurd h (by simp)
    · rename_i engines _ ms ts cs hm
      simp only [Except.ok.injEq] at h
      subst h
      obtain ⟨e1, e2⟩ := collaborative_modes_spec args _ _ ms ts cs hm
      simp only [Pipeline.mappingModes, Pipeline.trackingModes]
      rw [e1, e2]
      exact ⟨fun m hm => List.eq_of_mem_replicate hm, fun t ht => List.eq_of_mem_replicate ht⟩

/-- Every scene of the pipeline `main` constructs has the mapping mode and the tracking
mode read off the post-processed arguments. -/
theorem main_scene_modes (env : Environment) (commandLine : CommandLine) (settings : Settings)
    (p : Pipeline) (h : (main env commandLine settings).pipeline = some p) :
    (∀ m ∈ p.mappingModes,
      m = if (main env commandLine settings).args.mapSurfels then .MAP_BOTH else .MAP_VOXELS_ONLY) ∧
    (∀ t ∈ p.trackingModes,
      t = if (main env commandLine settings).args.trackSurfels then .TRACK_SURFELS else .TRACK_VOXELS) := by
  cases hs : main_starts_up env commandLine settings with
  | false =>
    rw [(main_of_not_starts_up env commandLine settings hs).2.1] at h
    exact absurd h (by simp)
  | true =>
    rw [main_of_starts_up env commandLine settings hs] at h ⊢
    rw [(main_configure_frame _ _).1]
    rcases main_configure_pipeline env _ p h with h1 | ⟨_, h1⟩ | ⟨_, h1⟩
    · exact absurd h1 (by simp [main_initial_run])
    · obtain ⟨e1, e2⟩ := make_single_pipeline_modes env _ p h1
      rw [e1, e2]
      exact ⟨fun m hm => List.eq_of_mem_singleton hm, fun t ht => List.eq_of_mem_singleton ht⟩
    · exact make_collaborative_pipeline_modes env _ _ p h1

/-! ## C9: the mapping and tracking modes main can select -/

/-- C9 as stated fails: whatever the environment, the command line and the settings, no
scene of the pipeline `main` constructs has the mapping mode surfels-only. -/
theorem C9_surfels_only_never_selected :
    ¬ ∃ (env : Environment) (commandLine : CommandLine) (settings : Settings) (p : Pipeline),
      (main env commandLine settings).pipeline = some p ∧ MappingMode.MAP_SURFELS_ONLY ∈ p.mappingModes := by
  rintro ⟨env, commandLine, settings, p, hp, hm⟩
  have h := (main_scene_modes env commandLine settings p hp).1 _ hm
  split at h <;> exact absurd h (by decide)

/-- C9, amended. Every scene of every pipeline `main` constructs has mapping mode
`MAP_BOTH` if `mapSurfels` holds after argument post-processing and `MAP_VOXELS_ONLY`
otherwise (so never surfels-only), and tracking mode `TRACK_SURFELS` if `trackSurfels`
holds and `TRACK_VOXELS` otherwise. For each of the mapping modes voxels-only and both,
and for each of the tracking modes voxels and surfels, some accepted command line makes
`main` construct its scene with that mode (no option, `--mapSurfels`, no option,
`--trackSurfels`). -/
theorem C9_modes_selected_by_main :
    (∀ (env : Environment) (commandLine : CommandLine) (settings : Settings) (p : Pipeline),
      (main env commandLine settings).pipeline = some p →
      (∀ m ∈ p.mappingModes,
        m = (if (postprocess_arguments env commandLine.args settings).args.mapSurfels = true
          then MappingMode.MAP_BOTH else MappingMode.MAP_VOXELS_ONLY)) ∧
      (∀ t ∈ p.trackingModes,
        t = (if (postprocess_arguments env commandLine.args settings).args.trackSurfels = true
          then TrackingMode.TRACK_SURFELS else TrackingMode.TRACK_VOXELS)) ∧
      (∀ m ∈ p.mappingModes, m = .MAP_VOXELS_ONLY ∨ m = .MAP_BOTH)) ∧
    (∃ (env : Environment) (commandLine : CommandLine) (settings : Settings) (p : Pipeline),
      (postprocess_arguments env commandLine.args settings).result = true ∧
      (postprocess_arguments env commandLine.args settings).args.mapSurfels = false ∧
      (main env commandLine settings).pipeline = some p ∧ p.mappingModes = [.MAP_VOXELS_ONLY]) ∧
    (∃ (env : Environment) (commandLine : CommandLine) (settings : Settings) (p : Pipeline),
      (postprocess_arguments env commandLine.args settings).result = true ∧
      (postprocess_arguments env commandLine.args settings).args.mapSurfels = true ∧
      (main env commandLine settings).pipeline = some p ∧ p.mappingModes = [.MAP_BOTH]) ∧
    (∃ (env : Environment) (commandLine : CommandLine) (settings : Settings) (p : Pipeline),
      (postprocess_arguments env commandLine.args settings).result = true ∧
      (postprocess_arguments env commandLine.args settings).args.trackSurfels = false ∧
      (main env commandLine settings).pipeline = some p ∧ p.trackingModes = [.TRACK_VOXELS]) ∧
    (∃ (env : Environment) (commandLine : CommandLine) (settings : Settings) (p : Pipeline),
      (postprocess_arguments env commandLine.args settings).result = true ∧
      (postprocess_arguments env commandLine.args settings).args.trackSurfels = true ∧
      (main env commandLine settings).pipeline = some p ∧ p.trackingModes = [.TRACK_SURFELS]) := by
  refine ⟨?_, ?_, ?_, ?_, ?_⟩
  · intro env commandLine settings p hp
    obtain ⟨h1, h2⟩ := main_scene_modes env commandLine settings p hp
    rw [main_args] at h1 h2
    refine ⟨h1, h2, ?_⟩
    intro m hm
    have h := h1 m hm
    split at h
    · exact Or.inr h
    · exact Or.inl h
  · exact ⟨Environment.bare, ⟨CommandLineArguments.defaults, false⟩, Settings.fresh,
      .SemanticPipeline "/opt/spaint/resources" 10 [] 12345 "<tracker type='infinitam'/>"
        .MAP_VOXELS_ONLY .TRACK_VOXELS none false, by decide, by decide, by decide, rfl⟩
  · exact ⟨Environment.bare, ⟨{ CommandLineArguments.defaults with mapSurfels := true }, false⟩,
      Settings.fresh,
      .SemanticPipeline "/opt/spaint/resources" 10 [] 12345 "<tracker type='infinitam'/>"
        .MAP_BOTH .TRACK_VOXELS none false, by decide, by decide, by decide, rfl⟩
  · exact ⟨Environment.bare, ⟨CommandLineArguments.defaults, false⟩, Settings.fresh,
      .SemanticPipeline "/opt/spaint/resources" 10 [] 12345 "<tracker type='infinitam'/>"
        .MAP_VOXELS_ONLY .TRACK_VOXELS none false, by decide, by decide, by decide, rfl⟩
  · exact ⟨Environment.bare, ⟨{ CommandLineArguments.defaults with trackSurfels := true }, false⟩,
      Settings.fresh,
      .SemanticPipeline "/opt/spaint/resources" 10 [] 12345 "<tracker type='infinitam'/>"
        .MAP_BOTH .TRACK_SURFELS none false, by decide, by decide, by decide, rfl⟩

/-- C9 amended, at `--mapSurfels`: the one scene of the pipeline constructed maps both. -/
theorem C9_modes_selected_by_main_witness :
    (main Environment.bare ⟨{ CommandLineArguments.defaults with mapSurfels := true }, false⟩
      Settings.fresh).pipeline =
      some (.SemanticPipeline "/opt/spaint/resources" 10 [] 12345 "<tracker type='infinitam'/>"
        .MAP_BOTH .TRACK_VOXELS none false) ∧
    ∀ m ∈ (Pipeline.SemanticPipeline "/opt/spaint/resources" 10 [] 12345 "<tracker type='infinitam'/>"
        .MAP_BOTH .TRACK_VOXELS none false).mappingModes, m = MappingMode.MAP_BOTH :=
  ⟨by decide, fun m hm =>
    ((C9_modes_selected_by_main.1 Environment.bare
      ⟨{ CommandLineArguments.defaults with mapSurfels := true }, false⟩ Settings.fresh _
      (by decide)).1 m hm).trans (by decide)⟩

/-! ## C10: the mapping server -/

/-- C10. Whenever `main` has constructed a mapping server, `runServer` holds after argument
post-processing, the server has been started, and its mode is `SM_MULTI_CLIENT` if and
only if the pipeline type is `collaborative`, `SM_SINGLE_CLIENT` for every other pipeline
type; and whenever `runServer` holds after argument post-processing and `main` gets past
its start-up, it constructs a mapping server. -/
theorem C10_mapping_server_iff_runServer (env : Environment) (commandLine : CommandLine)
    (settings : Settings) :
    (∀ server : MappingServer, (main env commandLine settings).mappingServer = some server →
      (postprocess_arguments env commandLine.args settings).args.runServer = true ∧
      server.started = true ∧
      (server.mode = .SM_MULTI_CLIENT ↔
        (postprocess_arguments env commandLine.args settings).args.pipelineType = "collaborative") ∧
      ((postprocess_arguments env commandLine.args settings).args.pipelineType ≠ "collaborative" →
        server.mode = .SM_SINGLE_CLIENT)) ∧
    (main_starts_up env commandLine settings = true →
      (((main env commandLine settings).mappingServer.isSome = true) ↔
        (postprocess_arguments env commandLine.args settings).args.runServer = true)) := by
  have hargs := main_args env commandLine settings
  cases hs : main_starts_up env commandLine settings with
  | false =>
    rw [(main_of_not_starts_up env commandLine settings hs).1]
    exact ⟨fun server h => absurd h (by simp), fun h => absurd h (by simp)⟩
  | true =>
    have hm := main_of_starts_up env commandLine settings hs
    have hsrv := (main_configure_frame env (main_initial_run env commandLine settings)).2
    have ha := (main_configure_frame env (main_initial_run env commandLine settings)).1
    rw [← hm] at hsrv ha
    rw [hargs] at ha
    rw [← ha] at hsrv
    rw [hsrv]
    cases hr : (postprocess_arguments env commandLine.args settings).args.runServer with
    | false =>
      simp [main_initial_run]
    | true =>
      simp only [if_true, Option.some.injEq, Option.isSome_some, true_iff, implies_true, and_true]
      intro server hserver
      subst hserver
      by_cases hc : (postprocess_arguments env commandLine.args settings).args.pipelineType = "collaborative"
      · simp [hc]
      · simp [hc]

/-- C10, at `--runServer`: a single-client server is constructed and started. -/
theorem C10_mapping_server_iff_runServer_witness :
    (main Environment.bare ⟨{ CommandLineArguments.defaults with runServer := true }, false⟩
      Settings.fresh).mappingServer.isSome = true :=
  ((C10_mapping_server_iff_runServer Environment.bare
    ⟨{ CommandLineArguments.defaults with runServer := true }, false⟩ Settings.fresh).2
      (by decide)).2 (by decide)

/-! ## C11: the collaboration mode -/

theorem sequence_loop_collaborationMode (env : Environment) (todo i : Nat)
    (a : CommandLineArguments) (s : String) :
    (sequence_loop env todo i { a with collaborationMode := s }).2 = (sequence_loop env todo i a).2 := by
  induction todo generalizing i a with
  | zero => rfl
  | succ n ih =>
    simp only [sequence_loop]
    have hd : sequence_dir env { a with collaborationMode := s } i = sequence_dir env a i := rfl
    rw [hd]
    split
    · rfl
    · exact ih (i + 1) { a with
        sequenceDirs := a.sequenceDirs ++ [sequence_dir env a i],
        depthImageMasks := a.depthImageMasks ++ [env.path_join (sequence_dir env a i) "frame-%06i.depth.png"],
        poseFileMasks := a.poseFileMasks ++ [env.path_join (sequence_dir env a i) "frame-%06i.pose.txt"],
        rgbImageMasks := a.rgbImageMasks ++ [env.path_join (sequence_dir env a i) "frame-%06i.color.png"] }
    · exact ih (i + 1) { a with
        sequenceDirs := a.sequenceDirs ++ [sequence_dir env a i],
        depthImageMasks := a.depthImageMasks ++ [env.path_join (sequence_dir env a i) "depthm%06i.pgm"],
        poseFileMasks := a.poseFileMasks ++ [env.path_join (sequence_dir env a i) "posem%06i.txt"],
        rgbImageMasks := a.rgbImageMasks ++ [env.path_join (sequence_dir env a i) "rgbm%06i.ppm"] }
    · rfl

/-- Whether `postprocess_arguments` returns true: no sequence/mask conflict, every sequence
directory recognised, and not both batch mode and server mode. -/
theorem postprocess_arguments_result (env : Environment) (args : CommandLineArguments)
    (settings : Settings) :
    (postprocess_arguments env args settings).result =
      (!(!args.sequenceSpecifiers.isEmpty &&
          (!args.depthImageMasks.isEmpty || !args.poseFileMasks.isEmpty || !args.rgbImageMasks.isEmpty)) &&
        (sequence_loop env (load_model_configuration env args settings).1.sequenceSpecifiers.length 0
          (load_model_configuration env args settings).1).2.isNone &&
        !(((load_model_configuration env args settings).1.batch ||
            (load_model_configuration env args settings).1.headless) &&
          ((load_model_configuration env args settings).1.runServer ||
            ((load_model_configuration env args settings).1.pipelineType == "collaborative" &&
              (load_model_configuration env args settings).1.sequenceSpecifiers.isEmpty)))) := by
  unfold postprocess_arguments
  split
  · rename_i hc
    simp [hc]
  · rename_i hc
    simp only [Bool.not_eq_true] at hc
    rw [hc]
    rcases hl : load_model_configuration env args settings with ⟨a, s⟩
    simp only []
    rcases hs : sequence_loop env a.sequenceSpecifiers.length 0 a with ⟨a2, m⟩
    cases m with
    | some msg => simp
    | none =>
      have hfr := sequence_loop_frame env a.sequenceSpecifiers.length 0 a
      rw [hs] at hfr
      simp only at hfr
      have hb : (derive_flags env a2).batch = (a.batch || a.headless) := by
        rw [derive_flags_batch, hfr]
      have hr : (derive_flags env a2).runServer =
          (a.runServer || (a.pipelineType == "collaborative" && a.sequenceSpecifiers.isEmpty)) := by
        rw [derive_flags_runServer, hfr]
      simp only [hb, hr]
      split
      · rename_i h
        simp [h]
      · rename_i h
        simp only [Bool.not_eq_true] at h
        simp [h]

theorem collaborative_engines_collaborationMode (env : Environment) (args : CommandLineArguments)
    (s : String) (todo i : Nat) :
    collaborative_engines env { args with collaborationMode := s } todo i =
      collaborative_engines env args todo i := by
  induction todo generalizing i with
  | zero => rfl
  | succ n ih =>
    simp only [collaborative_engines]
    rw [ih]

theorem collaborative_modes_collaborationMode (args : CommandLineArguments) (s : String)
    (todo i : Nat) :
    collaborative_modes { args with collaborationMode := s } todo i = collaborative_modes args todo i := by
  induction todo generalizing i with
  | zero => rfl
  | succ n ih =>
    simp only [collaborative_modes]
    rw [ih]

theorem make_collaborative_pipeline_collaborationMode (env : Environment)
    (args : CommandLineArguments) (server : Option MappingServer) (p : Pipeline)
    (h : make_collaborative_pipeline env args server = .ok p) :
    p.collaborationMode = some (if args.collaborationMode = "batch" then .CM_BATCH else .CM_LIVE) := by
  unfold make_collaborative_pipeline at h
  split at h
  · exact absurd h (by simp)
  · split at h
    · exact absurd h (by simp)
    · simp only [Except.ok.injEq] at h
      subst h
      simp only [Pipeline.collaborationMode, beq_iff_eq]

theorem make_single_pipeline_collaborationMode (env : Environment) (args : CommandLineArguments)
    (p : Pipeline) (h : make_single_pipeline env args = .ok p) : p.collaborationMode = none := by
  unfold make_single_pipeline at h
  simp only [] at h
  split at h
  · exact absurd h (by simp)
  · split at h
    · split at h
      · exact absurd h (by simp)
      · simp only [Except.ok.injEq] at h
        subst h
        rfl
    · split at h
      · split at h
        · exact absurd h (by simp)
        · simp only [Except.ok.injEq] at h
          subst h
          rfl
      · split at h
        · split at h
          · exact absurd h (by simp)
          · simp only [Except.ok.injEq] at h
            subst h
            rfl
        · exact absurd h (by simp)

/-- C11. The option `collaborationMode` defaults to `batch`. Whenever `main` constructs a
`CollaborativePipeline`, the collaboration mode it passes is `CM_BATCH` if the
post-processed argument is exactly `batch` and `CM_LIVE` for `live` and for every other
string. No string is rejected: neither the result of `postprocess_arguments` (for a run
without a model configuration) nor whether the collaborative branch throws depends on
the value of the option. -/
theorem C11_collaboration_mode (env : Environment) (commandLine : CommandLine) (settings : Settings) :
    CommandLineArguments.defaults.collaborationMode = "batch" ∧
    (∀ (p : Pipeline) (c : CollaborationMode),
      (main env commandLine settings).pipeline = some p → p.collaborationMode = some c →
      ((main env commandLine settings).args.collaborationMode = "batch" → c = .CM_BATCH) ∧
      ((main env commandLine settings).args.collaborationMode = "live" → c = .CM_LIVE) ∧
      ((main env commandLine settings).args.collaborationMode ≠ "batch" → c = .CM_LIVE)) ∧
    (∀ s : String, commandLine.args.modelSpecifier = "" →
      (postprocess_arguments env { commandLine.args with collaborationMode := s } settings).result =
        (postprocess_arguments env commandLine.args settings).result) ∧
    (∀ (s : String) (args : CommandLineArguments) (server : Option MappingServer),
      (make_collaborative_pipeline env { args with collaborationMode := s } server).toBool =
        (make_collaborative_pipeline env args server).toBool) := by
  refine ⟨rfl, ?_, ?_, ?_⟩
  · intro p c hp hc
    have hmode : c = if (main env commandLine settings).args.collaborationMode = "batch"
        then .CM_BATCH else .CM_LIVE := by
      cases hs : main_starts_up env commandLine settings with
      | false =>
        rw [(main_of_not_starts_up env commandLine settings hs).2.1] at hp
        exact absurd hp (by simp)
      | true =>
        rw [main_of_starts_up env commandLine settings hs] at hp ⊢
        rw [(main_configure_frame _ _).1]
        rcases main_configure_pipeline env _ p hp with h1 | ⟨_, h1⟩ | ⟨_, h1⟩
        · exact absurd h1 (by simp [main_initial_run])
        · rw [make_single_pipeline_collaborationMode env _ p h1] at hc
          exact absurd hc (by simp)
        · rw [make_collaborative_pipeline_collaborationMode env _ _ p h1] at hc
          simp only [Option.some.injEq] at hc
          exact hc.symm
    refine ⟨fun h => ?_, fun h => ?_, fun h => ?_⟩
    · rw [hmode, if_pos h]
    · rw [hmode, if_neg (by rw [h]; decide)]
    · rw [hmode, if_neg h]
  · intro s hm
    have hl : ∀ a : CommandLineArguments, a.modelSpecifier = "" →
        load_model_configuration env a settings = (a, settings) := by
      intro a ha
      unfold load_model_configuration
      simp [ha]
    have h1 := hl { commandLine.args with collaborationMode := s } hm
    have h2 := hl commandLine.args hm
    rw [postprocess_arguments_result, postprocess_arguments_result, h1, h2]
    simp only []
    rw [sequence_loop_collaborationMode]
  · intro s args server
    unfold make_collaborative_pipeline
    rw [collaborative_engines_collaborationMode]
    cases collaborative_engines env args args.depthImageMasks.length 0 with
    | error e => rfl
    | ok engines =>
      simp only []
      rw [collaborative_modes_collaborationMode]
      cases collaborative_modes args engines.length 0 with
      | error e => rfl
      | ok modes => rfl

/-- C11, at `--pipelineType collaborative --collaborationMode live`. -/
theorem C11_collaboration_mode_witness :
    (main Environment.bare
      ⟨{ CommandLineArguments.defaults with pipelineType := "collaborative", collaborationMode := "live" },
        false⟩ Settings.fresh).pipeline =
      some (.CollaborativePipeline "/opt/spaint/resources" [] [] [] [] false
        (some { mode := .SM_MULTI_CLIENT, started := true }) .CM_LIVE) ∧
    ∀ c : CollaborationMode,
      (Pipeline.CollaborativePipeline "/opt/spaint/resources" [] [] [] [] false
        (some { mode := .SM_MULTI_CLIENT, started := true }) .CM_LIVE).collaborationMode = some c →
      c = .CM_LIVE :=
  ⟨by decide, fun c hc =>
   ((C11_collaboration_mode Environment.bare
      ⟨{ CommandLineArguments.defaults with pipelineType := "collaborative", collaborationMode := "live" },
        false⟩ Settings.fresh).2.1
      (.CollaborativePipeline "/opt/spaint/resources" [] [] [] [] false
        (some { mode := .SM_MULTI_CLIENT, started := true }) .CM_LIVE) c
      (by decide) hc).2.1 (by decide)⟩

/-! ## Lemmas on accepted arguments -/

/-- When `postprocess_arguments` returns true there was no conflict, the sequence loop ran
to its end, and the arguments and settings are those of the last lines of the function. -/
theorem postprocess_arguments_accepted (env : Environment) (args : CommandLineArguments)
    (settings : Settings) (h : (postprocess_arguments env args settings).result = true) :
    (!args.sequenceSpecifiers.isEmpty &&
      (!args.depthImageMasks.isEmpty || !args.poseFileMasks.isEmpty || !args.rgbImageMasks.isEmpty)) = false ∧
    (sequence_loop env (load_model_configuration env args settings).1.sequenceSpecifiers.length 0
      (load_model_configuration env args settings).1).2 = none ∧
    (postprocess_arguments env args settings).args =
      derive_flags env (sequence_loop env
        (load_model_configuration env args settings).1.sequenceSpecifiers.length 0
        (load_model_configuration env args settings).1).1 ∧
    (postprocess_arguments env args settings).settings =
      (postprocess_arguments env args settings).args.add_to_settings
        (load_model_configuration env args settings).2 := by
  unfold postprocess_arguments at h ⊢
  split at h
  · exact absurd h (by simp)
  · rename_i hc
    simp only [Bool.not_eq_true] at hc
    rw [if_neg (by simp [hc])]
    rcases hl : load_model_configuration env args settings with ⟨a, s⟩
    simp only [hl] at h ⊢
    rcases hs : sequence_loop env a.sequenceSpecifiers.length 0 a with ⟨a2, m⟩
    simp only [hs] at h ⊢
    cases m with
    | some msg => exact absurd h (by simp)
    | none =>
      simp only [] at h ⊢
      split at h
      · exact absurd h (by simp)
      · rename_i hb
        rw [if_neg hb]
        refine ⟨hc, ?_, ?_, ?_⟩ <;> first | rfl | trivial

/-- A quantity that depends neither on the lists the sequence loop appends to nor on the
arguments `derive_flags` may write is the same after accepted post-processing as in the
arguments the model configuration left. -/
theorem postprocess_arguments_frame {α : Type} (env : Environment) (args : CommandLineArguments)
    (settings : Settings) (f : CommandLineArguments → α)
    (h1 : ∀ a v, f { a with calibrationFilename := v } = f a)
    (h2 : ∀ a v, f { a with trackerSpecifiers := v } = f a)
    (h3 : ∀ a v, f { a with mapSurfels := v } = f a)
    (h4 : ∀ a v, f { a with detectFiducials := v } = f a)
    (h5 : ∀ a v, f { a with batch := v } = f a)
    (h6 : ∀ a v, f { a with useVicon := v } = f a)
    (h7 : ∀ a v, f { a with runServer := v } = f a)
    (h8 : ∀ a d p r sd, f { a with depthImageMasks := d, poseFileMasks := p, rgbImageMasks := r,
                                   sequenceDirs := sd } = f a)
    (h : (postprocess_arguments env args settings).result = true) :
    f (postprocess_arguments env args settings).args =
      f (load_model_configuration env args settings).1 := by
  rw [(postprocess_arguments_accepted env args settings h).2.2.1,
    derive_flags_frame env f h1 h2 h3 h4 h5 h6 h7, sequence_loop_frame]
  exact h8 _ _ _ _ _

theorem add_settings_list_fields (name : String) (vals : List String) (s : Settings) :
    (add_settings_list name vals s).behaviourOnFailure = s.behaviourOnFailure ∧
    (add_settings_list name vals s).deviceType = s.deviceType ∧
    (add_settings_list name vals s).trackerType = s.trackerType := by
  induction vals generalizing s with
  | nil => exact ⟨rfl, rfl, rfl⟩
  | cons v vs ih =>
    simp only [add_settings_list, List.foldl_cons]
    exact ih (s.add_value name v)

theorem add_to_settings_behaviourOnFailure (a : CommandLineArguments) (s : Settings) :
    (a.add_to_settings s).behaviourOnFailure = s.behaviourOnFailure := by
  simp only [CommandLineArguments.add_to_settings, add_settings_list_fields, Settings.add_value]

theorem parse_command_line_eq (env : Environment) (commandLine : CommandLine) (settings : Settings) :
    (parse_command_line env commandLine settings).2.1 =
      (postprocess_arguments env commandLine.args settings).args ∧
    (parse_command_line env commandLine settings).2.2 =
      (postprocess_arguments env commandLine.args settings).settings ∧
    ((parse_command_line env commandLine settings).1 = true →
      (postprocess_arguments env commandLine.args settings).result = true) := by
  unfold parse_command_line
  simp only []
  split
  · exact ⟨rfl, rfl, fun h => absurd h (by simp)⟩
  · rename_i h
    split
    · exact ⟨rfl, rfl, fun h => absurd h (by simp)⟩
    · exact ⟨rfl, rfl, fun _ => by simpa using h⟩

theorem main_starts_up_accepted (env : Environment) (commandLine : CommandLine) (settings : Settings)
    (h : main_starts_up env commandLine settings = true) :
    (postprocess_arguments env commandLine.args settings).result = true := by
  unfold main_starts_up at h
  simp only [Bool.and_eq_true] at h
  exact (parse_command_line_eq env commandLine settings).2.2 h.1.1

theorem main_settings (env : Environment) (commandLine : CommandLine) (settings : Settings)
    (h : main_starts_up env commandLine settings = true) :
    (main env commandLine settings).settings =
      { (postprocess_arguments env commandLine.args settings).settings with
        behaviourOnFailure :=
          if (postprocess_arguments env commandLine.args settings).args.cameraAfterDisk ||
              !(postprocess_arguments env commandLine.args settings).args.noRelocaliser then
            .FAILUREMODE_RELOCALISE
          else (postprocess_arguments env commandLine.args settings).settings.behaviourOnFailure } := by
  rw [main_of_starts_up env commandLine settings h]
  unfold main_configure
  simp only [main_construct_pipeline_frame]
  simp only [main_initial_run, (parse_command_line_eq env commandLine settings).1,
    (parse_command_line_eq env commandLine settings).2.1]
  repeat' split
  all_goals rfl

/-! ## C12: the behaviour on tracking failure -/

/-- C12. For every run of `main` that gets past its start-up, with `a` the arguments as the
command line and configuration files left them: the settings `main` works with are those
post-processing left, with the behaviour on failure set to `FAILUREMODE_RELOCALISE` if
`cameraAfterDisk` is set or `noRelocaliser` is not, and untouched otherwise (so it is set
when both flags are given); post-processing itself does not touch that setting. -/
theorem C12_behaviour_on_failure (env : Environment) (commandLine : CommandLine) (settings : Settings)
    (h : main_starts_up env commandLine settings = true) :
    (main env commandLine settings).settings =
      { (postprocess_arguments env commandLine.args settings).settings with
        behaviourOnFailure :=
          if (load_model_configuration env commandLine.args settings).1.cameraAfterDisk = true ∨
              (load_model_configuration env commandLine.args settings).1.noRelocaliser = false then
            .FAILUREMODE_RELOCALISE
          else (load_model_configuration env commandLine.args settings).2.behaviourOnFailure } ∧
    (postprocess_arguments env commandLine.args settings).settings.behaviourOnFailure =
      (load_model_configuration env commandLine.args settings).2.behaviourOnFailure ∧
    (commandLine.args.modelSpecifier = "" →
      load_model_configuration env commandLine.args settings = (commandLine.args, settings)) := by
  have hacc := main_starts_up_accepted env commandLine settings h
  have hc : (postprocess_arguments env commandLine.args settings).args.cameraAfterDisk =
      (load_model_configuration env commandLine.args settings).1.cameraAfterDisk :=
    postprocess_arguments_frame env _ settings (·.cameraAfterDisk) (fun _ _ => rfl) (fun _ _ => rfl)
      (fun _ _ => rfl) (fun _ _ => rfl) (fun _ _ => rfl) (fun _ _ => rfl) (fun _ _ => rfl)
      (fun _ _ _ _ _ => rfl) hacc
  have hn : (postprocess_arguments env commandLine.args settings).args.noRelocaliser =
      (load_model_configuration env commandLine.args settings).1.noRelocaliser :=
    postprocess_arguments_frame env _ settings (·.noRelocaliser) (fun _ _ => rfl) (fun _ _ => rfl)
      (fun _ _ => rfl) (fun _ _ => rfl) (fun _ _ => rfl) (fun _ _ => rfl) (fun _ _ => rfl)
      (fun _ _ _ _ _ => rfl) hacc
  have hb : (postprocess_arguments env commandLine.args settings).settings.behaviourOnFailure =
      (load_model_configuration env commandLine.args settings).2.behaviourOnFailure := by
    rw [(postprocess_arguments_accepted env _ settings hacc).2.2.2, add_to_settings_behaviourOnFailure]
  refine ⟨?_, hb, ?_⟩
  · rw [main_settings env commandLine settings h, hc, hn, hb]
    cases (load_model_configuration env commandLine.args settings).1.cameraAfterDisk <;>
      cases (load_model_configuration env commandLine.args settings).1.noRelocaliser <;> simp
  · intro hm
    unfold load_model_configuration
    simp [hm]

/-- C12, at `--noRelocaliser --cameraAfterDisk`: relocalisation is still enabled. -/
theorem C12_behaviour_on_failure_witness :
    (main Environment.bare
      ⟨{ CommandLineArguments.defaults with noRelocaliser := true, cameraAfterDisk := true }, false⟩
      Settings.fresh).settings.behaviourOnFailure = .FAILUREMODE_RELOCALISE :=
  (congrArg Settings.behaviourOnFailure
    (C12_behaviour_on_failure Environment.bare
      ⟨{ CommandLineArguments.defaults with noRelocaliser := true, cameraAfterDisk := true }, false⟩
      Settings.fresh (by decide)).1).trans (by decide)

/-! ## C13: the mapping client -/

/-- The client `main` registers for a host, a port and the settings at hand. -/
theorem main_set_mapping_client_client (env : Environment) (run : MainRun) (pipeline : Pipeline) :
    (main_set_mapping_client env run pipeline).mappingClient =
      (if run.args.host ≠ "" then
        some (env.world_scene_id,
          { host := run.args.host, port := run.args.port,
            poolEmptyStrategy :=
              match run.settings.first_value "MappingClient.poolEmptyStrategy" with
              | some text => env.read_pool_empty_strategy text
              | none => .PES_DISCARD })
      else run.mappingClient) := by
  unfold main_set_mapping_client
  simp only [(main_run_application_frame _ _ _).2.2.2.2]
  by_cases h : run.args.host = ""
  · simp [h]
  · simp [h]

/-- The mapping client after the pipeline step: the one registered for the pipeline just
constructed, or the one found if the construction threw. -/
theorem main_construct_pipeline_client (env : Environment) (run : MainRun) :
    ((main_construct_pipeline env run).pipeline = run.pipeline ∧
      (main_construct_pipeline env run).mappingClient = run.mappingClient) ∨
    ((∃ p, (main_construct_pipeline env run).pipeline = some p) ∧
      (main_construct_pipeline env run).mappingClient =
        (if run.args.host ≠ "" then
          some (env.world_scene_id,
            { host := run.args.host, port := run.args.port,
              poolEmptyStrategy :=
                match run.settings.first_value "MappingClient.poolEmptyStrategy" with
                | some text => env.read_pool_empty_strategy text
                | none => .PES_DISCARD })
        else run.mappingClient)) := by
  unfold main_construct_pipeline
  simp only []
  split
  · split
    · exact Or.inl ⟨rfl, rfl⟩
    · rename_i p _
      refine Or.inr ⟨⟨p, ?_⟩, ?_⟩
      · rw [(main_set_mapping_client_frame _ _ _).2.2.2]
      · rw [main_set_mapping_client_client]
  · split
    · left
      split <;> exact ⟨rfl, rfl⟩
    · rename_i p _
      refine Or.inr ⟨⟨p, ?_⟩, ?_⟩
      · rw [(main_set_mapping_client_frame _ _ _).2.2.2]
      · rw [main_set_mapping_client_client]
        split <;> rfl

theorem main_configure_eq (env : Environment) (run : MainRun) :
    main_configure env run = main_construct_pipeline env (main_configured_run run) := rfl

theorem main_configured_run_frame (run : MainRun) :
    (main_configured_run run).args = run.args ∧
    (main_configured_run run).pipeline = run.pipeline ∧
    (main_configured_run run).mappingClient = run.mappingClient ∧
    (main_configured_run run).settings.values = run.settings.values := by
  unfold main_configured_run
  simp only []
  repeat' split
  all_goals exact ⟨rfl, rfl, rfl, rfl⟩

theorem main_configure_client (env : Environment) (run : MainRun)
    (hp : run.pipeline = none) (hc : run.mappingClient = none) :
    ((main_configure env run).pipeline = none ∧ (main_configure env run).mappingClient = none) ∨
    ((∃ p, (main_configure env run).pipeline = some p) ∧
      (main_configure env run).mappingClient =
        (if run.args.host ≠ "" then
          some (env.world_scene_id,
            { host := run.args.host, port := run.args.port,
              poolEmptyStrategy :=
                match (main_configure env run).settings.first_value "MappingClient.poolEmptyStrategy" with
                | some text => env.read_pool_empty_strategy text
                | none => .PES_DISCARD })
        else none)) := by
  rw [main_configure_eq]
  obtain ⟨e1, e2, e3, _⟩ := main_configured_run_frame run
  rcases main_construct_pipeline_client env (main_configured_run run) with ⟨h1, h2⟩ | ⟨h1, h2⟩
  · left
    rw [h1, h2, e2, e3]
    exact ⟨hp, hc⟩
  · right
    refine ⟨h1, ?_⟩
    rw [h2, (main_construct_pipeline_frame _ _).2.1, e1, e3, hc]

theorem add_settings_list_values (name : String) (vals : List String) (s : Settings) :
    (add_settings_list name vals s).values = s.values ++ vals.map (fun v => (name, v)) := by
  induction vals generalizing s with
  | nil => simp [add_settings_list]
  | cons v vs ih =>
    have h := ih (s.add_value name v)
    simp only [add_settings_list, List.foldl_cons] at h ⊢
    rw [h]
    simp [Settings.add_value]

/-- The values `add_to_settings` adds come after those already there, and none of them is
stored under the name `MappingClient.poolEmptyStrategy`. -/
theorem add_to_settings_values (a : CommandLineArguments) (s : Settings) :
    ∃ extra, (a.add_to_settings s).values = s.values ++ extra ∧
      ∀ kv ∈ extra, kv.1 ≠ "MappingClient.poolEmptyStrategy" := by
  simp only [CommandLineArguments.add_to_settings, Settings.add_value, add_settings_list_values,
    List.append_assoc]
  refine ⟨_, rfl, ?_⟩
  intro kv hkv
  simp only [List.mem_append, List.mem_cons, List.mem_singleton, List.mem_map, List.not_mem_nil,
    or_false] at hkv
  intro hk
  rcases kv with ⟨k, v⟩
  simp only at hk
  subst hk
  simp only [Prod.mk.injEq] at hkv
  revert hkv
  simp +decide

theorem first_value_of_first_entry (name text : String)
    (before after : List (String × String)) (hb : ∀ kv ∈ before, kv.1 ≠ name) :
    ((before ++ (name, text) :: after).find? (fun kv => kv.1 == name)).map Prod.snd = some text := by
  induction before with
  | nil => simp
  | cons kv rest ih =>
    have hkv : (kv.1 == name) = false := by simpa using hb kv (List.mem_cons_self _ _)
    simp only [List.cons_append, List.find?_cons, hkv]
    exact ih (fun kv h => hb kv (List.mem_cons_of_mem _ h))

theorem first_value_of_no_entry (values : List (String × String)) (name : String)
    (h : ∀ kv ∈ values, kv.1 ≠ name) :
    (values.find? (fun kv => kv.1 == name)).map Prod.snd = none := by
  induction values with
  | nil => simp
  | cons kv rest ih =>
    have hkv : (kv.1 == name) = false := by simpa using h kv (List.mem_cons_self _ _)
    simp only [List.find?_cons, hkv]
    exact ih (fun kv h2 => h kv (List.mem_cons_of_mem _ h2))

/-- The values of the settings `main` works with: those the model configuration left,
followed by values none of which is stored under `MappingClient.poolEmptyStrategy`. -/
theorem main_settings_values (env : Environment) (commandLine : CommandLine) (settings : Settings)
    (h : main_starts_up env commandLine settings = true) :
    ∃ extra, (main env commandLine settings).settings.values =
        (load_model_configuration env commandLine.args settings).2.values ++ extra ∧
      ∀ kv ∈ extra, kv.1 ≠ "MappingClient.poolEmptyStrategy" := by
  rw [main_settings env commandLine settings h]
  simp only []
  rw [(postprocess_arguments_accepted env commandLine.args settings
    (main_starts_up_accepted env commandLine settings h)).2.2.2]
  exact add_to_settings_values _ _

/-- C13. Whenever `main` has registered a mapping client, the host argument is non-empty
and the client is registered against the world scene ID, built from the host and the port
given, with the pool-empty strategy read from the first value of the setting
`MappingClient.poolEmptyStrategy`, or `PES_DISCARD` when the setting has no value; and
whenever the host argument is non-empty and `main` has constructed its pipeline, it
registers a client. Post-processing leaves host and port as given. In terms of the values
the settings hold once the model configuration is loaded: if the first value stored under
`MappingClient.poolEmptyStrategy` is `text`, the client registered is exactly the world
scene ID with a client of the given host and port whose strategy is `text` as read; if no
value is stored under that name, the strategy is `PES_DISCARD`. -/
theorem C13_mapping_client_iff_host (env : Environment) (commandLine : CommandLine)
    (settings : Settings) :
    (∀ client : String × MappingClient, (main env commandLine settings).mappingClient = some client →
      (main env commandLine settings).args.host ≠ "" ∧
      client = (env.world_scene_id,
        { host := (main env commandLine settings).args.host,
          port := (main env commandLine settings).args.port,
          poolEmptyStrategy :=
            match (main env commandLine settings).settings.first_value "MappingClient.poolEmptyStrategy" with
            | some text => env.read_pool_empty_strategy text
            | none => .PES_DISCARD })) ∧
    ((main env commandLine settings).pipeline.isSome = true →
      (((main env commandLine settings).mappingClient.isSome = true) ↔
        (main env commandLine settings).args.host ≠ "")) ∧
    ((postprocess_arguments env commandLine.args settings).result = true →
      (main env commandLine settings).args.host =
        (load_model_configuration env commandLine.args settings).1.host ∧
      (main env commandLine settings).args.port =
        (load_model_configuration env commandLine.args settings).1.port) ∧
    (∀ (client : String × MappingClient) (text : String) (before after : List (String × String)),
      (main env commandLine settings).mappingClient = some client →
      (load_model_configuration env commandLine.args settings).2.values =
        before ++ ("MappingClient.poolEmptyStrategy", text) :: after →
      (∀ kv ∈ before, kv.1 ≠ "MappingClient.poolEmptyStrategy") →
      client = (env.world_scene_id,
        { host := (load_model_configuration env commandLine.args settings).1.host,
          port := (load_model_configuration env commandLine.args settings).1.port,
          poolEmptyStrategy := env.read_pool_empty_strategy text })) ∧
    (∀ client : String × MappingClient,
      (main env commandLine settings).mappingClient = some client →
      (∀ kv ∈ (load_model_configuration env commandLine.args settings).2.values,
        kv.1 ≠ "MappingClient.poolEmptyStrategy") →
      client = (env.world_scene_id,
        { host := (load_model_configuration env commandLine.args settings).1.host,
          port := (load_model_configuration env commandLine.args settings).1.port,
          poolEmptyStrategy := .PES_DISCARD })) := by
  have hold : (∀ client : String × MappingClient,
        (main env commandLine settings).mappingClient = some client →
      (main env commandLine settings).args.host ≠ "" ∧
      client = (env.world_scene_id,
        { host := (main env commandLine settings).args.host,
          port := (main env commandLine settings).args.port,
          poolEmptyStrategy :=
            match (main env commandLine settings).settings.first_value "MappingClient.poolEmptyStrategy" with
            | some text => env.read_pool_empty_strategy text
            | none => .PES_DISCARD })) ∧
    ((main env commandLine settings).pipeline.isSome = true →
      (((main env commandLine settings).mappingClient.isSome = true) ↔
        (main env commandLine settings).args.host ≠ "")) ∧
    ((postprocess_arguments env commandLine.args settings).result = true →
      (main env commandLine settings).args.host =
        (load_model_configuration env commandLine.args settings).1.host ∧
      (main env commandLine settings).args.port =
        (load_model_configuration env commandLine.args settings).1.port) := by
    have hframe : (postprocess_arguments env commandLine.args settings).result = true →
        (main env commandLine settings).args.host =
          (load_model_configuration env commandLine.args settings).1.host ∧
        (main env commandLine settings).args.port =
          (load_model_configuration env commandLine.args settings).1.port := by
      intro hacc
      rw [main_args]
      exact ⟨postprocess_arguments_frame env _ settings (·.host) (fun _ _ => rfl) (fun _ _ => rfl)
          (fun _ _ => rfl) (fun _ _ => rfl) (fun _ _ => rfl) (fun _ _ => rfl) (fun _ _ => rfl)
          (fun _ _ _ _ _ => rfl) hacc,
        postprocess_arguments_frame env _ settings (·.port) (fun _ _ => rfl) (fun _ _ => rfl)
          (fun _ _ => rfl) (fun _ _ => rfl) (fun _ _ => rfl) (fun _ _ => rfl) (fun _ _ => rfl)
          (fun _ _ _ _ _ => rfl) hacc⟩
    cases hs : main_starts_up env commandLine settings with
    | false =>
      obtain ⟨_, h2, h3⟩ := main_of_not_starts_up env commandLine settings hs
      rw [h2, h3]
      exact ⟨fun c h => absurd h (by simp), fun h => absurd h (by simp), hframe⟩
    | true =>
      have hm := main_of_starts_up env commandLine settings hs
      have ha : (main_configure env (main_initial_run env commandLine settings)).args =
          (main_initial_run env commandLine settings).args := (main_configure_frame _ _).1
      rw [← hm] at ha
      rcases main_configure_client env (main_initial_run env commandLine settings) rfl rfl with
        ⟨h1, h2⟩ | ⟨⟨p, h1⟩, h2⟩
      · rw [← hm] at h1 h2
        rw [h1, h2]
        exact ⟨fun c h => absurd h (by simp), fun h => absurd h (by simp), hframe⟩
      · rw [← hm] at h1 h2
        rw [← ha] at h2
        rw [h1, h2]
        refine ⟨?_, ?_, hframe⟩
        · intro client hcl
          by_cases hh : (main env commandLine settings).args.host = ""
          · simp [hh] at hcl
          · simp only [ne_eq, hh, not_false_eq_true, if_true, Option.some.injEq] at hcl
            exact ⟨hh, hcl.symm⟩
        · intro _
          by_cases hh : (main env commandLine settings).args.host = ""
          · simp [hh]
          · simp [hh]
  have hstart : ∀ client : String × MappingClient,
      (main env commandLine settings).mappingClient = some client →
      main_starts_up env commandLine settings = true := by
    intro client hcl
    cases hs : main_starts_up env commandLine settings with
    | true => rfl
    | false =>
      rw [(main_of_not_starts_up env commandLine settings hs).2.2] at hcl
      exact absurd hcl (by simp)
  refine ⟨hold.1, hold.2.1, hold.2.2, ?_, ?_⟩
  · intro client text before after hcl hv hb
    have hs := hstart client hcl
    obtain ⟨extra, he, _⟩ := main_settings_values env commandLine settings hs
    obtain ⟨hh, hp⟩ := hold.2.2 (main_starts_up_accepted env commandLine settings hs)
    have hf : (main env commandLine settings).settings.first_value
        "MappingClient.poolEmptyStrategy" = some text := by
      unfold Settings.first_value
      rw [he, hv, List.append_assoc, List.cons_append]
      exact first_value_of_first_entry _ _ _ _ hb
    have hc := (hold.1 client hcl).2
    rw [hf, hh, hp] at hc
    exact hc
  · intro client hcl hv
    have hs := hstart client hcl
    obtain ⟨extra, he, hx⟩ := main_settings_values env commandLine settings hs
    obtain ⟨hh, hp⟩ := hold.2.2 (main_starts_up_accepted env commandLine settings hs)
    have hf : (main env commandLine settings).settings.first_value
        "MappingClient.poolEmptyStrategy" = none := by
      unfold Settings.first_value
      rw [he]
      apply first_value_of_no_entry
      intro kv hkv
      rcases List.mem_append.1 hkv with h | h
      · exact hv kv h
      · exact hx kv h
    have hc := (hold.1 client hcl).2
    rw [hf, hh, hp] at hc
    exact hc

/-- C13, at `--host 10.0.0.7` with the setting `MappingClient.poolEmptyStrategy` holding
`PES_WAIT`: `main` registers, against the world scene, a client of that host and the
default port whose strategy is `PES_WAIT`, not the default `PES_DISCARD`. -/
theorem C13_mapping_client_iff_host_witness :
    (main Environment.reading_wait
      ⟨{ CommandLineArguments.defaults with host := "10.0.0.7" }, false⟩
      { Settings.fresh with values := [("MappingClient.poolEmptyStrategy", "PES_WAIT")] }).mappingClient.isSome
        = true ∧
    ∀ client : String × MappingClient,
      (main Environment.reading_wait
        ⟨{ CommandLineArguments.defaults with host := "10.0.0.7" }, false⟩
        { Settings.fresh with values := [("MappingClient.poolEmptyStrategy", "PES_WAIT")] }).mappingClient
          = some client →
      client = ("World", { host := "10.0.0.7", port := "7851", poolEmptyStrategy := .PES_WAIT }) :=
  ⟨by decide, fun client h =>
    (C13_mapping_client_iff_host Environment.reading_wait
      ⟨{ CommandLineArguments.defaults with host := "10.0.0.7" }, false⟩
      { Settings.fresh with values := [("MappingClient.poolEmptyStrategy", "PES_WAIT")] }).2.2.2.1
        client "PES_WAIT" [] [] h rfl (by simp)⟩

/-! ## C14: sequence specifiers exclude explicit masks -/

/-- C14. For every argument set with at least one sequence specifier and at least one
explicitly given depth, RGB or pose mask, `postprocess_arguments` prints its error message
and returns false, with the arguments and the settings exactly as it received them. -/
theorem C14_sequences_and_masks_rejected (env : Environment) (args : CommandLineArguments)
    (settings : Settings) (hs : args.sequenceSpecifiers ≠ [])
    (hm : args.depthImageMasks ≠ [] ∨ args.rgbImageMasks ≠ [] ∨ args.poseFileMasks ≠ []) :
    postprocess_arguments env args settings =
      { result := false, args := args, settings := settings,
        output := ["Error: Either sequence flags or explicit depth/RGB/pose masks may be specified, but not both.\n"] } := by
  unfold postprocess_arguments
  rw [if_pos]
  simp only [Bool.and_eq_true, Bool.not_eq_true', Bool.or_eq_true, List.isEmpty_eq_false]
  exact ⟨hs, by tauto⟩

/-- C14, at `-s chess -p pose%06i.txt`. -/
theorem C14_sequences_and_masks_rejected_witness :
    (postprocess_arguments Environment.bare
      { CommandLineArguments.defaults with sequenceSpecifiers := ["chess"], poseFileMasks := ["pose%06i.txt"] }
      Settings.fresh).result = false ∧
    (postprocess_arguments Environment.bare
      { CommandLineArguments.defaults with sequenceSpecifiers := ["chess"], poseFileMasks := ["pose%06i.txt"] }
      Settings.fresh).settings = Settings.fresh :=
  ⟨congrArg PostprocessResult.result
    (C14_sequences_and_masks_rejected Environment.bare
      { CommandLineArguments.defaults with sequenceSpecifiers := ["chess"], poseFileMasks := ["pose%06i.txt"] }
      Settings.fresh (by decide) (Or.inr (Or.inr (by decide)))),
   congrArg PostprocessResult.settings
    (C14_sequences_and_masks_rejected Environment.bare
      { CommandLineArguments.defaults with sequenceSpecifiers := ["chess"], poseFileMasks := ["pose%06i.txt"] }
      Settings.fresh (by decide) (Or.inr (Or.inr (by decide))))⟩

/-! ## C15: the guard on the pose file masks -/

/-- The guard of a `Disk` chunk at tracker index `i`: with fewer than `i` pose file masks
it throws; with exactly `i` it lets the read of `poseFileMasks[i]` go ahead past the end
of the vector (when no global poses are in use). -/
theorem disk_chunk_config_guard (env : Environment) (args : CommandLineArguments) (i : Nat) :
    (args.poseFileMasks.length < i →
      disk_chunk_config env args [] i = .error (.runtime_error
        "Error: Not enough pose file masks have been specified with the -p flag.")) ∧
    (args.poseFileMasks.length = i →
      disk_chunk_config env args [] i = .error (.undefined_behaviour "args.poseFileMasks[i]")) := by
  constructor
  · intro h
    unfold disk_chunk_config
    rw [if_pos h]
  · intro h
    unfold disk_chunk_config
    rw [if_neg (by omega)]
    have hnone : args.poseFileMasks[i]? = none := by
      rw [List.getElem?_eq_none_iff]
      omega
    simp [hnone]

/-- C15 fails at `-t Disk` (no sequence, no pose file mask). The arguments are accepted;
tracker 0 has the chunk `Disk` and there are 0 pose file masks, so not enough to cover
index 0; yet `make_tracker_config` does not throw its runtime error: the guard `0 < 0` is
false and `poseFileMasks[0]` is read past the end of the empty vector, and so it goes in
`main`. -/
theorem C15_disk_chunk_reads_past_the_masks :
    (postprocess_arguments Environment.bare
      { CommandLineArguments.defaults with trackerSpecifiers := ["Disk"] } Settings.fresh).result = true ∧
    tokenize_plus "Disk" = ["Disk"] ∧
    ({ CommandLineArguments.defaults with trackerSpecifiers := ["Disk"] } :
      CommandLineArguments).poseFileMasks.length ≤ 0 ∧
    make_tracker_config Environment.bare
      { CommandLineArguments.defaults with trackerSpecifiers := ["Disk"] } =
        .error (.undefined_behaviour "args.poseFileMasks[i]") ∧
    make_tracker_config Environment.bare
      { CommandLineArguments.defaults with trackerSpecifiers := ["Disk"] } ≠
        .error (.runtime_error "Error: Not enough pose file masks have been specified with the -p flag.") ∧
    (main Environment.bare ⟨{ CommandLineArguments.defaults with trackerSpecifiers := ["Disk"] }, false⟩
      Settings.fresh).caught = some (.undefined_behaviour "args.poseFileMasks[i]") := by
  have h : make_tracker_config Environment.bare
      { CommandLineArguments.defaults with trackerSpecifiers := ["Disk"] } =
        .error (.undefined_behaviour "args.poseFileMasks[i]") := by
    rfl
  refine ⟨by decide, by decide, by decide, h, ?_, by decide⟩
  rw [h]
  intro hc
  injection hc with hc
  cases hc

/-! ## C16: the sequential composite -/

theorem make_tracker_config_ok (env : Environment) (args : CommandLineArguments) (s : String)
    (h : make_tracker_config env args = .ok s) :
    ∃ globalPoses inner,
      global_poses_in_use env args = .ok globalPoses ∧
      trackers_config env args globalPoses (tracker_count args) 0 = .ok inner ∧
      s = (if tracker_count args > 1 then "<tracker type='composite' policy='sequential'>" else "") ++
        inner ++ (if tracker_count args > 1 then "</tracker>" else "") := by
  unfold make_tracker_config at h
  simp only [] at h
  split at h
  · exact absurd h (by simp)
  · rename_i gp hgp
    split at h
    · exact absurd h (by simp)
    · rename_i inner hinner
      simp only [Except.ok.injEq] at h
      exact ⟨gp, inner, hgp, hinner, h.symm⟩

theorem prefix_mismatch (opening l m : List Char) (k : Nat) (hl : k ≤ l.length)
    (ho : k ≤ opening.length) (hne : opening.take k ≠ l.take k) :
    opening.isPrefixOf (l ++ m) = false := by
  rw [Bool.eq_false_iff]
  intro h
  rw [List.isPrefixOf_iff_prefix] at h
  obtain ⟨t, ht⟩ := h
  apply hne
  have h1 : (opening ++ t).take k = opening.take k := List.take_append_of_le_length ho
  have h2 : (l ++ m).take k = l.take k := List.take_append_of_le_length hl
  rw [← h1, ht, h2]

theorem global_tracker_opening_ok (env : Environment) (args : CommandLineArguments)
    (globalPoses : List (String × String)) (i : Nat) (opening : String)
    (h : global_tracker_opening env args globalPoses i = .ok opening) :
    ∃ pose, opening = "<tracker type='global'><params>" ++ pose ++ "</params>" := by
  unfold global_tracker_opening at h
  split at h
  · exact absurd h (by simp)
  · simp only [] at h
    split at h
    · rename_i pose _
      simp only [Except.ok.injEq] at h
      exact ⟨pose, h.symm⟩
    · exact absurd h (by simp)

/-- No chunk configuration, whatever follows it, begins like the sequential composite. -/
theorem chunk_config_opening (env : Environment) (args : CommandLineArguments)
    (globalPoses : List (String × String)) (i : Nat) (chunk first : String)
    (h : chunk_config env args globalPoses i chunk = .ok first) (m : List Char) :
    ("<tracker type='composite' policy='sequential'>" : String).data.isPrefixOf (first.data ++ m) = false := by
  have hempty : ("" : String).data = [] := rfl
  unfold chunk_config at h
  split at h
  · simp only [Except.ok.injEq] at h
    subst h
    exact prefix_mismatch _ _ _ 16 (by decide) (by decide) (by decide)
  · split at h
    · unfold disk_chunk_config at h
      split at h
      · exact absurd h (by simp)
      · simp only [] at h
        split at h
        · exact absurd h (by simp)
        · rename_i opening hopening
          split at h
          · exact absurd h (by simp)
          · simp only [Except.ok.injEq] at h
            subst h
            split at hopening
            · obtain ⟨pose, hp⟩ := global_tracker_opening_ok env args globalPoses i opening hopening
              subst hp
              simp only [String.data_append, List.append_assoc]
              exact prefix_mismatch _ _ _ 16 (by decide) (by decide) (by decide)
            · simp only [Except.ok.injEq] at hopening
              subst hopening
              simp only [String.data_append, List.append_assoc, hempty, List.nil_append]
              exact prefix_mismatch _ _ _ 16 (by decide) (by decide) (by decide)
    · simp only [Except.ok.injEq] at h
      subst h
      simp only [String.data_append, List.append_assoc]
      exact prefix_mismatch _ _ _ 16 (by decide) (by decide) (by decide)

/-- The configuration of one tracker does not begin like the sequential composite. -/
theorem tracker_config_opening (env : Environment) (args : CommandLineArguments)
    (globalPoses : List (String × String)) (i : Nat) (inner : String)
    (h : tracker_config env args globalPoses i = .ok inner) :
    begins_with inner "<tracker type='composite' policy='sequential'>" = false := by
  have hempty : ("" : String).data = [] := rfl
  unfold tracker_config at h
  simp only [] at h
  split at h
  · exact absurd h (by simp)
  · rename_i cinner hc
    simp only [Except.ok.injEq] at h
    subst h
    unfold begins_with
    generalize tokenize_plus _ = chunks at hc ⊢
    match chunks, hc with
    | [], hc =>
      simp only [chunks_config, Except.ok.injEq] at hc
      subst hc
      simp only [List.length_nil, gt_iff_lt, Nat.not_lt_zero, if_false, String.data_append, hempty,
        List.append_nil]
      decide
    | [c], hc =>
      simp only [chunks_config] at hc
      split at hc
      · exact absurd hc (by simp)
      · rename_i first hfirst
        simp only [Except.ok.injEq] at hc
        subst hc
        simp only [List.length_singleton, gt_iff_lt, Nat.lt_irrefl, if_false, String.data_append, hempty,
          List.nil_append, List.append_assoc]
        exact chunk_config_opening env args globalPoses i c first hfirst _
    | c :: d :: cs, _ =>
      simp only [List.length_cons, gt_iff_lt, Nat.lt_add_left_iff_pos, Nat.zero_lt_succ, if_true,
        String.data_append, List.append_assoc]
      exact prefix_mismatch _ _ _ 26 (by decide) (by decide) (by decide)

/-- The loop over the trackers returns the configurations of the trackers it visits, one
after the other. -/
theorem trackers_config_ok (env : Environment) (args : CommandLineArguments)
    (globalPoses : List (String × String)) (todo i : Nat) (inner : String)
    (h : trackers_config env args globalPoses todo i = .ok inner) :
    ∃ configs : List String, configs.length = todo ∧
      (∀ k, k < todo → tracker_config env args globalPoses (i + k) = .ok (configs.getD k "")) ∧
      inner = concat_all configs := by
  induction todo generalizing i inner with
  | zero =>
    simp only [trackers_config, Except.ok.injEq] at h
    exact ⟨[], rfl, fun k hk => absurd hk (Nat.not_lt_zero k), h.symm⟩
  | succ n ih =>
    simp only [trackers_config] at h
    split at h
    · exact absurd h (by simp)
    · rename_i first hfirst
      split at h
      · exact absurd h (by simp)
      · rename_i rest hrest
        simp only [Except.ok.injEq] at h
        obtain ⟨configs, hlen, hcfg, hcat⟩ := ih (i + 1) rest hrest
        refine ⟨first :: configs, by simp [hlen], ?_, ?_⟩
        · intro k hk
          cases k with
          | zero => simpa using hfirst
          | succ k =>
            have := hcfg k (by omega)
            simpa [Nat.add_assoc, Nat.add_comm 1 k] using this
        · rw [← h, hcat]
          rfl

theorem chunks_config_returns (env : Environment) (args : CommandLineArguments)
    (globalPoses : List (String × String)) (i : Nat) (chunks : List String)
    (h : "Disk" ∉ chunks) : ∃ s, chunks_config env args globalPoses i chunks = .ok s := by
  induction chunks with
  | nil => exact ⟨"", rfl⟩
  | cons c cs ih =>
    simp only [List.mem_cons, not_or] at h
    obtain ⟨rest, hrest⟩ := ih h.2
    have hc : ∃ first, chunk_config env args globalPoses i c = .ok first := by
      unfold chunk_config
      split
      · exact ⟨_, rfl⟩
      · rw [if_neg]
        · exact ⟨_, rfl⟩
        · intro hd
          simp only [beq_iff_eq] at hd
          exact h.1 hd.symm
    obtain ⟨first, hfirst⟩ := hc
    exact ⟨first ++ rest, by simp only [chunks_config, hfirst, hrest]⟩

theorem trackers_config_returns (env : Environment) (args : CommandLineArguments)
    (globalPoses : List (String × String)) (todo i : Nat)
    (h : ∀ k, k < todo → "Disk" ∉ tokenize_plus (tracker_specifier args (i + k))) :
    ∃ s, trackers_config env args globalPoses todo i = .ok s := by
  induction todo generalizing i with
  | zero => exact ⟨"", rfl⟩
  | succ n ih =>
    obtain ⟨rest, hrest⟩ := ih (i + 1) (fun k hk => by
      have := h (k + 1) (by omega)
      simpa [Nat.add_assoc, Nat.add_comm 1 k] using this)
    obtain ⟨cinner, hc⟩ := chunks_config_returns env args globalPoses i
      (tokenize_plus (tracker_specifier args i)) (by simpa using h 0 (by omega))
    have ht : ∃ first, tracker_config env args globalPoses i = .ok first := by
      unfold tracker_config
      simp only []
      unfold tracker_specifier at hc
      rw [hc]
      exact ⟨_, rfl⟩
    obtain ⟨first, hfirst⟩ := ht
    exact ⟨first ++ rest, by simp only [trackers_config, hfirst, hrest]⟩

theorem tracker_count_pos (args : CommandLineArguments) : 1 ≤ tracker_count args := by
  unfold tracker_count
  simp only []
  split
  · omega
  · rename_i h
    simp only [Bool.or_eq_true, decide_eq_true_eq, not_or] at h
    omega

/-- C16. The number of trackers is `n + 1` if `n = 0` or `cameraAfterDisk` is set, and `n`
otherwise, for `n` sequence specifiers. Whenever `make_tracker_config` returns, the
configurations of all the trackers, in order, are enclosed between
`<tracker type='composite' policy='sequential'>` and `</tracker>` if that number exceeds 1,
and the result is the configuration of the single tracker if it is 1; the result begins
with the sequential opening and ends with the closing tag if and only if the number
exceeds 1. It does return when no global poses are asked for and no tracker specifier has
a `Disk` chunk. -/
theorem C16_sequential_composite (env : Environment) (args : CommandLineArguments) :
    tracker_count args =
      (if args.sequenceSpecifiers.length = 0 ∨ args.cameraAfterDisk = true
        then args.sequenceSpecifiers.length + 1 else args.sequenceSpecifiers.length) ∧
    (∀ s : String, make_tracker_config env args = .ok s →
      ∃ (globalPoses : List (String × String)) (configs : List String),
        global_poses_in_use env args = .ok globalPoses ∧
        configs.length = tracker_count args ∧
        (∀ k, k < tracker_count args →
          tracker_config env args globalPoses k = .ok (configs.getD k "")) ∧
        (tracker_count args > 1 →
          s = "<tracker type='composite' policy='sequential'>" ++ concat_all configs ++ "</tracker>") ∧
        (tracker_count args = 1 → configs = [s]) ∧
        ((begins_with s "<tracker type='composite' policy='sequential'>" = true ∧
            ends_with s "</tracker>" = true) ↔ tracker_count args > 1)) ∧
    (args.globalPosesSpecifier = "" →
      (∀ k, k < tracker_count args → "Disk" ∉ tokenize_plus (tracker_specifier args k)) →
      ∃ s, make_tracker_config env args = .ok s) := by
  refine ⟨?_, ?_, ?_⟩
  · unfold tracker_count
    simp only [Bool.or_eq_true, decide_eq_true_eq]
  · intro s h
    obtain ⟨gp, inner, hgp, hinner, hs⟩ := make_tracker_config_ok env args s h
    obtain ⟨configs, hlen, hcfg, hcat⟩ := trackers_config_ok env args gp _ 0 inner hinner
    have hcfg' : ∀ k, k < tracker_count args →
        tracker_config env args gp k = .ok (configs.getD k "") := by
      intro k hk
      simpa using hcfg k hk
    have hpos := tracker_count_pos args
    by_cases hc : tracker_count args > 1
    · rw [if_pos hc, if_pos hc, hcat] at hs
      refine ⟨gp, configs, hgp, hlen, hcfg', fun _ => hs, fun h1 => absurd h1 (by omega), ?_⟩
      refine ⟨fun _ => hc, fun _ => ⟨?_, ?_⟩⟩
      · unfold begins_with
        rw [hs]
        simp only [String.data_append, List.append_assoc, List.isPrefixOf_iff_prefix]
        exact List.prefix_append _ _
      · unfold ends_with
        rw [hs]
        simp only [String.data_append, List.isSuffixOf_iff_suffix]
        exact List.suffix_append _ _
    · have h1 : tracker_count args = 1 := by omega
      rw [if_neg hc, if_neg hc, String.empty_append, String.append_empty] at hs
      have hone : configs = [s] := by
        rw [h1] at hlen
        match configs, hlen, hcat with
        | [c], _, hcat =>
          simp only [concat_all, String.append_empty] at hcat
          rw [hs, hcat]
      refine ⟨gp, configs, hgp, hlen, hcfg', fun h2 => absurd h2 hc, fun _ => hone, ?_⟩
      have h0 := hcfg' 0 (by omega)
      rw [hone] at h0
      simp only [List.getD_cons_zero] at h0
      have hb := tracker_config_opening env args gp 0 s h0
      constructor
      · rintro ⟨hbegin, _⟩
        rw [hb] at hbegin
        exact absurd hbegin (by simp)
      · intro h2
        exact absurd h2 hc
  · intro hg hdisk
    have hgp : global_poses_in_use env args = .ok [] := by
      unfold global_poses_in_use
      simp [hg]
    obtain ⟨inner, hinner⟩ := trackers_config_returns env args [] (tracker_count args) 0
      (fun k hk => by simpa using hdisk k hk)
    refine ⟨(if tracker_count args > 1 then "<tracker type='composite' policy='sequential'>" else "") ++
      inner ++ (if tracker_count args > 1 then "</tracker>" else ""), ?_⟩
    unfold make_tracker_config
    simp only []
    unfold global_poses_in_use at hgp
    rw [hgp]
    simp only []
    rw [hinner]

/-- C16, for the empty command line: one tracker, and a configuration is returned. -/
theorem C16_sequential_composite_witness :
    ∃ s, make_tracker_config Environment.bare CommandLineArguments.defaults = .ok s :=
  (C16_sequential_composite Environment.bare CommandLineArguments.defaults).2.2 rfl
    (by decide)

/-! ## C17: surfel tracking implies surfel mapping -/

theorem derive_flags_surfels (env : Environment) (a : CommandLineArguments) :
    (derive_flags env a).mapSurfels = (a.mapSurfels || a.trackSurfels) ∧
    (derive_flags env a).trackSurfels = a.trackSurfels := by
  constructor
  · unfold derive_flags
    rw [collaborative_frame (·.mapSurfels) (fun _ _ => rfl),
      vicon_tracker_frame (·.mapSurfels) (fun _ _ => rfl),
      vicon_detector_frame (·.mapSurfels) (fun _ _ => rfl),
      headless_frame (·.mapSurfels) (fun _ _ => rfl),
      fiducials_frame (·.mapSurfels) (fun _ _ => rfl)]
    have h : ∀ b : CommandLineArguments,
        (surfel_tracking_enables_mapping b).mapSurfels = (b.mapSurfels || b.trackSurfels) := by
      intro b
      unfold surfel_tracking_enables_mapping
      split <;> simp_all
    rw [h, disk_trackers_frame (fun b => b.mapSurfels || b.trackSurfels) (fun _ _ => rfl),
      default_calibration_frame env (fun b => b.mapSurfels || b.trackSurfels) (fun _ _ => rfl)]
  · exact derive_flags_frame env (·.trackSurfels) (fun _ _ => rfl) (fun _ _ => rfl) (fun _ _ => rfl)
      (fun _ _ => rfl) (fun _ _ => rfl) (fun _ _ => rfl) (fun _ _ => rfl) a

theorem postprocess_arguments_surfels (env : Environment) (args : CommandLineArguments)
    (settings : Settings) (h : (postprocess_arguments env args settings).result = true)
    (ht : (postprocess_arguments env args settings).args.trackSurfels = true) :
    (postprocess_arguments env args settings).args.mapSurfels = true := by
  rw [(postprocess_arguments_accepted env args settings h).2.2.1] at ht ⊢
  rw [(derive_flags_surfels env _).2] at ht
  rw [(derive_flags_surfels env _).1, ht, Bool.or_true]

theorem make_collaborative_pipeline_modes_replicate (env : Environment)
    (args : CommandLineArguments) (server : Option MappingServer) (p : Pipeline)
    (h : make_collaborative_pipeline env args server = .ok p) :
    ∃ k : Nat,
      p.mappingModes = List.replicate k (if args.mapSurfels then .MAP_BOTH else .MAP_VOXELS_ONLY) ∧
      p.trackingModes =
        List.replicate k (if args.trackSurfels then .TRACK_SURFELS else .TRACK_VOXELS) := by
  unfold make_collaborative_pipeline at h
  split at h
  · exact absurd h (by simp)
  · split at h
    · exact absurd h (by simp)
    · rename_i engines _ ms ts cs hm
      simp only [Except.ok.injEq] at h
      subst h
      obtain ⟨e1, e2⟩ := collaborative_modes_spec args _ _ ms ts cs hm
      exact ⟨_, e1, e2⟩

/-- The scenes of the pipeline `main` constructs all have the same mapping mode and the
same tracking mode, and there are as many of the one as of the other. -/
theorem main_scene_modes_replicate (env : Environment) (commandLine : CommandLine)
    (settings : Settings) (p : Pipeline) (h : (main env commandLine settings).pipeline = some p) :
    ∃ k : Nat,
      p.mappingModes = List.replicate k
        (if (main env commandLine settings).args.mapSurfels then .MAP_BOTH else .MAP_VOXELS_ONLY) ∧
      p.trackingModes = List.replicate k
        (if (main env commandLine settings).args.trackSurfels then .TRACK_SURFELS else .TRACK_VOXELS) := by
  cases hs : main_starts_up env commandLine settings with
  | false =>
    rw [(main_of_not_starts_up env commandLine settings hs).2.1] at h
    exact absurd h (by simp)
  | true =>
    rw [main_of_starts_up env commandLine settings hs] at h ⊢
    rw [(main_configure_frame _ _).1]
    rcases main_configure_pipeline env _ p h with h1 | ⟨_, h1⟩ | ⟨_, h1⟩
    · exact absurd h1 (by simp [main_initial_run])
    · obtain ⟨e1, e2⟩ := make_single_pipeline_modes env _ p h1
      exact ⟨1, by rw [e1]; rfl, by rw [e2]; rfl⟩
    · exact make_collaborative_pipeline_modes_replicate env _ _ p h1

/-- C17. For every argument set accepted by `postprocess_arguments`, surfel tracking
enabled implies surfel mapping enabled; and in every pipeline `main` constructs (single
scene or collaborative) each scene has a mapping mode and a tracking mode, and a scene
with tracking mode `TRACK_SURFELS` has mapping mode `MAP_BOTH`, never `MAP_VOXELS_ONLY`. -/
theorem C17_surfel_tracking_implies_mapping (env : Environment) (commandLine : CommandLine)
    (settings : Settings) :
    ((postprocess_arguments env commandLine.args settings).result = true →
      (postprocess_arguments env commandLine.args settings).args.trackSurfels = true →
      (postprocess_arguments env commandLine.args settings).args.mapSurfels = true) ∧
    (∀ p : Pipeline, (main env commandLine settings).pipeline = some p →
      p.mappingModes.length = p.trackingModes.length ∧
      ∀ i : Nat, p.trackingModes[i]? = some .TRACK_SURFELS →
        p.mappingModes[i]? = some .MAP_BOTH ∧ p.mappingModes[i]? ≠ some .MAP_VOXELS_ONLY) := by
  refine ⟨postprocess_arguments_surfels env _ settings, ?_⟩
  intro p hp
  obtain ⟨k, hm, ht⟩ := main_scene_modes_replicate env commandLine settings p hp
  have hstart : main_starts_up env commandLine settings = true := by
    cases hs : main_starts_up env commandLine settings with
    | true => rfl
    | false =>
      rw [(main_of_not_starts_up env commandLine settings hs).2.1] at hp
      exact absurd hp (by simp)
  have hacc := main_starts_up_accepted env commandLine settings hstart
  rw [main_args] at hm ht
  refine ⟨by rw [hm, ht]; simp, ?_⟩
  intro i hi
  rw [ht] at hi
  rw [List.getElem?_replicate] at hi
  split at hi
  · rename_i hik
    simp only [Option.some.injEq] at hi
    have htrack : (postprocess_arguments env commandLine.args settings).args.trackSurfels = true := by
      cases hb : (postprocess_arguments env commandLine.args settings).args.trackSurfels with
      | true => rfl
      | false =>
        rw [hb] at hi
        exact absurd hi (by simp)
    have hmap := postprocess_arguments_surfels env _ settings hacc htrack
    rw [hm, hmap, List.getElem?_replicate, if_pos hik]
    exact ⟨rfl, by simp⟩
  · exact absurd hi (by simp)

/-- C17, at `--trackSurfels`: the scene is tracked with surfels and maps both. -/
theorem C17_surfel_tracking_implies_mapping_witness :
    (Pipeline.SemanticPipeline "/opt/spaint/resources" 10 [] 12345 "<tracker type='infinitam'/>"
      .MAP_BOTH .TRACK_SURFELS none false).mappingModes[0]? = some .MAP_BOTH :=
  ((C17_surfel_tracking_implies_mapping Environment.bare
    ⟨{ CommandLineArguments.defaults with trackSurfels := true }, false⟩ Settings.fresh).2
      (.SemanticPipeline "/opt/spaint/resources" 10 [] 12345 "<tracker type='infinitam'/>"
        .MAP_BOTH .TRACK_SURFELS none false) (by decide)).2 0 (by decide) |>.1

/-! ## Lemmas on the sequence loop -/

/-- Over directories that each follow exactly one naming convention the loop runs to its
end and appends, per sequence and in order, the directory and the three masks. -/
theorem sequence_loop_all_single (env : Environment) (todo i : Nat) (a : CommandLineArguments)
    (h : ∀ j, i ≤ j → j < i + todo → single_naming env a j = true) :
    sequence_loop env todo i a =
      ({ a with
          sequenceDirs := a.sequenceDirs ++ (List.range' i todo).map (sequence_dir env a),
          depthImageMasks := a.depthImageMasks ++ (List.range' i todo).map (sequence_depth_mask env a),
          poseFileMasks := a.poseFileMasks ++ (List.range' i todo).map (sequence_pose_mask env a),
          rgbImageMasks := a.rgbImageMasks ++ (List.range' i todo).map (sequence_rgb_mask env a) },
        none) := by
  induction todo generalizing i a with
  | zero => simp [sequence_loop]
  | succ n ih =>
    have hi := h i (Nat.le_refl _) (by omega)
    simp only [single_naming, Bool.or_eq_true, beq_iff_eq] at hi
    simp only [sequence_loop]
    rcases hi with hi | hi
    · rw [hi]
      simp only []
      rw [ih (i + 1) { a with
        sequenceDirs := a.sequenceDirs ++ [sequence_dir env a i],
        depthImageMasks := a.depthImageMasks ++ [env.path_join (sequence_dir env a i) "frame-%06i.depth.png"],
        poseFileMasks := a.poseFileMasks ++ [env.path_join (sequence_dir env a i) "frame-%06i.pose.txt"],
        rgbImageMasks := a.rgbImageMasks ++ [env.path_join (sequence_dir env a i) "frame-%06i.color.png"] }
        (fun j h1 h2 => h j (by omega) (by omega))]
      simp only [List.range'_succ, List.map_cons, List.append_assoc, List.singleton_append,
        sequence_depth_mask, sequence_pose_mask, sequence_rgb_mask, hi, mask_names]
      rfl
    · rw [hi]
      simp only []
      rw [ih (i + 1) { a with
        sequenceDirs := a.sequenceDirs ++ [sequence_dir env a i],
        depthImageMasks := a.depthImageMasks ++ [env.path_join (sequence_dir env a i) "depthm%06i.pgm"],
        poseFileMasks := a.poseFileMasks ++ [env.path_join (sequence_dir env a i) "posem%06i.txt"],
        rgbImageMasks := a.rgbImageMasks ++ [env.path_join (sequence_dir env a i) "rgbm%06i.ppm"] }
        (fun j h1 h2 => h j (by omega) (by omega))]
      simp only [List.range'_succ, List.map_cons, List.append_assoc, List.singleton_append,
        sequence_depth_mask, sequence_pose_mask, sequence_rgb_mask, hi, mask_names]
      rfl

/-- The loop only ever appends to the four lists it writes. -/
theorem sequence_loop_appends (env : Environment) (todo i : Nat) (a : CommandLineArguments) :
    ∃ sd d p r : List String,
      (sequence_loop env todo i a).1.sequenceDirs = a.sequenceDirs ++ sd ∧
      (sequence_loop env todo i a).1.depthImageMasks = a.depthImageMasks ++ d ∧
      (sequence_loop env todo i a).1.poseFileMasks = a.poseFileMasks ++ p ∧
      (sequence_loop env todo i a).1.rgbImageMasks = a.rgbImageMasks ++ r := by
  induction todo generalizing i a with
  | zero => exact ⟨[], [], [], [], by simp [sequence_loop]⟩
  | succ n ih =>
    simp only [sequence_loop]
    split
    · exact ⟨[sequence_dir env a i], [], [], [], by simp⟩
    · obtain ⟨sd, d, p, r, h1, h2, h3, h4⟩ := ih (i + 1) { a with
        sequenceDirs := a.sequenceDirs ++ [sequence_dir env a i],
        depthImageMasks := a.depthImageMasks ++ [env.path_join (sequence_dir env a i) "frame-%06i.depth.png"],
        poseFileMasks := a.poseFileMasks ++ [env.path_join (sequence_dir env a i) "frame-%06i.pose.txt"],
        rgbImageMasks := a.rgbImageMasks ++ [env.path_join (sequence_dir env a i) "frame-%06i.color.png"] }
      exact ⟨sequence_dir env a i :: sd,
        env.path_join (sequence_dir env a i) "frame-%06i.depth.png" :: d,
        env.path_join (sequence_dir env a i) "frame-%06i.pose.txt" :: p,
        env.path_join (sequence_dir env a i) "frame-%06i.color.png" :: r,
        by rw [h1]; simp, by rw [h2]; simp, by rw [h3]; simp, by rw [h4]; simp⟩
    · obtain ⟨sd, d, p, r, h1, h2, h3, h4⟩ := ih (i + 1) { a with
        sequenceDirs := a.sequenceDirs ++ [sequence_dir env a i],
        depthImageMasks := a.depthImageMasks ++ [env.path_join (sequence_dir env a i) "depthm%06i.pgm"],
        poseFileMasks := a.poseFileMasks ++ [env.path_join (sequence_dir env a i) "posem%06i.txt"],
        rgbImageMasks := a.rgbImageMasks ++ [env.path_join (sequence_dir env a i) "rgbm%06i.ppm"] }
      exact ⟨sequence_dir env a i :: sd,
        env.path_join (sequence_dir env a i) "depthm%06i.pgm" :: d,
        env.path_join (sequence_dir env a i) "posem%06i.txt" :: p,
        env.path_join (sequence_dir env a i) "rgbm%06i.ppm" :: r,
        by rw [h1]; simp, by rw [h2]; simp, by rw [h3]; simp, by rw [h4]; simp⟩
    · exact ⟨[sequence_dir env a i], [], [], [], by simp⟩

/-- Running the loop for `m + n` iterations is running it for `m` and, unless that ended
in an error, for `n` more. -/
theorem sequence_loop_add (env : Environment) (m n i : Nat) (a : CommandLineArguments) :
    sequence_loop env (m + n) i a =
      (match sequence_loop env m i a with
       | (a', none) => sequence_loop env n (i + m) a'
       | (a', some message) => (a', some message)) := by
  induction m generalizing i a with
  | zero => simp [sequence_loop]
  | succ k ih =>
    rw [show k + 1 + n = (k + n) + 1 by omega]
    simp only [sequence_loop]
    split
    · rfl
    · rw [ih]
      rw [show i + 1 + k = i + (k + 1) by omega]
    · rw [ih]
      rw [show i + 1 + k = i + (k + 1) by omega]
    · rfl

/-- A directory that follows both naming conventions or neither makes the loop end in an
error. -/
theorem sequence_loop_fails (env : Environment) (todo i : Nat) (a : CommandLineArguments) (j : Nat)
    (h1 : i ≤ j) (h2 : j < i + todo) (hj : single_naming env a j = false) :
    (sequence_loop env todo i a).2 ≠ none := by
  induction todo generalizing i a with
  | zero => omega
  | succ n ih =>
    simp only [sequence_loop]
    by_cases hij : i = j
    · subst hij
      simp only [single_naming, Bool.or_eq_false_iff, beq_eq_false_iff_ne, ne_eq] at hj
      split
      · simp
      · rename_i hn
        exact absurd hn hj.1
      · rename_i hn
        exact absurd hn hj.2
      · simp
    · split
      · simp
      · exact ih (i + 1) _ (by omega) (by omega) hj
      · exact ih (i + 1) _ (by omega) (by omega) hj
      · simp

theorem sequence_loop_none_all_single (env : Environment) (todo i : Nat) (a : CommandLineArguments)
    (h : (sequence_loop env todo i a).2 = none) :
    ∀ j, i ≤ j → j < i + todo → single_naming env a j = true := by
  intro j h1 h2
  cases hj : single_naming env a j with
  | true => rfl
  | false => exact absurd h (sequence_loop_fails env todo i a j h1 h2 hj)

/-- The arguments accepted post-processing leaves, in terms of those the model
configuration left: the sequence loop's four lists extended by one entry per sequence
specifier, the specifiers and the pipeline type as they were. -/
theorem postprocess_arguments_accepted_lists (env : Environment) (args : CommandLineArguments)
    (settings : Settings) (h : (postprocess_arguments env args settings).result = true) :
    (postprocess_arguments env args settings).args.sequenceSpecifiers =
      (load_model_configuration env args settings).1.sequenceSpecifiers ∧
    (postprocess_arguments env args settings).args.pipelineType =
      (load_model_configuration env args settings).1.pipelineType ∧
    (postprocess_arguments env args settings).args.sequenceDirs =
      (load_model_configuration env args settings).1.sequenceDirs ++
        (List.range' 0 (load_model_configuration env args settings).1.sequenceSpecifiers.length).map
          (sequence_dir env (load_model_configuration env args settings).1) ∧
    (postprocess_arguments env args settings).args.depthImageMasks =
      (load_model_configuration env args settings).1.depthImageMasks ++
        (List.range' 0 (load_model_configuration env args settings).1.sequenceSpecifiers.length).map
          (sequence_depth_mask env (load_model_configuration env args settings).1) ∧
    (postprocess_arguments env args settings).args.poseFileMasks =
      (load_model_configuration env args settings).1.poseFileMasks ++
        (List.range' 0 (load_model_configuration env args settings).1.sequenceSpecifiers.length).map
          (sequence_pose_mask env (load_model_configuration env args settings).1) ∧
    (postprocess_arguments env args settings).args.rgbImageMasks =
      (load_model_configuration env args settings).1.rgbImageMasks ++
        (List.range' 0 (load_model_configuration env args settings).1.sequenceSpecifiers.length).map
          (sequence_rgb_mask env (load_model_configuration env args settings).1) := by
  obtain ⟨_, hloop, hargs, _⟩ := postprocess_arguments_accepted env args settings h
  have hall := sequence_loop_none_all_single env _ 0 _ hloop
  have hform := sequence_loop_all_single env _ 0 _ hall
  rw [hargs, hform]
  refine ⟨?_, ?_, ?_, ?_, ?_, ?_⟩
  · exact derive_flags_frame env (·.sequenceSpecifiers) (fun _ _ => rfl) (fun _ _ => rfl)
      (fun _ _ => rfl) (fun _ _ => rfl) (fun _ _ => rfl) (fun _ _ => rfl) (fun _ _ => rfl) _
  · exact derive_flags_frame env (·.pipelineType) (fun _ _ => rfl) (fun _ _ => rfl)
      (fun _ _ => rfl) (fun _ _ => rfl) (fun _ _ => rfl) (fun _ _ => rfl) (fun _ _ => rfl) _
  · exact derive_flags_frame env (·.sequenceDirs) (fun _ _ => rfl) (fun _ _ => rfl)
      (fun _ _ => rfl) (fun _ _ => rfl) (fun _ _ => rfl) (fun _ _ => rfl) (fun _ _ => rfl) _
  · exact derive_flags_frame env (·.depthImageMasks) (fun _ _ => rfl) (fun _ _ => rfl)
      (fun _ _ => rfl) (fun _ _ => rfl) (fun _ _ => rfl) (fun _ _ => rfl) (fun _ _ => rfl) _
  · exact derive_flags_frame env (·.poseFileMasks) (fun _ _ => rfl) (fun _ _ => rfl)
      (fun _ _ => rfl) (fun _ _ => rfl) (fun _ _ => rfl) (fun _ _ => rfl) (fun _ _ => rfl) _
  · exact derive_flags_frame env (·.rgbImageMasks) (fun _ _ => rfl) (fun _ _ => rfl)
      (fun _ _ => rfl) (fun _ _ => rfl) (fun _ _ => rfl) (fun _ _ => rfl) (fun _ _ => rfl) _

theorem postprocess_arguments_accepted_runServer (env : Environment) (args : CommandLineArguments)
    (settings : Settings) (h : (postprocess_arguments env args settings).result = true) :
    (postprocess_arguments env args settings).args.runServer =
      ((load_model_configuration env args settings).1.runServer ||
        ((load_model_configuration env args settings).1.pipelineType == "collaborative" &&
          (load_model_configuration env args settings).1.sequenceSpecifiers.isEmpty)) := by
  rw [(postprocess_arguments_accepted env args settings h).2.2.1, derive_flags_runServer,
    sequence_loop_frame]

theorem collaborative_engines_length (env : Environment) (args : CommandLineArguments)
    (todo i : Nat) (engines : List CompositeImageSourceEngine)
    (h : collaborative_engines env args todo i = .ok engines) : engines.length = todo := by
  induction todo generalizing i engines with
  | zero =>
    simp only [collaborative_engines, Except.ok.injEq] at h
    rw [← h]
    rfl
  | succ n ih =>
    simp only [collaborative_engines] at h
    split at h
    · exact absurd h (by simp)
    · exact absurd h (by simp)
    · split at h
      · exact absurd h (by simp)
      · rename_i rest hrest
        simp only [Except.ok.injEq] at h
        rw [← h, List.length_cons, ih (i + 1) rest hrest]

/-- What the collaborative branch passes to the pipeline it constructs: one image source
engine per depth image mask, and the mapping server it was given. -/
theorem make_collaborative_pipeline_ok (env : Environment) (args : CommandLineArguments)
    (server : Option MappingServer) (p : Pipeline)
    (h : make_collaborative_pipeline env args server = .ok p) :
    ∃ engines configs mappingModes trackingModes mode,
      p = .CollaborativePipeline env.resources_dir engines configs mappingModes trackingModes
        args.detectFiducials server mode ∧
      engines.length = args.depthImageMasks.length := by
  unfold make_collaborative_pipeline at h
  split at h
  · exact absurd h (by simp)
  · rename_i engines hengines
    split at h
    · exact absurd h (by simp)
    · simp only [Except.ok.injEq] at h
      exact ⟨_, _, _, _, _, h.symm, collaborative_engines_length env args _ 0 engines hengines⟩

/-! ## C18: a collaborative pipeline without local agents has a server -/

/-- C18. Whenever `main` constructs a `CollaborativePipeline`, the arguments were accepted
by `postprocess_arguments` with pipeline type `collaborative`; and if the list of image
source engines it passes is empty, the mapping server it passes is non-null (it is the
multi-client server `main` has just started). -/
theorem C18_collaborative_without_agents_has_server (env : Environment) (commandLine : CommandLine)
    (settings : Settings) (resourcesDir : String) (engines : List CompositeImageSourceEngine)
    (configs : List String) (mappingModes : List MappingMode) (trackingModes : List TrackingMode)
    (detectFiducials : Bool) (server : Option MappingServer) (mode : CollaborationMode)
    (hp : (main env commandLine settings).pipeline =
      some (.CollaborativePipeline resourcesDir engines configs mappingModes trackingModes
        detectFiducials server mode)) :
    (postprocess_arguments env commandLine.args settings).result = true ∧
    (postprocess_arguments env commandLine.args settings).args.pipelineType = "collaborative" ∧
    (engines = [] →
      server ≠ none ∧ server = some { mode := .SM_MULTI_CLIENT, started := true } ∧
      (main env commandLine settings).mappingServer = server) := by
  have hstart : main_starts_up env commandLine settings = true := by
    cases hs : main_starts_up env commandLine settings with
    | true => rfl
    | false =>
      rw [(main_of_not_starts_up env commandLine settings hs).2.1] at hp
      exact absurd hp (by simp)
  have hacc := main_starts_up_accepted env commandLine settings hstart
  have hm := main_of_starts_up env commandLine settings hstart
  have hsrv := (main_configure_frame env (main_initial_run env commandLine settings)).2
  rw [← hm] at hsrv
  rw [hm] at hp
  have hargs0 : (main_initial_run env commandLine settings).args =
      (postprocess_arguments env commandLine.args settings).args :=
    (parse_command_line_eq env commandLine settings).1
  rcases main_configure_pipeline env _ _ hp with h1 | ⟨_, h1⟩ | ⟨hc, h1⟩
  · exact absurd h1 (by simp [main_initial_run])
  · have := make_single_pipeline_collaborationMode env _ _ h1
    exact absurd this (by simp [Pipeline.collaborationMode])
  · rw [hargs0] at hc h1 hsrv
    obtain ⟨engines', _, _, _, _, hpe, hlen⟩ := make_collaborative_pipeline_ok env _ _ _ h1
    simp only [Pipeline.CollaborativePipeline.injEq] at hpe
    obtain ⟨_, he, _, _, _, _, hserver, _⟩ := hpe
    refine ⟨hacc, hc, ?_⟩
    intro hempty
    obtain ⟨hseq, hpt, _, hdepth, _, _⟩ := postprocess_arguments_accepted_lists env _ settings hacc
    have hn : (load_model_configuration env commandLine.args settings).1.sequenceSpecifiers.length = 0 := by
      rw [← he, hempty] at hlen
      rw [hdepth] at hlen
      simp only [List.length_nil, List.length_append, List.length_map, List.length_range'] at hlen
      omega
    have hrun : (postprocess_arguments env commandLine.args settings).args.runServer = true := by
      rw [postprocess_arguments_accepted_runServer env _ settings hacc, ← hpt, hc]
      have : (load_model_configuration env commandLine.args settings).1.sequenceSpecifiers = [] :=
        List.eq_nil_of_length_eq_zero hn
      simp [this]
    rw [hrun, hc] at hserver hsrv
    simp only [if_true, beq_self_eq_true] at hserver hsrv
    rw [hsrv, hserver]
    exact ⟨by simp, rfl, rfl⟩

/-- C18, at `--pipelineType collaborative` with no sequence: no local agent, one server. -/
theorem C18_collaborative_without_agents_has_server_witness :
    (main Environment.bare
      ⟨{ CommandLineArguments.defaults with pipelineType := "collaborative" }, false⟩
      Settings.fresh).mappingServer = some { mode := .SM_MULTI_CLIENT, started := true } :=
  ((C18_collaborative_without_agents_has_server Environment.bare
    ⟨{ CommandLineArguments.defaults with pipelineType := "collaborative" }, false⟩ Settings.fresh
    "/opt/spaint/resources" [] [] [] [] false (some { mode := .SM_MULTI_CLIENT, started := true })
    .CM_BATCH (by decide)).2.2 rfl).2.2

/-! ## C19: the naming convention of a sequence directory -/

theorem single_naming_iff (env : Environment) (a : CommandLineArguments) (i : Nat) :
    single_naming env a i = true ↔
      has_seven_scenes_marker env (sequence_dir env a i) ≠ has_spaint_marker env (sequence_dir env a i) := by
  unfold single_naming sequence_naming has_seven_scenes_marker has_spaint_marker
  cases env.is_regular_file (env.path_join (sequence_dir env a i) "frame-000000.depth.png") <;>
    cases env.is_regular_file (env.path_join (sequence_dir env a i) "depthm000000.pgm") <;> simp

theorem mask_names_of_markers (env : Environment) (dir : String) :
    (has_seven_scenes_marker env dir = true → has_spaint_marker env dir = false →
      mask_names (sequence_naming env dir) =
        ("frame-%06i.depth.png", "frame-%06i.pose.txt", "frame-%06i.color.png")) ∧
    (has_spaint_marker env dir = true → has_seven_scenes_marker env dir = false →
      mask_names (sequence_naming env dir) = ("depthm%06i.pgm", "posem%06i.txt", "rgbm%06i.ppm")) := by
  unfold sequence_naming has_seven_scenes_marker has_spaint_marker
  constructor
  · intro h1 h2
    simp [h1, h2, mask_names]
  · intro h1 h2
    simp [h1, h2, mask_names]

/-- The entries the loop has appended for sequence `k`, once it has got through the
directories up to and including that of sequence `k`. -/
theorem sequence_loop_entry (env : Environment) (todo : Nat) (a : CommandLineArguments) (k : Nat)
    (hk : k < todo) (h : ∀ j, j ≤ k → single_naming env a j = true) :
    (sequence_loop env todo 0 a).1.sequenceDirs[a.sequenceDirs.length + k]? =
      some (sequence_dir env a k) ∧
    (sequence_loop env todo 0 a).1.depthImageMasks[a.depthImageMasks.length + k]? =
      some (sequence_depth_mask env a k) ∧
    (sequence_loop env todo 0 a).1.poseFileMasks[a.poseFileMasks.length + k]? =
      some (sequence_pose_mask env a k) ∧
    (sequence_loop env todo 0 a).1.rgbImageMasks[a.rgbImageMasks.length + k]? =
      some (sequence_rgb_mask env a k) := by
  have hsplit : todo = (k + 1) + (todo - (k + 1)) := by omega
  have hfirst := sequence_loop_all_single env (k + 1) 0 a (fun j _ hj => h j (by omega))
  rw [hsplit, sequence_loop_add, hfirst]
  simp only []
  obtain ⟨sd, d, p, r, h1, h2, h3, h4⟩ := sequence_loop_appends env (todo - (k + 1)) (0 + (k + 1))
    { a with
      sequenceDirs := a.sequenceDirs ++ (List.range' 0 (k + 1)).map (sequence_dir env a),
      depthImageMasks := a.depthImageMasks ++ (List.range' 0 (k + 1)).map (sequence_depth_mask env a),
      poseFileMasks := a.poseFileMasks ++ (List.range' 0 (k + 1)).map (sequence_pose_mask env a),
      rgbImageMasks := a.rgbImageMasks ++ (List.range' 0 (k + 1)).map (sequence_rgb_mask env a) }
  have hget : ∀ (l extra : List String) (f : Nat → String),
      (l ++ (List.range' 0 (k + 1)).map f ++ extra)[l.length + k]? = some (f k) := by
    intro l extra f
    rw [List.append_assoc, List.getElem?_append_right (by omega)]
    have : l.length + k - l.length = k := by omega
    rw [this, List.getElem?_append_left (by simp)]
    simp [List.getElem?_range']
  rw [h1, h2, h3, h4]
  exact ⟨hget _ _ _, hget _ _ _, hget _ _ _, hget _ _ _⟩

/-- Without a sequence/mask conflict the four lists `postprocess_arguments` leaves are
those the sequence loop left, whether or not it returns true. -/
theorem postprocess_arguments_lists (env : Environment) (args : CommandLineArguments)
    (settings : Settings)
    (hconflict : (!args.sequenceSpecifiers.isEmpty &&
      (!args.depthImageMasks.isEmpty || !args.poseFileMasks.isEmpty || !args.rgbImageMasks.isEmpty)) = false) :
    (postprocess_arguments env args settings).args.sequenceDirs =
      (sequence_loop env (load_model_configuration env args settings).1.sequenceSpecifiers.length 0
        (load_model_configuration env args settings).1).1.sequenceDirs ∧
    (postprocess_arguments env args settings).args.depthImageMasks =
      (sequence_loop env (load_model_configuration env args settings).1.sequenceSpecifiers.length 0
        (load_model_configuration env args settings).1).1.depthImageMasks ∧
    (postprocess_arguments env args settings).args.poseFileMasks =
      (sequence_loop env (load_model_configuration env args settings).1.sequenceSpecifiers.length 0
        (load_model_configuration env args settings).1).1.poseFileMasks ∧
    (postprocess_arguments env args settings).args.rgbImageMasks =
      (sequence_loop env (load_model_configuration env args settings).1.sequenceSpecifiers.length 0
        (load_model_configuration env args settings).1).1.rgbImageMasks := by
  have hd : ∀ x : CommandLineArguments,
      (derive_flags env x).sequenceDirs = x.sequenceDirs ∧
      (derive_flags env x).depthImageMasks = x.depthImageMasks ∧
      (derive_flags env x).poseFileMasks = x.poseFileMasks ∧
      (derive_flags env x).rgbImageMasks = x.rgbImageMasks := fun x =>
    ⟨derive_flags_frame env (·.sequenceDirs) (fun _ _ => rfl) (fun _ _ => rfl)
        (fun _ _ => rfl) (fun _ _ => rfl) (fun _ _ => rfl) (fun _ _ => rfl) (fun _ _ => rfl) x,
     derive_flags_frame env (·.depthImageMasks) (fun _ _ => rfl) (fun _ _ => rfl)
        (fun _ _ => rfl) (fun _ _ => rfl) (fun _ _ => rfl) (fun _ _ => rfl) (fun _ _ => rfl) x,
     derive_flags_frame env (·.poseFileMasks) (fun _ _ => rfl) (fun _ _ => rfl)
        (fun _ _ => rfl) (fun _ _ => rfl) (fun _ _ => rfl) (fun _ _ => rfl) (fun _ _ => rfl) x,
     derive_flags_frame env (·.rgbImageMasks) (fun _ _ => rfl) (fun _ _ => rfl)
        (fun _ _ => rfl) (fun _ _ => rfl) (fun _ _ => rfl) (fun _ _ => rfl) (fun _ _ => rfl) x⟩
  unfold postprocess_arguments
  rw [if_neg (by simp [hconflict])]
  rcases hl : load_model_configuration env args settings with ⟨a, s⟩
  simp only []
  rcases hs : sequence_loop env a.sequenceSpecifiers.length 0 a with ⟨a2, m⟩
  cases m with
  | some msg => exact ⟨rfl, rfl, rfl, rfl⟩
  | none =>
    simp only []
    split
    · exact hd a2
    · exact hd a2

/-- C19. Let `a` be the arguments once the model configuration has been read and `i` the
index of one of its sequence specifiers. If the directory of sequence `i` contains both
marker files or neither, `postprocess_arguments` returns false. If there is no
sequence/mask conflict and the directories of the sequences up to `i` each contain exactly
one marker file, then the directory of sequence `i` is recorded and the depth, pose and
RGB masks appended for it are the three 7-Scenes patterns if it holds the 7-Scenes marker,
and the three spaint patterns if it holds the spaint marker, each joined onto that
directory. -/
theorem C19_masks_follow_the_directory (env : Environment) (args : CommandLineArguments)
    (settings : Settings) (a : CommandLineArguments)
    (ha : a = (load_model_configuration env args settings).1) (i : Nat)
    (hi : i < a.sequenceSpecifiers.length) :
    (has_seven_scenes_marker env (sequence_dir env a i) = has_spaint_marker env (sequence_dir env a i) →
      (postprocess_arguments env args settings).result = false) ∧
    ((!args.sequenceSpecifiers.isEmpty &&
        (!args.depthImageMasks.isEmpty || !args.poseFileMasks.isEmpty || !args.rgbImageMasks.isEmpty)) = false →
      (∀ j, j ≤ i →
        has_seven_scenes_marker env (sequence_dir env a j) ≠ has_spaint_marker env (sequence_dir env a j)) →
      (postprocess_arguments env args settings).args.sequenceDirs[a.sequenceDirs.length + i]? =
        some (sequence_dir env a i) ∧
      (has_seven_scenes_marker env (sequence_dir env a i) = true →
        (postprocess_arguments env args settings).args.depthImageMasks[a.depthImageMasks.length + i]? =
          some (env.path_join (sequence_dir env a i) "frame-%06i.depth.png") ∧
        (postprocess_arguments env args settings).args.poseFileMasks[a.poseFileMasks.length + i]? =
          some (env.path_join (sequence_dir env a i) "frame-%06i.pose.txt") ∧
        (postprocess_arguments env args settings).args.rgbImageMasks[a.rgbImageMasks.length + i]? =
          some (env.path_join (sequence_dir env a i) "frame-%06i.color.png")) ∧
      (has_spaint_marker env (sequence_dir env a i) = true →
        (postprocess_arguments env args settings).args.depthImageMasks[a.depthImageMasks.length + i]? =
          some (env.path_join (sequence_dir env a i) "depthm%06i.pgm") ∧
        (postprocess_arguments env args settings).args.poseFileMasks[a.poseFileMasks.length + i]? =
          some (env.path_join (sequence_dir env a i) "posem%06i.txt") ∧
        (postprocess_arguments env args settings).args.rgbImageMasks[a.rgbImageMasks.length + i]? =
          some (env.path_join (sequence_dir env a i) "rgbm%06i.ppm"))) := by
  subst ha
  constructor
  · intro hboth
    have hsingle : single_naming env (load_model_configuration env args settings).1 i = false := by
      cases hs : single_naming env (load_model_configuration env args settings).1 i with
      | false => rfl
      | true => exact absurd hboth ((single_naming_iff env _ i).1 hs)
    have hfail := sequence_loop_fails env
      (load_model_configuration env args settings).1.sequenceSpecifiers.length 0
      (load_model_configuration env args settings).1 i (Nat.zero_le i) (by omega) hsingle
    rw [postprocess_arguments_result]
    cases hl : (sequence_loop env (load_model_configuration env args settings).1.sequenceSpecifiers.length 0
        (load_model_configuration env args settings).1).2 with
    | none => exact absurd hl hfail
    | some msg => simp
  · intro hconflict hone
    obtain ⟨e1, e2, e3, e4⟩ := postprocess_arguments_lists env args settings hconflict
    obtain ⟨g1, g2, g3, g4⟩ := sequence_loop_entry env _ (load_model_configuration env args settings).1 i hi
      (fun j hj => (single_naming_iff env _ j).2 (hone j hj))
    rw [e1, e2, e3, e4, g1, g2, g3, g4]
    have hne := hone i (Nat.le_refl i)
    refine ⟨rfl, ?_, ?_⟩
    · intro h7
      have hs : has_spaint_marker env (sequence_dir env (load_model_configuration env args settings).1 i) =
          false := by
        cases hsp : has_spaint_marker env (sequence_dir env (load_model_configuration env args settings).1 i) with
        | false => rfl
        | true => rw [h7, hsp] at hne; exact absurd rfl hne
      have hm := (mask_names_of_markers env _).1 h7 hs
      simp [sequence_depth_mask, sequence_pose_mask, sequence_rgb_mask, hm]
    · intro hsp
      have h7 : has_seven_scenes_marker env
          (sequence_dir env (load_model_configuration env args settings).1 i) = false := by
        cases h7 : has_seven_scenes_marker env
            (sequence_dir env (load_model_configuration env args settings).1 i) with
        | false => rfl
        | true => rw [h7, hsp] at hne; exact absurd rfl hne
      have hm := (mask_names_of_markers env _).2 hsp h7
      simp [sequence_depth_mask, sequence_pose_mask, sequence_rgb_mask, hm]

/-- C19, at `-s chess` where `chess` is a 7-Scenes sequence next to the executable. -/
theorem C19_masks_follow_the_directory_witness :
    (postprocess_arguments Environment.with_chess
      { CommandLineArguments.defaults with sequenceSpecifiers := ["chess"] }
      Settings.fresh).args.depthImageMasks[0]? =
        some "/opt/spaint/sequences/chess/frame-%06i.depth.png" :=
  (((C19_masks_follow_the_directory Environment.with_chess
    { CommandLineArguments.defaults with sequenceSpecifiers := ["chess"] } Settings.fresh
    { CommandLineArguments.defaults with sequenceSpecifiers := ["chess"] } rfl 0 (by decide)).2
      (by decide) (fun j hj => by
        have : j = 0 := by omega
        subst this
        decide)).2.1 (by decide)).1

/-! ## C20: one entry per sequence specifier -/

/-- The directory of sequence `i` in terms of the specifier and the type stored at that
index. -/
theorem sequence_dir_eq (env : Environment) (a : CommandLineArguments) (i : Nat) (spec : String)
    (h : a.sequenceSpecifiers[i]? = some spec) :
    sequence_dir env a i =
      (if env.is_directory spec = true then spec
       else env.path_join
        (env.find_subdir_from_executable ((a.sequenceTypes[i]?).getD "sequence" ++ "s")) spec) := by
  unfold sequence_dir
  have hspec : a.sequenceSpecifiers.getD i "" = spec := by
    rw [List.getD_eq_getElem?_getD, h]
    rfl
  have htype : (if i < a.sequenceTypes.length then a.sequenceTypes.getD i "" else "sequence") =
      (a.sequenceTypes[i]?).getD "sequence" := by
    by_cases hi : i < a.sequenceTypes.length
    · rw [if_pos hi, List.getD_eq_getElem?_getD, List.getElem?_eq_getElem hi]
      rfl
    · rw [if_neg hi, List.getElem?_eq_none (by omega)]
      rfl
  simp only [hspec, htype]

/-- The three masks of a sequence whose directory follows exactly one naming convention,
in terms of the marker files found in that directory. -/
theorem sequence_masks_of_single (env : Environment) (a : CommandLineArguments) (i : Nat)
    (h : single_naming env a i = true) :
    env.is_regular_file (env.path_join (sequence_dir env a i) "frame-000000.depth.png") ≠
      env.is_regular_file (env.path_join (sequence_dir env a i) "depthm000000.pgm") ∧
    (env.is_regular_file (env.path_join (sequence_dir env a i) "frame-000000.depth.png") = true →
      sequence_depth_mask env a i = env.path_join (sequence_dir env a i) "frame-%06i.depth.png" ∧
      sequence_rgb_mask env a i = env.path_join (sequence_dir env a i) "frame-%06i.color.png" ∧
      sequence_pose_mask env a i = env.path_join (sequence_dir env a i) "frame-%06i.pose.txt") ∧
    (env.is_regular_file (env.path_join (sequence_dir env a i) "depthm000000.pgm") = true →
      sequence_depth_mask env a i = env.path_join (sequence_dir env a i) "depthm%06i.pgm" ∧
      sequence_rgb_mask env a i = env.path_join (sequence_dir env a i) "rgbm%06i.ppm" ∧
      sequence_pose_mask env a i = env.path_join (sequence_dir env a i) "posem%06i.txt") := by
  have hne := (single_naming_iff env a i).1 h
  have hm := mask_names_of_markers env (sequence_dir env a i)
  unfold has_seven_scenes_marker has_spaint_marker at hne hm
  refine ⟨hne, ?_, ?_⟩
  · intro h7
    have hs : env.is_regular_file (env.path_join (sequence_dir env a i) "depthm000000.pgm") = false := by
      cases hc : env.is_regular_file (env.path_join (sequence_dir env a i) "depthm000000.pgm") with
      | false => rfl
      | true => exact absurd (h7.trans hc.symm) hne
    simp only [sequence_depth_mask, sequence_rgb_mask, sequence_pose_mask, hm.1 h7 hs]
    refine ⟨?_, ?_, ?_⟩ <;> first | rfl | trivial
  · intro hs
    have h7 : env.is_regular_file (env.path_join (sequence_dir env a i) "frame-000000.depth.png") = false := by
      cases hc : env.is_regular_file (env.path_join (sequence_dir env a i) "frame-000000.depth.png") with
      | false => rfl
      | true => exact absurd (hc.trans hs.symm) hne
    simp only [sequence_depth_mask, sequence_rgb_mask, sequence_pose_mask, hm.2 hs h7]
    refine ⟨?_, ?_, ?_⟩ <;> first | rfl | trivial

/-- C20. For every argument set with at least one sequence specifier that
`postprocess_arguments` accepts, when the model configuration (if any) leaves the three
mask lists as given and the sequence directories empty as `parse_command_line` leaves
them: the depth masks, RGB masks, pose masks and sequence directories each have exactly as
many entries as there are sequence specifiers, and entry `i` of each is the one derived
from sequence specifier `i` (the directory found for it, and the mask of that directory's
naming convention). Spelt out: if `spec` is the specifier at index `i`, then the directory
at index `i` is `spec` itself if `spec` is a directory and otherwise `spec` below the
directory next to the executable named after the sequence type at index `i` (`sequence` if
there is none) with an `s` appended; that directory holds exactly one of the marker files
`frame-000000.depth.png` and `depthm000000.pgm`; with the first, the masks at index `i` are
`frame-%06i.depth.png`, `frame-%06i.color.png` and `frame-%06i.pose.txt` in that directory,
with the second `depthm%06i.pgm`, `rgbm%06i.ppm` and `posem%06i.txt` in that directory. -/
theorem C20_one_entry_per_sequence (env : Environment) (args : CommandLineArguments)
    (settings : Settings) (a : CommandLineArguments)
    (ha : a = (load_model_configuration env args settings).1)
    (hs : args.sequenceSpecifiers ≠ [])
    (hacc : (postprocess_arguments env args settings).result = true)
    (hd : a.depthImageMasks = args.depthImageMasks) (hr : a.rgbImageMasks = args.rgbImageMasks)
    (hp : a.poseFileMasks = args.poseFileMasks) (hsd : a.sequenceDirs = []) :
    ((postprocess_arguments env args settings).args.depthImageMasks.length =
      (postprocess_arguments env args settings).args.sequenceSpecifiers.length ∧
    (postprocess_arguments env args settings).args.rgbImageMasks.length =
      (postprocess_arguments env args settings).args.sequenceSpecifiers.length ∧
    (postprocess_arguments env args settings).args.poseFileMasks.length =
      (postprocess_arguments env args settings).args.sequenceSpecifiers.length ∧
    (postprocess_arguments env args settings).args.sequenceDirs.length =
      (postprocess_arguments env args settings).args.sequenceSpecifiers.length ∧
    ∀ i, i < (postprocess_arguments env args settings).args.sequenceSpecifiers.length →
      (postprocess_arguments env args settings).args.sequenceDirs[i]? =
        some (sequence_dir env (postprocess_arguments env args settings).args i) ∧
      (postprocess_arguments env args settings).args.depthImageMasks[i]? =
        some (sequence_depth_mask env (postprocess_arguments env args settings).args i) ∧
      (postprocess_arguments env args settings).args.rgbImageMasks[i]? =
        some (sequence_rgb_mask env (postprocess_arguments env args settings).args i) ∧
      (postprocess_arguments env args settings).args.poseFileMasks[i]? =
        some (sequence_pose_mask env (postprocess_arguments env args settings).args i)) ∧
    (postprocess_arguments env args settings).args.sequenceSpecifiers = a.sequenceSpecifiers ∧
    (postprocess_arguments env args settings).args.sequenceTypes = a.sequenceTypes ∧
    ∀ (i : Nat) (spec dir : String),
      (postprocess_arguments env args settings).args.sequenceSpecifiers[i]? = some spec →
      dir = (if env.is_directory spec = true then spec
        else env.path_join (env.find_subdir_from_executable
          (((postprocess_arguments env args settings).args.sequenceTypes[i]?).getD "sequence" ++ "s"))
          spec) →
      (postprocess_arguments env args settings).args.sequenceDirs[i]? = some dir ∧
      env.is_regular_file (env.path_join dir "frame-000000.depth.png") ≠
        env.is_regular_file (env.path_join dir "depthm000000.pgm") ∧
      (env.is_regular_file (env.path_join dir "frame-000000.depth.png") = true →
        (postprocess_arguments env args settings).args.depthImageMasks[i]? =
          some (env.path_join dir "frame-%06i.depth.png") ∧
        (postprocess_arguments env args settings).args.rgbImageMasks[i]? =
          some (env.path_join dir "frame-%06i.color.png") ∧
        (postprocess_arguments env args settings).args.poseFileMasks[i]? =
          some (env.path_join dir "frame-%06i.pose.txt")) ∧
      (env.is_regular_file (env.path_join dir "depthm000000.pgm") = true →
        (postprocess_arguments env args settings).args.depthImageMasks[i]? =
          some (env.path_join dir "depthm%06i.pgm") ∧
        (postprocess_arguments env args settings).args.rgbImageMasks[i]? =
          some (env.path_join dir "rgbm%06i.ppm") ∧
        (postprocess_arguments env args settings).args.poseFileMasks[i]? =
          some (env.path_join dir "posem%06i.txt")) := by
  have hold : (postprocess_arguments env args settings).args.depthImageMasks.length =
      (postprocess_arguments env args settings).args.sequenceSpecifiers.length ∧
    (postprocess_arguments env args settings).args.rgbImageMasks.length =
      (postprocess_arguments env args settings).args.sequenceSpecifiers.length ∧
    (postprocess_arguments env args settings).args.poseFileMasks.length =
      (postprocess_arguments env args settings).args.sequenceSpecifiers.length ∧
    (postprocess_arguments env args settings).args.sequenceDirs.length =
      (postprocess_arguments env args settings).args.sequenceSpecifiers.length ∧
    ∀ i, i < (postprocess_arguments env args settings).args.sequenceSpecifiers.length →
      (postprocess_arguments env args settings).args.sequenceDirs[i]? =
        some (sequence_dir env (postprocess_arguments env args settings).args i) ∧
      (postprocess_arguments env args settings).args.depthImageMasks[i]? =
        some (sequence_depth_mask env (postprocess_arguments env args settings).args i) ∧
      (postprocess_arguments env args settings).args.rgbImageMasks[i]? =
        some (sequence_rgb_mask env (postprocess_arguments env args settings).args i) ∧
      (postprocess_arguments env args settings).args.poseFileMasks[i]? =
        some (sequence_pose_mask env (postprocess_arguments env args settings).args i) := by
    subst ha
    obtain ⟨hconflict, _, _, _⟩ := postprocess_arguments_accepted env args settings hacc
    have hempty : args.depthImageMasks = [] ∧ args.poseFileMasks = [] ∧ args.rgbImageMasks = [] := by
      have hne : args.sequenceSpecifiers.isEmpty = false := by
        cases hl : args.sequenceSpecifiers with
        | nil => exact absurd hl hs
        | cons x xs => rfl
      rw [hne] at hconflict
      simp only [Bool.not_false, Bool.true_and, Bool.or_eq_false_iff, Bool.not_eq_false',
        List.isEmpty_iff] at hconflict
      exact ⟨hconflict.1.1, hconflict.1.2, hconflict.2⟩
    obtain ⟨hseq, _, e1, e2, e3, e4⟩ := postprocess_arguments_accepted_lists env args settings hacc
    rw [hsd] at e1
    rw [hd, hempty.1] at e2
    rw [hp, hempty.2.1] at e3
    rw [hr, hempty.2.2] at e4
    have hf : ∀ (i : Nat),
        sequence_dir env (postprocess_arguments env args settings).args i =
          sequence_dir env (load_model_configuration env args settings).1 i ∧
        sequence_depth_mask env (postprocess_arguments env args settings).args i =
          sequence_depth_mask env (load_model_configuration env args settings).1 i ∧
        sequence_rgb_mask env (postprocess_arguments env args settings).args i =
          sequence_rgb_mask env (load_model_configuration env args settings).1 i ∧
        sequence_pose_mask env (postprocess_arguments env args settings).args i =
          sequence_pose_mask env (load_model_configuration env args settings).1 i := fun i =>
      ⟨postprocess_arguments_frame env args settings (fun x => sequence_dir env x i) (fun _ _ => rfl)
          (fun _ _ => rfl) (fun _ _ => rfl) (fun _ _ => rfl) (fun _ _ => rfl) (fun _ _ => rfl)
          (fun _ _ => rfl) (fun _ _ _ _ _ => rfl) hacc,
       postprocess_arguments_frame env args settings (fun x => sequence_depth_mask env x i)
          (fun _ _ => rfl) (fun _ _ => rfl) (fun _ _ => rfl) (fun _ _ => rfl) (fun _ _ => rfl)
          (fun _ _ => rfl) (fun _ _ => rfl) (fun _ _ _ _ _ => rfl) hacc,
       postprocess_arguments_frame env args settings (fun x => sequence_rgb_mask env x i)
          (fun _ _ => rfl) (fun _ _ => rfl) (fun _ _ => rfl) (fun _ _ => rfl) (fun _ _ => rfl)
          (fun _ _ => rfl) (fun _ _ => rfl) (fun _ _ _ _ _ => rfl) hacc,
       postprocess_arguments_frame env args settings (fun x => sequence_pose_mask env x i)
          (fun _ _ => rfl) (fun _ _ => rfl) (fun _ _ => rfl) (fun _ _ => rfl) (fun _ _ => rfl)
          (fun _ _ => rfl) (fun _ _ => rfl) (fun _ _ _ _ _ => rfl) hacc⟩
    have hget : ∀ (f : Nat → String) (n i : Nat), i < n →
        ([] ++ (List.range' 0 n).map f)[i]? = some (f i) := by
      intro f n i hi
      simp [List.getElem?_range', hi]
    rw [e1, e2, e3, e4, hseq]
    refine ⟨by simp, by simp, by simp, by simp, ?_⟩
    intro i hi
    obtain ⟨f1, f2, f3, f4⟩ := hf i
    rw [f1, f2, f3, f4]
    exact ⟨hget _ _ i hi, hget _ _ i hi, hget _ _ i hi, hget _ _ i hi⟩
  have hspecs : (postprocess_arguments env args settings).args.sequenceSpecifiers =
      a.sequenceSpecifiers := by
    rw [ha]
    exact (postprocess_arguments_accepted_lists env args settings hacc).1
  have htypes : (postprocess_arguments env args settings).args.sequenceTypes = a.sequenceTypes := by
    rw [ha]
    exact postprocess_arguments_frame env args settings (·.sequenceTypes) (fun _ _ => rfl)
      (fun _ _ => rfl) (fun _ _ => rfl) (fun _ _ => rfl) (fun _ _ => rfl) (fun _ _ => rfl)
      (fun _ _ => rfl) (fun _ _ _ _ _ => rfl) hacc
  refine ⟨hold, hspecs, htypes, ?_⟩
  intro i spec dir hspec hdir
  have hi : i < (postprocess_arguments env args settings).args.sequenceSpecifiers.length := by
    by_contra hc
    rw [List.getElem?_eq_none (by omega)] at hspec
    exact absurd hspec (by simp)
  have hsingle : single_naming env (postprocess_arguments env args settings).args i = true := by
    have hframe : single_naming env (postprocess_arguments env args settings).args i =
        single_naming env (load_model_configuration env args settings).1 i :=
      postprocess_arguments_frame env args settings (fun x => single_naming env x i) (fun _ _ => rfl)
        (fun _ _ => rfl) (fun _ _ => rfl) (fun _ _ => rfl) (fun _ _ => rfl) (fun _ _ => rfl)
        (fun _ _ => rfl) (fun _ _ _ _ _ => rfl) hacc
    rw [hframe]
    apply sequence_loop_none_all_single env _ 0 _
      (postprocess_arguments_accepted env args settings hacc).2.1 i (Nat.zero_le _)
    rw [hspecs, ha] at hi
    omega
  have hdir2 : sequence_dir env (postprocess_arguments env args settings).args i = dir := by
    rw [hdir]
    exact sequence_dir_eq env _ i spec hspec
  obtain ⟨g1, g2, g3, g4⟩ := hold.2.2.2.2 i hi
  obtain ⟨m1, m2, m3⟩ := sequence_masks_of_single env _ i hsingle
  rw [hdir2] at g1 m1 m2 m3
  refine ⟨g1, m1, ?_, ?_⟩
  · intro h7
    obtain ⟨k1, k2, k3⟩ := m2 h7
    rw [← k1, ← k2, ← k3]
    exact ⟨g2, g3, g4⟩
  · intro h7
    obtain ⟨k1, k2, k3⟩ := m3 h7
    rw [← k1, ← k2, ← k3]
    exact ⟨g2, g3, g4⟩

/-- C20, at `-s chess -s /data/office`, where `chess` is a 7-Scenes sequence next to the
executable and `/data/office` a directory following the spaint convention: the four lists
in the order of the specifiers, and the entries at index 1 as derived from the second
specifier. -/
theorem C20_one_entry_per_sequence_witness :
    (postprocess_arguments Environment.with_two_sequences
      { CommandLineArguments.defaults with sequenceSpecifiers := ["chess", "/data/office"] }
      Settings.fresh).args.sequenceDirs = ["/opt/spaint/sequences/chess", "/data/office"] ∧
    (postprocess_arguments Environment.with_two_sequences
      { CommandLineArguments.defaults with sequenceSpecifiers := ["chess", "/data/office"] }
      Settings.fresh).args.depthImageMasks =
        ["/opt/spaint/sequences/chess/frame-%06i.depth.png", "/data/office/depthm%06i.pgm"] ∧
    (postprocess_arguments Environment.with_two_sequences
      { CommandLineArguments.defaults with sequenceSpecifiers := ["chess", "/data/office"] }
      Settings.fresh).args.rgbImageMasks =
        ["/opt/spaint/sequences/chess/frame-%06i.color.png", "/data/office/rgbm%06i.ppm"] ∧
    (postprocess_arguments Environment.with_two_sequences
      { CommandLineArguments.defaults with sequenceSpecifiers := ["chess", "/data/office"] }
      Settings.fresh).args.poseFileMasks =
        ["/opt/spaint/sequences/chess/frame-%06i.pose.txt", "/data/office/posem%06i.txt"] ∧
    ((postprocess_arguments Environment.with_two_sequences
      { CommandLineArguments.defaults with sequenceSpecifiers := ["chess", "/data/office"] }
      Settings.fresh).args.depthImageMasks[1]? = some "/data/office/depthm%06i.pgm" ∧
    (postprocess_arguments Environment.with_two_sequences
      { CommandLineArguments.defaults with sequenceSpecifiers := ["chess", "/data/office"] }
      Settings.fresh).args.rgbImageMasks[1]? = some "/data/office/rgbm%06i.ppm" ∧
    (postprocess_arguments Environment.with_two_sequences
      { CommandLineArguments.defaults with sequenceSpecifiers := ["chess", "/data/office"] }
      Settings.fresh).args.poseFileMasks[1]? = some "/data/office/posem%06i.txt") :=
  ⟨by decide, by decide, by decide, by decide,
    ((C20_one_entry_per_sequence Environment.with_two_sequences
      { CommandLineArguments.defaults with sequenceSpecifiers := ["chess", "/data/office"] }
      Settings.fresh
      { CommandLineArguments.defaults with sequenceSpecifiers := ["chess", "/data/office"] }
      rfl (by decide) (by decide) rfl rfl rfl rfl).2.2.2 1 "/data/office" "/data/office"
        (by decide) (by decide)).2.2.2 (by decide)⟩

/-! ## C21: global poses force the Disk tracker -/

theorem set_disk_loop_length (todo i : Nat) (v : List String) :
    (set_disk_loop todo i v).length = v.length := by
  induction todo generalizing i v with
  | zero => rfl
  | succ n ih => simp only [set_disk_loop, ih, List.length_set]

theorem set_disk_loop_getElem? (todo i : Nat) (v : List String) (k : Nat) :
    (set_disk_loop todo i v)[k]? =
      if i ≤ k ∧ k < i + todo ∧ k < v.length then some "Disk" else v[k]? := by
  induction todo generalizing i v with
  | zero =>
    simp only [set_disk_loop]
    rw [if_neg (by omega)]
  | succ n ih =>
    simp only [set_disk_loop, ih, List.length_set, List.getElem?_set]
    by_cases h1 : i = k
    · subst h1
      by_cases h2 : i < v.length
      · simp [h2]
      · simp [h2]
        omega
    · by_cases h2 : i + 1 ≤ k ∧ k < i + 1 + n ∧ k < v.length
      · rw [if_pos h2, if_pos (by omega)]
      · rw [if_neg h2, if_neg h1, if_neg (by omega)]

theorem resize_length (v : List String) (n : Nat) : (resize v n).length = n := by
  unfold resize
  simp only [List.length_append, List.length_take, List.length_replicate]
  omega

/-- Resizing the tracker specifiers to `n` entries and setting each of them to `Disk`
leaves exactly `n` entries `Disk`, whatever the specifiers were. -/
theorem set_disk_loop_resize (v : List String) (n : Nat) :
    set_disk_loop n 0 (resize v n) = List.replicate n "Disk" := by
  apply List.ext_getElem?
  intro k
  rw [set_disk_loop_getElem?, resize_length, List.getElem?_replicate]
  by_cases hk : k < n
  · rw [if_pos ⟨Nat.zero_le k, by omega, hk⟩, if_pos hk]
  · rw [if_neg (by omega), if_neg hk]
    rw [List.getElem?_eq_none_iff, resize_length]
    omega

theorem derive_flags_trackerSpecifiers (env : Environment) (a : CommandLineArguments) :
    (derive_flags env a).trackerSpecifiers =
      (if a.globalPosesSpecifier ≠ "" then List.replicate a.sequenceSpecifiers.length "Disk"
       else a.trackerSpecifiers) := by
  unfold derive_flags
  rw [collaborative_frame (·.trackerSpecifiers) (fun _ _ => rfl),
    vicon_tracker_frame (·.trackerSpecifiers) (fun _ _ => rfl),
    vicon_detector_frame (·.trackerSpecifiers) (fun _ _ => rfl),
    headless_frame (·.trackerSpecifiers) (fun _ _ => rfl),
    fiducials_frame (·.trackerSpecifiers) (fun _ _ => rfl),
    surfel_tracking_frame (·.trackerSpecifiers) (fun _ _ => rfl)]
  have h : ∀ b : CommandLineArguments, (disk_trackers_for_global_poses b).trackerSpecifiers =
      (if b.globalPosesSpecifier ≠ "" then List.replicate b.sequenceSpecifiers.length "Disk"
       else b.trackerSpecifiers) := by
    intro b
    unfold disk_trackers_for_global_poses
    by_cases hg : b.globalPosesSpecifier = ""
    · simp [hg]
    · simp [hg, set_disk_loop_resize]
  rw [h]
  let g : CommandLineArguments → List String := fun b =>
    if b.globalPosesSpecifier ≠ "" then List.replicate b.sequenceSpecifiers.length "Disk"
    else b.trackerSpecifiers
  show g _ = g a
  exact default_calibration_frame env g (fun _ _ => rfl) a

/-- Once past the conflict check and the sequence loop, the arguments
`postprocess_arguments` leaves are those `derive_flags` makes of the loop's. -/
theorem postprocess_arguments_args (env : Environment) (args : CommandLineArguments)
    (settings : Settings)
    (hconflict : (!args.sequenceSpecifiers.isEmpty &&
      (!args.depthImageMasks.isEmpty || !args.poseFileMasks.isEmpty || !args.rgbImageMasks.isEmpty)) = false)
    (hloop : (sequence_loop env (load_model_configuration env args settings).1.sequenceSpecifiers.length 0
      (load_model_configuration env args settings).1).2 = none) :
    (postprocess_arguments env args settings).args =
      derive_flags env (sequence_loop env
        (load_model_configuration env args settings).1.sequenceSpecifiers.length 0
        (load_model_configuration env args settings).1).1 := by
  unfold postprocess_arguments
  rw [if_neg (by simp [hconflict])]
  rcases hl : load_model_configuration env args settings with ⟨a, s⟩
  rw [hl] at hloop
  simp only [] at hloop ⊢
  rcases hs : sequence_loop env a.sequenceSpecifiers.length 0 a with ⟨a2, m⟩
  rw [hs] at hloop
  simp only [] at hloop
  subst hloop
  simp only []
  split <;> rfl

/-- C21. For every argument set that gets past the conflict check and the sequence loop of
`postprocess_arguments`, with `a` the arguments once the model configuration has been
read: if a global poses specifier is given, the tracker specifiers afterwards are exactly
as many as the sequence specifiers and each of them is `Disk`, whatever the tracker
specifiers were; if none is given, the tracker specifiers are those of `a`. -/
theorem C21_global_poses_force_disk_trackers (env : Environment) (args : CommandLineArguments)
    (settings : Settings) (a : CommandLineArguments)
    (ha : a = (load_model_configuration env args settings).1)
    (hconflict : (!args.sequenceSpecifiers.isEmpty &&
      (!args.depthImageMasks.isEmpty || !args.poseFileMasks.isEmpty || !args.rgbImageMasks.isEmpty)) = false)
    (hnaming : ∀ i, i < a.sequenceSpecifiers.length → single_naming env a i = true) :
    (a.globalPosesSpecifier ≠ "" →
      (postprocess_arguments env args settings).args.trackerSpecifiers.length =
        (postprocess_arguments env args settings).args.sequenceSpecifiers.length ∧
      (∀ t ∈ (postprocess_arguments env args settings).args.trackerSpecifiers, t = "Disk") ∧
      (postprocess_arguments env args settings).args.trackerSpecifiers =
        List.replicate (postprocess_arguments env args settings).args.sequenceSpecifiers.length "Disk") ∧
    (a.globalPosesSpecifier = "" →
      (postprocess_arguments env args settings).args.trackerSpecifiers = a.trackerSpecifiers) ∧
    (postprocess_arguments env args settings).args.sequenceSpecifiers = a.sequenceSpecifiers ∧
    (postprocess_arguments env args settings).args.globalPosesSpecifier = a.globalPosesSpecifier := by
  subst ha
  have hloop := sequence_loop_completes env
    (load_model_configuration env args settings).1.sequenceSpecifiers.length 0
    (load_model_configuration env args settings).1 (fun j _ hj => hnaming j (by omega))
  have hargs := postprocess_arguments_args env args settings hconflict hloop
  have hfr := sequence_loop_frame env
    (load_model_configuration env args settings).1.sequenceSpecifiers.length 0
    (load_model_configuration env args settings).1
  have hseq : (postprocess_arguments env args settings).args.sequenceSpecifiers =
      (load_model_configuration env args settings).1.sequenceSpecifiers := by
    rw [hargs, derive_flags_frame env (·.sequenceSpecifiers) (fun _ _ => rfl) (fun _ _ => rfl)
      (fun _ _ => rfl) (fun _ _ => rfl) (fun _ _ => rfl) (fun _ _ => rfl) (fun _ _ => rfl), hfr]
  have hgps : (postprocess_arguments env args settings).args.globalPosesSpecifier =
      (load_model_configuration env args settings).1.globalPosesSpecifier := by
    rw [hargs, derive_flags_frame env (·.globalPosesSpecifier) (fun _ _ => rfl) (fun _ _ => rfl)
      (fun _ _ => rfl) (fun _ _ => rfl) (fun _ _ => rfl) (fun _ _ => rfl) (fun _ _ => rfl), hfr]
  have htr : (postprocess_arguments env args settings).args.trackerSpecifiers =
      (if (load_model_configuration env args settings).1.globalPosesSpecifier ≠ "" then
        List.replicate (load_model_configuration env args settings).1.sequenceSpecifiers.length "Disk"
       else (load_model_configuration env args settings).1.trackerSpecifiers) := by
    rw [hargs, derive_flags_trackerSpecifiers, hfr]
  refine ⟨?_, ?_, hseq, hgps⟩
  · intro hg
    rw [htr, if_pos hg, hseq]
    exact ⟨by simp, fun t ht => List.eq_of_mem_replicate ht, rfl⟩
  · intro hg
    rw [htr, if_neg (by simp [hg])]

/-- C21, at `-s chess -g poses -t InfiniTAM Vicon`: one sequence, one tracker, `Disk`. -/
theorem C21_global_poses_force_disk_trackers_witness :
    (postprocess_arguments Environment.with_chess
      { CommandLineArguments.defaults with
        sequenceSpecifiers := ["chess"], globalPosesSpecifier := "poses",
        trackerSpecifiers := ["InfiniTAM", "Vicon"] }
      Settings.fresh).args.trackerSpecifiers = ["Disk"] :=
  ((C21_global_poses_force_disk_trackers Environment.with_chess
    { CommandLineArguments.defaults with
      sequenceSpecifiers := ["chess"], globalPosesSpecifier := "poses",
      trackerSpecifiers := ["InfiniTAM", "Vicon"] }
    Settings.fresh
    { CommandLineArguments.defaults with
      sequenceSpecifiers := ["chess"], globalPosesSpecifier := "poses",
      trackerSpecifiers := ["InfiniTAM", "Vicon"] }
    rfl (by decide) (fun i hi => by
      have : i = 0 := by
        have h1 : i < 1 := hi
        omega
      subst this
      decide)).1 (by decide)).2.2.trans (by decide)

/-! ## C22: the global tracker of a Disk chunk -/

theorem chunk_config_disk (env : Environment) (args : CommandLineArguments)
    (globalPoses : List (String × String)) (i : Nat) :
    chunk_config env args globalPoses i "Disk" = disk_chunk_config env args globalPoses i := by
  unfold chunk_config
  rw [if_neg (by decide), if_pos (by decide)]

/-- C22. For a `Disk` chunk at tracker index `i`, with sequence directory `i` and pose file
mask `i` at hand. With a non-empty global-pose map the pose is looked up under the stem of
sequence directory `i` and, only if that key is absent, under the scene ID (the world scene
ID for `i = 0`, `Local` followed by `i` otherwise); with the pose found, the file-based
tracker is emitted between `<tracker type='global'><params>POSE</params>` and
`</tracker>`; with both keys absent the runtime error naming the stem is thrown. With an
empty map the file-based tracker is emitted alone and no lookup is made (sequence
directory `i` need not even exist); the map is empty when no global poses specifier is
given. -/
theorem C22_global_tracker_of_disk_chunk (env : Environment) (args : CommandLineArguments)
    (globalPoses : List (String × String)) (i : Nat) (dir mask : String)
    (hmask : args.poseFileMasks[i]? = some mask) :
    (globalPoses ≠ [] → args.sequenceDirs[i]? = some dir →
      (∀ pose, globalPoses.lookup (env.path_stem dir) = some pose →
        chunk_config env args globalPoses i "Disk" =
          .ok ("<tracker type='global'><params>" ++ pose ++ "</params>" ++
            "<tracker type='infinitam'><params>type=file,mask=" ++ mask ++ ",initialFrameNo=" ++
            toString args.initialFrameNumber ++ "</params></tracker>" ++ "</tracker>")) ∧
      (globalPoses.lookup (env.path_stem dir) = none →
        ∀ pose,
          globalPoses.lookup (if i = 0 then env.world_scene_id else "Local" ++ toString i) = some pose →
          chunk_config env args globalPoses i "Disk" =
            .ok ("<tracker type='global'><params>" ++ pose ++ "</params>" ++
              "<tracker type='infinitam'><params>type=file,mask=" ++ mask ++ ",initialFrameNo=" ++
              toString args.initialFrameNumber ++ "</params></tracker>" ++ "</tracker>")) ∧
      (globalPoses.lookup (env.path_stem dir) = none →
        globalPoses.lookup (if i = 0 then env.world_scene_id else "Local" ++ toString i) = none →
        chunk_config env args globalPoses i "Disk" =
          .error (.runtime_error
            ("Error: Global pose for sequence '" ++ env.path_stem dir ++ "' not found")))) ∧
    chunk_config env args [] i "Disk" =
      .ok ("<tracker type='infinitam'><params>type=file,mask=" ++ mask ++ ",initialFrameNo=" ++
        toString args.initialFrameNumber ++ "</params></tracker>") ∧
    (args.globalPosesSpecifier = "" → global_poses_in_use env args = .ok []) := by
  have hguard : ¬ args.poseFileMasks.length < i := by
    intro h
    have : args.poseFileMasks[i]? = none := by
      rw [List.getElem?_eq_none_iff]
      omega
    rw [this] at hmask
    exact absurd hmask (by simp)
  refine ⟨?_, ?_, ?_⟩
  · intro hne hdir
    have hempty : globalPoses.isEmpty = false := by
      cases globalPoses with
      | nil => exact absurd rfl hne
      | cons x xs => rfl
    refine ⟨?_, ?_, ?_⟩
    · intro pose hpose
      rw [chunk_config_disk]
      unfold disk_chunk_config global_tracker_opening
      simp [hguard, hempty, hdir, hpose, hmask]
    · intro hstem pose hpose
      rw [chunk_config_disk]
      unfold disk_chunk_config global_tracker_opening
      simp [hguard, hempty, hdir, hstem, hpose, hmask]
    · intro hstem hscene
      rw [chunk_config_disk]
      unfold disk_chunk_config global_tracker_opening
      simp [hguard, hempty, hdir, hstem, hscene]
  · rw [chunk_config_disk]
    unfold disk_chunk_config
    simp [hguard, hmask]
  · intro hg
    unfold global_poses_in_use
    simp [hg]

/-- C22, for the sequence directory `chess` and a map that holds a pose for `World` and
one for `chess`: the pose found under the stem is the one used. -/
theorem C22_global_tracker_of_disk_chunk_witness :
    chunk_config Environment.bare
      { CommandLineArguments.defaults with
        sequenceDirs := ["chess"], poseFileMasks := ["chess/frame-%06i.pose.txt"] }
      [("World", "W"), ("chess", "P")] 0 "Disk" =
    .ok "<tracker type='global'><params>P</params><tracker type='infinitam'><params>type=file,mask=chess/frame-%06i.pose.txt,initialFrameNo=0</params></tracker></tracker>" :=
  (((C22_global_tracker_of_disk_chunk Environment.bare
    { CommandLineArguments.defaults with
      sequenceDirs := ["chess"], poseFileMasks := ["chess/frame-%06i.pose.txt"] }
    [("World", "W"), ("chess", "P")] 0 "chess" "chess/frame-%06i.pose.txt" rfl).1
      (by decide) rfl).1 "P" (by decide)).trans rfl

/-! ## C23: the refining composite -/

/-- No chunk configuration, whatever follows it, begins like a composite. -/
theorem chunk_config_not_composite (env : Environment) (args : CommandLineArguments)
    (globalPoses : List (String × String)) (i : Nat) (chunk first : String)
    (h : chunk_config env args globalPoses i chunk = .ok first) (m : List Char) :
    ("<tracker type='composite'>" : String).data.isPrefixOf (first.data ++ m) = false := by
  have hempty : ("" : String).data = [] := rfl
  unfold chunk_config at h
  split at h
  · simp only [Except.ok.injEq] at h
    subst h
    exact prefix_mismatch _ _ _ 16 (by decide) (by decide) (by decide)
  · split at h
    · unfold disk_chunk_config at h
      split at h
      · exact absurd h (by simp)
      · simp only [] at h
        split at h
        · exact absurd h (by simp)
        · rename_i opening hopening
          split at h
          · exact absurd h (by simp)
          · simp only [Except.ok.injEq] at h
            subst h
            split at hopening
            · obtain ⟨pose, hp⟩ := global_tracker_opening_ok env args globalPoses i opening hopening
              subst hp
              simp only [String.data_append, List.append_assoc]
              exact prefix_mismatch _ _ _ 16 (by decide) (by decide) (by decide)
            · simp only [Except.ok.injEq] at hopening
              subst hopening
              simp only [String.data_append, List.append_assoc, hempty, List.nil_append]
              exact prefix_mismatch _ _ _ 16 (by decide) (by decide) (by decide)
    · simp only [Except.ok.injEq] at h
      subst h
      simp only [String.data_append, List.append_assoc]
      exact prefix_mismatch _ _ _ 16 (by decide) (by decide) (by decide)

/-- Reading up to the first separator: the tokens before it, then the tokens after it. -/
theorem tokens_from_append_separator (separator : Char) (current l r : List Char) :
    tokens_from separator current (l ++ separator :: r) =
      tokens_from separator current l ++ tokens_from separator [] r := by
  induction l generalizing current with
  | nil =>
    simp only [List.nil_append, tokens_from, if_true]
    split <;> simp
  | cons c l ih =>
    simp only [List.cons_append, tokens_from]
    split
    · split
      · exact ih []
      · exact congrArg (List.cons _) (ih [])
    · exact ih (c :: current)

/-- Reading characters none of which is the separator: one token, unless there is nothing
to read. -/
theorem tokens_from_no_separator (separator : Char) (current l : List Char)
    (h : separator ∉ l) :
    tokens_from separator current l =
      (if (current.reverse ++ l).isEmpty then [] else [String.mk (current.reverse ++ l)]) := by
  induction l generalizing current with
  | nil => simp [tokens_from]
  | cons c l ih =>
    have hc : c ≠ separator := fun hc => h (hc ▸ List.mem_cons_self _ _)
    have hl : separator ∉ l := fun hl => h (List.mem_cons_of_mem _ hl)
    simp only [tokens_from, if_neg hc]
    rw [ih (c :: current) hl]
    simp

theorem tokenize_plus_empty : tokenize_plus "" = [] := rfl

theorem tokenize_plus_single (s : String) (hs : s ≠ "") (h : '+' ∉ s.data) :
    tokenize_plus s = [s] := by
  unfold tokenize_plus
  have hd : s.toList = s.data := rfl
  rw [hd, tokens_from_no_separator _ _ _ h]
  have hne : s.data ≠ [] := by
    intro hc
    apply hs
    cases s
    simp only at hc
    subst hc
    rfl
  simp [hne]

theorem tokenize_plus_append (s t : String) :
    tokenize_plus (s ++ "+" ++ t) = tokenize_plus s ++ tokenize_plus t := by
  unfold tokenize_plus
  have hd : (s ++ "+" ++ t).toList = s.data ++ '+' :: t.data := by
    show (s ++ "+" ++ t).data = _
    simp only [String.data_append, List.append_assoc]
    rfl
  rw [hd, tokens_from_append_separator]
  rfl

theorem tracker_specifier_given (args : CommandLineArguments) (i : Nat) (spec : String)
    (h : args.trackerSpecifiers[i]? = some spec) : tracker_specifier args i = spec := by
  unfold tracker_specifier
  have hi : i < args.trackerSpecifiers.length := by
    by_contra hc
    rw [List.getElem?_eq_none (by omega)] at h
    exact absurd h (by simp)
  rw [if_pos hi, List.getD_eq_getElem?_getD, h]
  rfl

theorem tracker_config_eq (env : Environment) (args : CommandLineArguments)
    (globalPoses : List (String × String)) (i : Nat) :
    tracker_config env args globalPoses i =
      (match chunks_config env args globalPoses i (tokenize_plus (tracker_specifier args i)) with
       | .error e => .error e
       | .ok inner =>
         .ok ((if (tokenize_plus (tracker_specifier args i)).length > 1
            then "<tracker type='composite'>" else "") ++ inner ++
          (if (tokenize_plus (tracker_specifier args i)).length > 1 then "</tracker>" else ""))) := rfl

/-- The configuration of a tracker whose specifier is a single chunk is that of the chunk. -/
theorem tracker_config_single (env : Environment) (args : CommandLineArguments)
    (globalPoses : List (String × String)) (i : Nat) (chunk : String)
    (h : tokenize_plus (tracker_specifier args i) = [chunk]) :
    tracker_config env args globalPoses i = chunk_config env args globalPoses i chunk := by
  rw [tracker_config_eq, h]
  simp only [chunks_config]
  cases chunk_config env args globalPoses i chunk with
  | error e => rfl
  | ok first =>
    simp only [List.length_singleton, gt_iff_lt, Nat.lt_irrefl, if_false, String.append_empty,
      String.empty_append]

/-- C23. Whenever the configuration of tracker `i` is generated, with `chunks` the pieces
its specifier splits into on `+`: if there is more than one chunk the result is the
chunks' configurations, in order, between `<tracker type='composite'>` (no policy
attribute) and `</tracker>`; otherwise it is the chunks' configurations alone (that of the
single chunk, or nothing); and the result begins with `<tracker type='composite'>` if
and only if there is more than one chunk. The configuration is generated whenever no
chunk is `Disk`. The pieces a text splits into on `+` are: none for the empty text, the
text itself if it is non-empty and holds no `+`, and for a text of the form `s+t` the
pieces of `s` followed by those of `t`. In terms of the specifier itself: with no specifier
given for tracker `i` the configuration is `<tracker type='infinitam'/>`; with a non-empty
specifier that holds no `+` it is that of the specifier as one chunk, and begins with no
composite tag; with a specifier `first+second` of two non-empty pieces that hold no `+` and
have the configurations `c1` and `c2`, it is
`<tracker type='composite'>` followed by `c1`, `c2` and `</tracker>`. -/
theorem C23_refining_composite (env : Environment) (args : CommandLineArguments)
    (globalPoses : List (String × String)) (i : Nat) :
    (∀ s : String, tracker_config env args globalPoses i = .ok s →
      ∃ inner : String,
        chunks_config env args globalPoses i (tokenize_plus (tracker_specifier args i)) = .ok inner ∧
        ((tokenize_plus (tracker_specifier args i)).length > 1 →
          s = "<tracker type='composite'>" ++ inner ++ "</tracker>") ∧
        ((tokenize_plus (tracker_specifier args i)).length ≤ 1 → s = inner) ∧
        (∀ chunk, tokenize_plus (tracker_specifier args i) = [chunk] →
          chunk_config env args globalPoses i chunk = .ok s) ∧
        (begins_with s "<tracker type='composite'>" = true ↔
          (tokenize_plus (tracker_specifier args i)).length > 1)) ∧
    ("Disk" ∉ tokenize_plus (tracker_specifier args i) →
      ∃ s, tracker_config env args globalPoses i = .ok s) ∧
    (tokenize_plus "" = [] ∧
      (∀ s : String, s ≠ "" → '+' ∉ s.data → tokenize_plus s = [s]) ∧
      (∀ s t : String, tokenize_plus (s ++ "+" ++ t) = tokenize_plus s ++ tokenize_plus t)) ∧
    (args.trackerSpecifiers.length ≤ i →
      tracker_config env args globalPoses i = .ok "<tracker type='infinitam'/>") ∧
    (∀ spec : String, args.trackerSpecifiers[i]? = some spec → spec ≠ "" → '+' ∉ spec.data →
      tracker_config env args globalPoses i = chunk_config env args globalPoses i spec ∧
      ∀ s, tracker_config env args globalPoses i = .ok s →
        begins_with s "<tracker type='composite'>" = false) ∧
    (∀ first second c1 c2 : String,
      args.trackerSpecifiers[i]? = some (first ++ "+" ++ second) →
      first ≠ "" → '+' ∉ first.data → second ≠ "" → '+' ∉ second.data →
      chunk_config env args globalPoses i first = .ok c1 →
      chunk_config env args globalPoses i second = .ok c2 →
      tracker_config env args globalPoses i =
        .ok ("<tracker type='composite'>" ++ c1 ++ c2 ++ "</tracker>")) := by
  have hold : (∀ s : String, tracker_config env args globalPoses i = .ok s →
      ∃ inner : String,
        chunks_config env args globalPoses i (tokenize_plus (tracker_specifier args i)) = .ok inner ∧
        ((tokenize_plus (tracker_specifier args i)).length > 1 →
          s = "<tracker type='composite'>" ++ inner ++ "</tracker>") ∧
        ((tokenize_plus (tracker_specifier args i)).length ≤ 1 → s = inner) ∧
        (∀ chunk, tokenize_plus (tracker_specifier args i) = [chunk] →
          chunk_config env args globalPoses i chunk = .ok s) ∧
        (begins_with s "<tracker type='composite'>" = true ↔
          (tokenize_plus (tracker_specifier args i)).length > 1)) ∧
    ("Disk" ∉ tokenize_plus (tracker_specifier args i) →
      ∃ s, tracker_config env args globalPoses i = .ok s) := by
    have hempty : ("" : String).data = [] := rfl
    constructor
    · intro s h
      unfold tracker_config at h
      simp only [] at h
      split at h
      · exact absurd h (by simp)
      · rename_i inner hinner
        simp only [Except.ok.injEq] at h
        have hinner' : chunks_config env args globalPoses i (tokenize_plus (tracker_specifier args i)) =
            .ok inner := hinner
        have hs : s = (if (tokenize_plus (tracker_specifier args i)).length > 1
            then "<tracker type='composite'>" else "") ++ inner ++
            (if (tokenize_plus (tracker_specifier args i)).length > 1 then "</tracker>" else "") := h.symm
        clear h hinner
        refine ⟨inner, hinner', ?_, ?_, ?_, ?_⟩
        · intro hc
          rw [hs, if_pos hc, if_pos hc]
        · intro hc
          rw [hs, if_neg (by omega), if_neg (by omega), String.empty_append, String.append_empty]
        · intro chunk hchunk
          rw [hchunk] at hinner' hs
          simp only [chunks_config] at hinner'
          split at hinner'
          · exact absurd hinner' (by simp)
          · rename_i first hfirst
            simp only [Except.ok.injEq, String.append_empty] at hinner'
            rw [hs, ← hinner', hfirst]
            simp
        · by_cases hc : (tokenize_plus (tracker_specifier args i)).length > 1
          · refine ⟨fun _ => hc, fun _ => ?_⟩
            rw [hs, if_pos hc, if_pos hc]
            unfold begins_with
            simp only [String.data_append, List.append_assoc, List.isPrefixOf_iff_prefix]
            exact List.prefix_append _ _
          · refine ⟨fun hb => ?_, fun h1 => absurd h1 hc⟩
            exfalso
            rw [hs, if_neg hc, if_neg hc, String.empty_append, String.append_empty] at hb
            unfold begins_with at hb
            generalize tokenize_plus (tracker_specifier args i) = chunks at hinner' hc
            match chunks, hinner', hc with
            | [], hinner', _ =>
              simp only [chunks_config, Except.ok.injEq] at hinner'
              rw [← hinner', hempty] at hb
              exact absurd hb (by decide)
            | [c], hinner', _ =>
              simp only [chunks_config] at hinner'
              split at hinner'
              · exact absurd hinner' (by simp)
              · rename_i first hfirst
                simp only [Except.ok.injEq] at hinner'
                rw [← hinner', String.data_append] at hb
                rw [chunk_config_not_composite env args globalPoses i c first hfirst _] at hb
                exact absurd hb (by simp)
            | c :: d :: cs, _, hc =>
              simp only [List.length_cons] at hc
              omega
    · intro hdisk
      obtain ⟨inner, hinner⟩ := chunks_config_returns env args globalPoses i _ hdisk
      unfold tracker_specifier at hinner
      unfold tracker_config
      simp only []
      rw [hinner]
      exact ⟨_, rfl⟩
  refine ⟨hold.1, hold.2, ⟨tokenize_plus_empty, tokenize_plus_single, tokenize_plus_append⟩,
    ?_, ?_, ?_⟩
  · intro hi
    have hspec : tracker_specifier args i = "InfiniTAM" := by
      unfold tracker_specifier
      rw [if_neg (by omega)]
    rw [tracker_config_single env args globalPoses i "InfiniTAM" (by rw [hspec]; rfl)]
    rfl
  · intro spec hspec hne hplus
    have hsingle : tracker_config env args globalPoses i =
        chunk_config env args globalPoses i spec :=
      tracker_config_single env args globalPoses i spec
        (by rw [tracker_specifier_given args i spec hspec]; exact tokenize_plus_single spec hne hplus)
    refine ⟨hsingle, ?_⟩
    intro s hs
    rw [hsingle] at hs
    have h := chunk_config_not_composite env args globalPoses i spec s hs []
    rw [List.append_nil] at h
    exact h
  · intro first second c1 c2 hspec h1 h2 h3 h4 hc1 hc2
    rw [tracker_config_eq, tracker_specifier_given args i _ hspec, tokenize_plus_append,
      tokenize_plus_single first h1 h2, tokenize_plus_single second h3 h4]
    simp only [List.singleton_append, chunks_config, hc1, hc2, List.length_cons, List.length_nil]
    simp [String.append_assoc]

/-- C23, for the specifier `InfiniTAM+Vicon` given for tracker 0: the configurations of
the two chunks, in order, bundled into a composite with no policy attribute. -/
theorem C23_refining_composite_witness :
    tracker_config Environment.bare
      { CommandLineArguments.defaults with trackerSpecifiers := ["InfiniTAM+Vicon"] } [] 0 =
      .ok ("<tracker type='composite'><tracker type='infinitam'/>" ++
        "<tracker type='import'><params>builtin:Vicon</params></tracker></tracker>") :=
  (C23_refining_composite Environment.bare
    { CommandLineArguments.defaults with trackerSpecifiers := ["InfiniTAM+Vicon"] } [] 0).2.2.2.2.2
    "InfiniTAM" "Vicon" "<tracker type='infinitam'/>"
    "<tracker type='import'><params>builtin:Vicon</params></tracker>"
    (by decide) (by decide) (by decide) (by decide) (by decide) rfl rfl

end Spaint
